import Mathlib

/-!
# RealtyAI dashboard: forecast normaliser and summary statistics

A shallow embedding of the data pipeline of `PriceForecasting.js`
(the live variant under `frontend/src/components` and the mock-data variant
under `src/components`): the `/forecast` response normaliser of
`handleForecast`, the statistics of `getForecastSummary` and of
`renderSingleForecast`, the merged time axis, chart rows and summary table of
`renderComparisonForecast`, the submission handlers `handleForecast` (both
variants) and `handleSubmit` (both variants of `PricePrediction.js`) with the
requests they send and the state they leave, the text extraction of the
prediction form (`extractBHK`, `extractCity`, `extractPropertyType`), the
selection editors (`addRegion`, `removeRegion`, `handleSingleRegionChange`) and
the statistics view of `renderStatistics`.

Conventions of the embedding.

* A finite JavaScript number is an exact rational; the non-finite values are
  explicit constructors of `JSNum`.  Arithmetic is exact: its rounding is not
  modelled, and negative zero is identified with zero.  The one place where
  rounding is modelled is the reading of a number from text (`parseInt` of a
  digit run, and of a number written in exponent form), since the integer a
  text denotes can be any size.
* Numbers that arrive in a JSON body are finite, so the prices of a response
  tuple and the `yhat` of a series point are rationals.
* A property of an object is modelled by what reading it returns: `none` is a
  read that yields `undefined` (or `null`), so an object that has no
  `isForecast` key has `isForecast = none`.
* An array is a list; `null` for an array or an object is `none`.
* An asynchronous handler is run to completion: its result is the component
  state once every state setter has been applied, together with the calls it
  made.  The server, the completion order of concurrent calls and the random
  generators of the mock variant are parameters.
-/

namespace RealtyAI

/-! ## JavaScript numbers -/

/-- A JavaScript number: a finite value (an exact rational), an infinity, or NaN. -/
inductive JSNum where
  | fin (q : ℚ)
  | posInf
  | negInf
  | nan
  deriving DecidableEq, Repr

namespace JSNum

/-- The JavaScript `-` operator on numbers. -/
def sub : JSNum → JSNum → JSNum
  | fin a, fin b => fin (a - b)
  | nan, _ => nan
  | _, nan => nan
  | posInf, posInf => nan
  | negInf, negInf => nan
  | posInf, _ => posInf
  | negInf, _ => negInf
  | fin _, posInf => negInf
  | fin _, negInf => posInf

/-- The JavaScript `+` operator on numbers. -/
def add : JSNum → JSNum → JSNum
  | fin a, fin b => fin (a + b)
  | nan, _ => nan
  | _, nan => nan
  | posInf, negInf => nan
  | negInf, posInf => nan
  | posInf, _ => posInf
  | negInf, _ => negInf
  | fin _, posInf => posInf
  | fin _, negInf => negInf

/-- The JavaScript `/` operator on numbers (a zero divisor is taken as `+0`). -/
def div : JSNum → JSNum → JSNum
  | fin a, fin b =>
    if b = 0 then (if a = 0 then nan else if 0 < a then posInf else negInf)
    else fin (a / b)
  | nan, _ => nan
  | _, nan => nan
  | fin _, posInf => fin 0
  | fin _, negInf => fin 0
  | posInf, fin b => if 0 ≤ b then posInf else negInf
  | negInf, fin b => if 0 ≤ b then negInf else posInf
  | posInf, posInf => nan
  | posInf, negInf => nan
  | negInf, posInf => nan
  | negInf, negInf => nan

/-- The JavaScript `*` operator on numbers. -/
def mul : JSNum → JSNum → JSNum
  | fin a, fin b => fin (a * b)
  | nan, _ => nan
  | _, nan => nan
  | posInf, fin b => if b = 0 then nan else if 0 < b then posInf else negInf
  | negInf, fin b => if b = 0 then nan else if 0 < b then negInf else posInf
  | fin a, posInf => if a = 0 then nan else if 0 < a then posInf else negInf
  | fin a, negInf => if a = 0 then nan else if 0 < a then negInf else posInf
  | posInf, posInf => posInf
  | posInf, negInf => negInf
  | negInf, posInf => negInf
  | negInf, negInf => posInf

/-- The JavaScript `<` operator on numbers: false as soon as one side is NaN. -/
def lt : JSNum → JSNum → Bool
  | fin a, fin b => decide (a < b)
  | negInf, fin _ => true
  | negInf, posInf => true
  | fin _, posInf => true
  | _, _ => false

/-- Whether the number is NaN (`Number.isNaN`). -/
def isNaN : JSNum → Bool
  | nan => true
  | _ => false

/-- Whether the number is finite (`Number.isFinite`). -/
def isFinite : JSNum → Bool
  | fin _ => true
  | _ => false

end JSNum

/-- ToNumber applied to the result of an optional-chaining read of a numeric property:
`undefined` becomes NaN. -/
def toNumber : Option ℚ → JSNum
  | some q => .fin q
  | none => .nan

/-- The builtin `Math.max(...args)`: starts from `-Infinity`, NaN is absorbing. -/
def mathMax (args : List JSNum) : JSNum :=
  args.foldl
    (fun highest number =>
      if highest.isNaN || number.isNaN then JSNum.nan
      else if highest.lt number then number else highest)
    JSNum.negInf

/-- The builtin `Math.min(...args)`: starts from `+Infinity`, NaN is absorbing. -/
def mathMin (args : List JSNum) : JSNum :=
  args.foldl
    (fun lowest number =>
      if lowest.isNaN || number.isNaN then JSNum.nan
      else if number.lt lowest then number else lowest)
    JSNum.posInf

/-- Truthiness of a flag property that is either absent or a boolean. -/
def truthy : Option Bool → Bool
  | some true => true
  | _ => false

/-- The builtin `Array.prototype.findIndex`; `none` stands for the result `-1`. -/
def findIndex {α : Type} (p : α → Bool) : List α → Option Nat
  | [] => none
  | x :: xs => if p x then some 0 else (findIndex p xs).map (· + 1)

/-! ## The `/forecast` response and the series -/

/-- One tuple of the `historical` list of a `/forecast` response. -/
structure HistoricalItem where
  Month : String
  Historical_Price : ℚ
  deriving DecidableEq, Repr

/-- One tuple of the `forecast` list of a `/forecast` response. -/
structure ForecastItem where
  Month : String
  Forecasted_Price : ℚ
  Lower_Bound : Option ℚ
  Upper_Bound : Option ℚ
  deriving DecidableEq, Repr

/-- The JSON body of a successful `POST /forecast`. -/
structure ForecastResponse where
  historical : List HistoricalItem
  forecast : List ForecastItem
  deriving DecidableEq, Repr

/-- A point of a normalised series, as built by `handleForecast`
(and by `generateMockForecastData` in the mock variant). -/
structure SeriesPoint where
  ds : String
  yhat : ℚ
  yhat_lower : Option ℚ
  yhat_upper : Option ℚ
  isHistorical : Option Bool
  isForecast : Option Bool
  deriving DecidableEq, Repr

/-- Live `handleForecast`, single mode, lines 69-73: `data.historical.map(...)`. -/
def historicalData (data : ForecastResponse) : List SeriesPoint :=
  data.historical.map fun item =>
    { ds := item.Month
      yhat := item.Historical_Price
      yhat_lower := none
      yhat_upper := none
      isHistorical := some true
      isForecast := none }

/-- Live `handleForecast`, single mode, lines 76-82: `data.forecast.map(...)`. -/
def forecastDataTransformed (data : ForecastResponse) : List SeriesPoint :=
  data.forecast.map fun item =>
    { ds := item.Month
      yhat := item.Forecasted_Price
      yhat_lower := item.Lower_Bound
      yhat_upper := item.Upper_Bound
      isHistorical := none
      isForecast := some true }

/-- Live `handleForecast`, single mode, line 85:
`[...historicalData, ...forecastDataTransformed]`. -/
def combinedData (data : ForecastResponse) : List SeriesPoint :=
  historicalData data ++ forecastDataTransformed data

/-! ## Summary statistics -/

/-- The object returned by `getForecastSummary`. -/
structure ForecastSummary where
  current_value : JSNum
  forecast_end_value : JSNum
  forecast_start_value : JSNum
  total_change : JSNum
  percent_change : JSNum
  max_forecast : JSNum
  min_forecast : JSNum
  forecast_periods : Int
  deriving DecidableEq, Repr

/-- The function `getForecastSummary` (live lines 195-222, mock lines 174-201; the two
bodies are identical).  The argument `none` is a `null` series, the result `none` is
`return null`. -/
def getForecastSummary (forecastData : Option (List SeriesPoint)) : Option ForecastSummary :=
  match forecastData with
  | none => none
  | some forecastData =>
    if forecastData.length = 0 then none
    else
      match findIndex (fun d => truthy d.isForecast) forecastData with
      | none => none
      | some forecastStartIndex =>
        match forecastData[forecastStartIndex]?, forecastData[forecastData.length - 1]? with
        | some forecastStart, some forecastEnd =>
          let currentValue := JSNum.fin forecastStart.yhat
          let forecastEndValue := JSNum.fin forecastEnd.yhat
          let totalChange := forecastEndValue.sub currentValue
          let percentChange := (totalChange.div currentValue).mul (JSNum.fin 100)
          some
            { current_value := currentValue
              forecast_end_value := forecastEndValue
              forecast_start_value := currentValue
              total_change := totalChange
              percent_change := percentChange
              max_forecast :=
                mathMax ((forecastData.drop forecastStartIndex).map fun d => JSNum.fin d.yhat)
              min_forecast :=
                mathMin ((forecastData.drop forecastStartIndex).map fun d => JSNum.fin d.yhat)
              forecast_periods := (forecastData.length : Int) - (forecastStartIndex : Int) }
        | _, _ => none

/-- The values the live `renderSingleForecast` computes before it renders (lines 232-241). -/
structure SingleForecastStats where
  historicalData : List SeriesPoint
  forecastOnlyData : List SeriesPoint
  firstForecastValue : Option ℚ
  lastForecastValue : Option ℚ
  totalChange : JSNum
  percentChange : JSNum
  maxValue : JSNum
  minValue : JSNum
  deriving DecidableEq, Repr

/-- The argument of a `new Date(...)` call; the parsed instant is not modelled. -/
structure JSDate where
  source : String
  deriving DecidableEq, Repr

/-- One element of the comparison result built by live `handleForecast` (lines 142-147). -/
structure ComparisonEntry where
  region : String
  historicalData : List SeriesPoint
  forecastData : List SeriesPoint
  allData : List SeriesPoint
  deriving DecidableEq, Repr

/-- One element of a statistics result, as `renderStatistics` reads it in both variants
and as the mock variant builds it (mock lines 123-126). -/
structure RegionStatistics where
  region : String
  total_records : Nat
  date_range : String
  latest_zhvi : ℚ
  zhvi_mean : ℚ
  zhvi_std : ℚ
  zhvi_min : ℚ
  zhvi_max : ℚ
  deriving DecidableEq, Repr

/-- A value of the live `forecastData` state: what `setForecastData` stores (`single`,
`comparison`) and the shape `renderStatistics` looks for (`statistics`). -/
inductive ForecastData where
  | single (region : String) (data : List SeriesPoint)
      (startDate endDate forecastStartDate : JSDate)
  | comparison (data : List ComparisonEntry)
  | statistics (data : List RegionStatistics)
  deriving DecidableEq, Repr

/-- The body of a `POST /forecast` request. -/
structure ForecastRequest where
  region : String
  horizon : Int
  deriving DecidableEq, Repr

/-- Live `handleForecast`, single mode, lines 66-99, once the response body `data` has
arrived: the value handed to `setForecastData`.  The result `none` is the TypeError raised
by reading `ds` of `undefined` (an empty combined series or an empty forecast list), which
the `catch` block turns into an error message. -/
def storeSingleForecast (region : String) (data : ForecastResponse) : Option ForecastData :=
  let combined := combinedData data
  match combined[0]?, combined[combined.length - 1]?, (forecastDataTransformed data)[0]? with
  | some first, some last, some forecastFirst =>
    some (.single region combined ⟨first.ds⟩ ⟨last.ds⟩ ⟨forecastFirst.ds⟩)
  | _, _, _ => none

/-- Live `handleForecast`, single mode, lines 47-99 on the 2xx path: the request is built
from the first selected region and the horizon, `server` answers it, and the answer is
normalised and stored. -/
def singleForecast (server : ForecastRequest → ForecastResponse) (region : String)
    (horizon : Int) : Option ForecastData :=
  storeSingleForecast region (server { region := region, horizon := horizon })

/-- Live `renderSingleForecast`, lines 226-241: the guards and the inline statistics.
The result `none` is `return null`. -/
def renderSingleForecast (forecastData : Option ForecastData) : Option SingleForecastStats :=
  match forecastData with
  | some (.single _ data _ _ _) =>
    if data.length = 0 then none
    else
      let historicalData := data.filter fun d => truthy d.isHistorical
      let forecastOnlyData := data.filter fun d => truthy d.isForecast
      let firstForecastValue := forecastOnlyData[0]?.map fun d => d.yhat
      let lastForecastValue := forecastOnlyData[forecastOnlyData.length - 1]?.map fun d => d.yhat
      let totalChange := (toNumber lastForecastValue).sub (toNumber firstForecastValue)
      let percentChange := (totalChange.div (toNumber firstForecastValue)).mul (JSNum.fin 100)
      some
        { historicalData := historicalData
          forecastOnlyData := forecastOnlyData
          firstForecastValue := firstForecastValue
          lastForecastValue := lastForecastValue
          totalChange := totalChange
          percentChange := percentChange
          maxValue := mathMax (forecastOnlyData.map fun d => JSNum.fin d.yhat)
          minValue := mathMin (forecastOnlyData.map fun d => JSNum.fin d.yhat) }
  | _ => none

/-! ## Comparison mode -/

/-- One element of `results` in live `handleForecast`: a response tagged with its region. -/
structure RegionResult where
  region : String
  data : ForecastResponse
  deriving DecidableEq, Repr

/-- Live `handleForecast`, comparison mode, lines 127-148: `results.map(...)`. -/
def comparisonData (results : List RegionResult) : List ComparisonEntry :=
  results.map fun r =>
    let historicalData : List SeriesPoint := r.data.historical.map fun item =>
      { ds := item.Month
        yhat := item.Historical_Price
        yhat_lower := none
        yhat_upper := none
        isHistorical := some true
        isForecast := none }
    let forecastData : List SeriesPoint := r.data.forecast.map fun item =>
      { ds := item.Month
        yhat := item.Forecasted_Price
        yhat_lower := none
        yhat_upper := none
        isHistorical := none
        isForecast := some true }
    { region := r.region
      historicalData := historicalData
      forecastData := forecastData
      allData := historicalData ++ forecastData }

/-- The UTF-16 code units of a character. -/
def utf16Units (c : Char) : List Nat :=
  if c.toNat < 0x10000 then [c.toNat]
  else [0xD800 + (c.toNat - 0x10000) / 0x400, 0xDC00 + (c.toNat - 0x10000) % 0x400]

/-- The UTF-16 code units of a string, the sequence JavaScript compares. -/
def utf16 (s : String) : List Nat :=
  s.toList.flatMap utf16Units

/-- Strict lexicographic order on code-unit sequences: the `<` of JavaScript strings. -/
def codeUnitsLt : List Nat → List Nat → Bool
  | [], [] => false
  | [], _ :: _ => true
  | _ :: _, [] => false
  | a :: as, b :: bs => decide (a < b) || (a == b && codeUnitsLt as bs)

/-- The order `Array.prototype.sort()` uses without a comparator on strings:
`a` may stand before `b` unless `b < a`. -/
def jsStringLe (a b : String) : Prop :=
  codeUnitsLt (utf16 b) (utf16 a) = false

instance : DecidableRel jsStringLe := fun a b =>
  inferInstanceAs (Decidable (codeUnitsLt (utf16 b) (utf16 a) = false))

/-- The method `Set.prototype.add` on a set of strings kept in insertion order. -/
def setAdd (s : List String) (x : String) : List String :=
  if x ∈ s then s else s ++ [x]

/-- Live `renderComparisonForecast`, lines 407-410: the set `allDates`, in insertion order. -/
def allDates (data : List ComparisonEntry) : List String :=
  data.foldl
    (fun dates regionData => regionData.allData.foldl (fun dates item => setAdd dates item.ds) dates)
    []

/-- Live `renderComparisonForecast`, line 413: `Array.from(allDates).sort()`. -/
def sortedDates (data : List ComparisonEntry) : List String :=
  (allDates data).insertionSort jsStringLe

/-- A value stored in a chart row. -/
inductive JSVal where
  | str (s : String)
  | num (q : ℚ)
  deriving DecidableEq, Repr

/-- A plain object with string keys, in insertion order of its keys. -/
abbrev JSObject := List (String × JSVal)

/-- The assignment `obj[key] = value`. -/
def JSObject.set (obj : JSObject) (key : String) (value : JSVal) : JSObject :=
  if obj.any (fun kv => kv.1 == key) then
    obj.map fun kv => if kv.1 == key then (key, value) else kv
  else obj ++ [(key, value)]

/-- The read `obj[key]`; `none` is `undefined`, the key is absent. -/
def JSObject.get (obj : JSObject) (key : String) : Option JSVal :=
  (obj.find? fun kv => kv.1 == key).map fun kv => kv.2

/-- Live `renderComparisonForecast`, lines 417-429: the callback of
`forecastData.data.forEach`, which adds the columns of one region to the row of `date`. -/
def chartRowStep (date : String) (dataPoint : JSObject) (regionData : ComparisonEntry) :
    JSObject :=
  let dataPoint :=
    match regionData.historicalData.find? (fun d => d.ds == date) with
    | some historicalItem =>
      dataPoint.set (regionData.region ++ "_historical") (.num historicalItem.yhat)
    | none => dataPoint
  match regionData.forecastData.find? (fun d => d.ds == date) with
  | some forecastItem =>
    dataPoint.set (regionData.region ++ "_forecast") (.num forecastItem.yhat)
  | none => dataPoint

/-- Live `renderComparisonForecast`, lines 415-431: the chart row built for one date,
starting from `{ ds: date }`. -/
def chartRow (data : List ComparisonEntry) (date : String) : JSObject :=
  data.foldl (chartRowStep date) [("ds", .str date)]

/-- Live `renderComparisonForecast`, lines 414-432: `sortedDates.map(...)`. -/
def chartData (data : List ComparisonEntry) : List JSObject :=
  (sortedDates data).map (chartRow data)

/-- Live `renderComparisonForecast`, lines 404-432: the guard and the chart rows.
The result `none` is `return null`. -/
def renderComparisonForecast (forecastData : Option ForecastData) : Option (List JSObject) :=
  match forecastData with
  | some (.comparison data) => some (chartData data)
  | _ => none

/-! ## HTTP calls -/

/-- The `detail` property of an error body, as the handlers read it: a string, or a value
of another JSON type (a number, a boolean, a list, an object), given by whether it is
truthy and by the string `String(value)` it converts to. -/
inductive Detail where
  | text (message : String)
  | other (isTruthy : Bool) (shown : String)
  deriving DecidableEq, Repr

/-- The value `response.json()` resolves to, a JSON object: a payload of the endpoint or
an error body, whose `detail` may be absent (or `null`). -/
inductive JsonBody (α : Type) where
  | payload (data : α)
  | error (detail : Option Detail)
  deriving DecidableEq, Repr

/-- The `Response` a `fetch` call resolves to. -/
structure HttpResponse (α : Type) where
  status : Nat
  body : JsonBody α
  deriving DecidableEq, Repr

/-- The getter `response.ok`: the status is in the range 200-299. -/
def HttpResponse.ok {α : Type} (response : HttpResponse α) : Bool :=
  decide (200 ≤ response.status ∧ response.status ≤ 299)

/-- How a `fetch` call settles: with a response, or rejected by a transport failure. -/
inductive FetchResult (α : Type) where
  | resolved (response : HttpResponse α)
  | rejected (message : String)
  deriving DecidableEq, Repr

/-- The expression `value || fallback` on a string that may be `undefined`. -/
def orDefault (value : Option String) (fallback : String) : String :=
  match value with
  | some text => if text = "" then fallback else text
  | none => fallback

/-- The message of `new Error(errorData.detail || fallback)`: the detail converted to a
string when it is truthy, the fallback otherwise. -/
def detailMessage (detail : Option Detail) (fallback : String) : String :=
  match detail with
  | some (.text message) => if message = "" then fallback else message
  | some (.other true shown) => shown
  | some (.other false _) => fallback
  | none => fallback

/-- The builtin `Promise.all` on settled promises: the rejection that settles first wins,
`completion` listing the calls in the order they complete (calls it does not list
complete afterwards, in call order); without a rejection the values come in call order. -/
def promiseAll {α : Type} (completion : List Nat) (settled : List (Except String α)) :
    Except String (List α) :=
  match (completion ++ List.range settled.length).findSome? fun (i : Nat) =>
      match settled[i]? with
      | some (Except.error message) => some message
      | _ => none with
  | some message => .error message
  | none =>
    .ok (settled.filterMap fun result =>
      match result with
      | Except.ok value => some value
      | Except.error _ => none)

/-! ## View state and `handleForecast`, live variant -/

/-- The three values of the analysis-type select. -/
inductive AnalysisType where
  | single
  | comparison
  | statistics
  deriving DecidableEq, Repr

/-- The component state of the live `PriceForecasting` (lines 6-15). -/
structure ViewState where
  selectedRegions : List String
  forecastMonths : Int
  analysisType : AnalysisType
  forecastData : Option ForecastData
  isLoading : Bool
  error : String
  availableRegions : List String
  selectedRegionForStats : String
  newRegion : String
  deriving DecidableEq, Repr

/-- What `handleForecast` does not decide itself: how the server answers a
`POST /forecast` body, in which order concurrent calls complete, and the message the
engine gives the TypeError raised by reading the named property of `undefined`. -/
structure Environment where
  fetch : ForecastRequest → FetchResult ForecastResponse
  completion : List Nat
  typeErrorMessage : String → String

/-- The final state of a `handleForecast` call together with the `POST /forecast` bodies
it sent, in call order. -/
structure Outcome where
  state : ViewState
  requests : List ForecastRequest

/-- Live `handleForecast`, lines 47-99: the single-mode `try` body.  `.error` is the
message of the thrown error, `.ok` the value given to `setForecastData`. -/
def forecastSingle (env : Environment) (region : String) (horizon : Int) :
    Except String ForecastData :=
  match env.fetch { region := region, horizon := horizon } with
  | .rejected message => .error message
  | .resolved response =>
    if !response.ok then
      match response.body with
      | .error detail => .error (detailMessage detail ("Error: " ++ toString response.status))
      | .payload _ => .error ("Error: " ++ toString response.status)
    else
      match response.body with
      | .payload data =>
        match storeSingleForecast region data with
        | some stored => .ok stored
        | none => .error (env.typeErrorMessage "ds")
      | .error _ => .error (env.typeErrorMessage "map")

/-- Live `handleForecast`, lines 105-122: the promise built for one region. -/
def forecastRegion (env : Environment) (horizon : Int) (region : String) :
    Except String (String × JsonBody ForecastResponse) :=
  match env.fetch { region := region, horizon := horizon } with
  | .rejected message => .error message
  | .resolved response =>
    if !response.ok then .error ("Failed to fetch " ++ region)
    else .ok (region, response.body)

/-- The responses whose body is a `/forecast` payload, as `results.map` reads them
(lines 127-140); `none` is the TypeError of `data.historical.map` on another body. -/
def decodeResults : List (String × JsonBody ForecastResponse) → Option (List RegionResult)
  | [] => some []
  | (region, .payload data) :: rest =>
    (decodeResults rest).map fun results => { region := region, data := data } :: results
  | (_, .error _) :: _ => none

/-- Live `handleForecast`, lines 102-153: the comparison-mode `try` body. -/
def forecastComparison (env : Environment) (selectedRegions : List String) (horizon : Int) :
    Except String ForecastData :=
  match promiseAll env.completion (selectedRegions.map (forecastRegion env horizon)) with
  | .error message => .error message
  | .ok results =>
    match decodeResults results with
    | some regionResults => .ok (.comparison (comparisonData regionResults))
    | none => .error (env.typeErrorMessage "map")

/-- Live `handleForecast`, lines 40-42 and 155-160: the state once the `try` body has
settled; `attempt` is the thrown message or the value stored, if any. -/
def settleForecast (s : ViewState) (attempt : Except String (Option ForecastData)) :
    ViewState :=
  match attempt with
  | .ok stored => { s with isLoading := false, error := "", forecastData := stored }
  | .error message =>
    { s with
      isLoading := false
      error := orDefault (some message) "Failed to get forecast"
      forecastData := none }

/-- Live `handleForecast` (lines 34-161), run to completion. -/
def handleForecast (env : Environment) (s : ViewState) : Outcome :=
  match s.selectedRegions with
  | [] => { state := { s with error := "Please select at least one region" }, requests := [] }
  | region :: others =>
    match s.analysisType with
    | .single =>
      { state := settleForecast s ((forecastSingle env region s.forecastMonths).map some)
        requests := [{ region := region, horizon := s.forecastMonths }] }
    | .comparison =>
      { state :=
          settleForecast s
            ((forecastComparison env (region :: others) s.forecastMonths).map some)
        requests :=
          (region :: others).map fun r => { region := r, horizon := s.forecastMonths } }
    | .statistics => { state := settleForecast s (.ok none), requests := [] }

/-- The function `removeRegion` (live lines 181-184): the selection without the region. -/
def removeRegion (s : ViewState) (regionToRemove : String) : ViewState :=
  { s with selectedRegions := s.selectedRegions.filter fun region => region != regionToRemove }

/-- The class of the insight paragraph chosen from the percent change (live
`renderSingleForecast` lines 380-392, with `percentChange`; mock lines 322-334, with
`summary.percent_change`). -/
def insightClass (percentChange : JSNum) : String :=
  if (JSNum.fin 5).lt percentChange then "positive"
  else if percentChange.lt (JSNum.fin (-5)) then "negative"
  else "neutral"

/-- One row of the summary table of the comparison view. -/
structure ComparisonRow where
  region : String
  startValue : ℚ
  lastValue : ℚ
  changePercent : JSNum
  changeDollar : JSNum
  deriving DecidableEq, Repr

/-- Live `renderComparisonForecast`, lines 521-532: the callback that builds the table row
of one region; `none` is `return null`, no row. -/
def comparisonTableRow (regionData : ComparisonEntry) : Option ComparisonRow :=
  match regionData.forecastData with
  | [] => none
  | first :: rest =>
    let startValue := first.yhat
    let lastValue := ((first :: rest).getLast (List.cons_ne_nil first rest)).yhat
    some
      { region := regionData.region
        startValue := startValue
        lastValue := lastValue
        changePercent :=
          (((JSNum.fin lastValue).sub (.fin startValue)).div (.fin startValue)).mul (.fin 100)
        changeDollar := (JSNum.fin lastValue).sub (.fin startValue) }

/-- Live `renderComparisonForecast`, lines 521-547: `forecastData.data.map(...)`. -/
def comparisonTable (data : List ComparisonEntry) : List (Option ComparisonRow) :=
  data.map comparisonTableRow

/-! ## The mock-data variant -/

/-- One element of the comparison result of the mock variant (mock lines 113-116). -/
structure MockRegionSeries where
  region : String
  data : List SeriesPoint
  deriving DecidableEq, Repr

/-- The value stored by `setForecastData` in the mock variant. -/
inductive MockForecastData where
  | single (region : String) (data : List SeriesPoint)
  | comparison (data : List MockRegionSeries)
  | statistics (data : List RegionStatistics)
  deriving DecidableEq, Repr

/-- The component state of the mock `PriceForecasting` (mock lines 6-13). -/
structure MockViewState where
  selectedRegions : List String
  forecastDays : Int
  analysisType : AnalysisType
  forecastData : Option MockForecastData
  isLoading : Bool
  error : String
  selectedRegionForStats : String
  newRegion : String
  deriving DecidableEq, Repr

/-- A call of one of the two generators of the mock variant. -/
inductive MockCall where
  | forecast (region : String) (days : Int) (includeHistory : Bool)
  | statistics (region : String)
  deriving DecidableEq, Repr

/-- The two generators of the mock variant, their pseudo-random draws folded into the
functions; the `trend` field of a generated point, which nothing reads, is left out. -/
structure MockGenerators where
  generateMockForecastData : String → Int → Bool → List SeriesPoint
  generateMockStatistics : String → RegionStatistics

/-- The final state of a mock `handleForecast` call together with the generator calls it
made. -/
structure MockOutcome where
  state : MockViewState
  calls : List MockCall

/-- Mock `handleForecast` (mock lines 93-135), run until its timer has fired. -/
def mockHandleForecast (gen : MockGenerators) (s : MockViewState) : MockOutcome :=
  match s.selectedRegions with
  | [] => { state := { s with error := "Please select at least one region" }, calls := [] }
  | region :: others =>
    match s.analysisType with
    | .single =>
      { state :=
          { s with
            isLoading := false
            error := ""
            forecastData :=
              some (.single region (gen.generateMockForecastData region s.forecastDays false)) }
        calls := [.forecast region s.forecastDays false] }
    | .comparison =>
      if 2 ≤ (region :: others).length then
        { state :=
            { s with
              isLoading := false
              error := ""
              forecastData :=
                some (.comparison (((region :: others).take 5).map fun r =>
                  { region := r
                    data := gen.generateMockForecastData r s.forecastDays false })) }
          calls := ((region :: others).take 5).map fun r => .forecast r s.forecastDays false }
      else { state := { s with isLoading := false, error := "" }, calls := [] }
    | .statistics =>
      { state :=
          { s with
            isLoading := false
            error := ""
            forecastData :=
              some (.statistics ((region :: others).map fun r =>
                { gen.generateMockStatistics r with region := r })) }
        calls := (region :: others).map fun r => .statistics r }

/-- The function `removeRegion` of the mock variant (mock lines 160-163). -/
def mockRemoveRegion (s : MockViewState) (regionToRemove : String) : MockViewState :=
  { s with selectedRegions := s.selectedRegions.filter fun region => region != regionToRemove }

/-! ## The prediction form, live variant -/

/-- The payload of a successful `POST /predict_price`. -/
structure PredictionResult where
  predicted_price : ℚ
  predicted_price_crores : ℚ
  deriving DecidableEq, Repr

/-- The component state of the live `PricePrediction` (lines 5-12); `totalArea` and `baths`
hold integers, `parseInt(e.target.value) || 0` of their inputs. -/
structure PredictionState where
  propertyTitle : String
  location : String
  totalArea : Int
  baths : Int
  balcony : String
  predictionResult : Option (JsonBody PredictionResult)
  isLoading : Bool
  error : String
  deriving DecidableEq, Repr

/-- Live `handleSubmit` (`PricePrediction.js` lines 35-77), run to completion, given how
the `fetch` of lines 56-62 settles. -/
def handleSubmit (reply : FetchResult PredictionResult) (s : PredictionState) :
    PredictionState :=
  match reply with
  | .rejected message =>
    { s with
      isLoading := false
      error := orDefault (some message) "Failed to get prediction"
      predictionResult := none }
  | .resolved response =>
    if !response.ok then
      let message :=
        match response.body with
        | .error detail => detailMessage detail ("Error: " ++ toString response.status)
        | .payload _ => "Error: " ++ toString response.status
      { s with
        isLoading := false
        error := orDefault (some message) "Failed to get prediction"
        predictionResult := none }
    else { s with isLoading := false, error := "", predictionResult := some response.body }

/-! ## Period labels as ISO dates

The labels of a `/forecast` response are opaque strings to the code.  The definitions
below fix the two zero-padded ISO formats and the calendar date a label of such a format
denotes, so that the order of the merged axis can be compared with the order of dates. -/

/-- Whether the character is one of the ASCII digits `0` to `9`. -/
def isAsciiDigit (c : Char) : Bool :=
  decide (48 ≤ c.toNat ∧ c.toNat ≤ 57)

/-- Whether the character is the ASCII hyphen. -/
def isHyphen (c : Char) : Bool :=
  decide (c.toNat = 45)

/-- The number written by a run of ASCII digits. -/
def decimal (digits : List Char) : Nat :=
  digits.foldl (fun n c => 10 * n + (c.toNat - 48)) 0

/-- Whether the label has the form `YYYY-MM-DD`. -/
def isIsoDay (label : String) : Bool :=
  match label.toList with
  | [y1, y2, y3, y4, h1, m1, m2, h2, d1, d2] =>
    isAsciiDigit y1 && isAsciiDigit y2 && isAsciiDigit y3 && isAsciiDigit y4 && isHyphen h1 &&
      isAsciiDigit m1 && isAsciiDigit m2 && isHyphen h2 && isAsciiDigit d1 && isAsciiDigit d2
  | _ => false

/-- Whether the label has the form `YYYY-MM`. -/
def isIsoMonth (label : String) : Bool :=
  match label.toList with
  | [y1, y2, y3, y4, h1, m1, m2] =>
    isAsciiDigit y1 && isAsciiDigit y2 && isAsciiDigit y3 && isAsciiDigit y4 && isHyphen h1 &&
      isAsciiDigit m1 && isAsciiDigit m2
  | _ => false

/-- The date (year, month, day) a label of one of the two formats denotes; a `YYYY-MM`
label denotes the first day of its month. -/
def isoDate (label : String) : Nat × Nat × Nat :=
  match label.toList with
  | [y1, y2, y3, y4, _, m1, m2, _, d1, d2] =>
    (decimal [y1, y2, y3, y4], decimal [m1, m2], decimal [d1, d2])
  | [y1, y2, y3, y4, _, m1, m2] => (decimal [y1, y2, y3, y4], decimal [m1, m2], 1)
  | _ => (0, 0, 0)

/-- The date `a` is strictly earlier than the date `b`. -/
def dateBefore (a b : Nat × Nat × Nat) : Prop :=
  a.1 < b.1 ∨ (a.1 = b.1 ∧ (a.2.1 < b.2.1 ∨ (a.2.1 = b.2.1 ∧ a.2.2 < b.2.2)))

/-! ## The selection editors, the statistics view and the actions of the component -/

/-- The state of the live component when it mounts (the `useState` defaults, lines 6-15). -/
def initialState : ViewState :=
  { selectedRegions := []
    forecastMonths := 12
    analysisType := .single
    forecastData := none
    isLoading := false
    error := ""
    availableRegions := []
    selectedRegionForStats := ""
    newRegion := "" }

/-- The function `handleSingleRegionChange` (live lines 164-171), `region` being
`e.target.value`. -/
def handleSingleRegionChange (s : ViewState) (region : String) : ViewState :=
  if region ≠ "" then { s with selectedRegions := [region] }
  else { s with selectedRegions := [] }

/-- The function `addRegion` (live lines 174-179). -/
def addRegion (s : ViewState) : ViewState :=
  if s.newRegion ≠ "" ∧ ¬ s.newRegion ∈ s.selectedRegions then
    { s with selectedRegions := s.selectedRegions ++ [s.newRegion], newRegion := "" }
  else s

/-- The effect of live lines 187-192, which selects the first available region while
nothing is selected. -/
def selectFirstAvailable (s : ViewState) : ViewState :=
  match s.selectedRegions, s.availableRegions with
  | [], first :: _ => { s with selectedRegions := [first], selectedRegionForStats := first }
  | _, _ => s

/-- How the `GET /available_regions` call of the mount effect ends: with the region list of
a 2xx body, or with the message of the error it throws (live lines 20-28). -/
inductive RegionsOutcome where
  | loaded (regions : List String)
  | failed (message : String)
  deriving DecidableEq, Repr

/-- The mount effect `fetchRegions` (live lines 18-31), given how its call ends. -/
def fetchRegions (s : ViewState) (outcome : RegionsOutcome) : ViewState :=
  match outcome with
  | .loaded regions => { s with availableRegions := regions }
  | .failed message => { s with error := message }

/-- What `renderStatistics` shows: the options of the detail select, the detail cards (when
a detail region is chosen) and the rows of the quick comparison table (when it is shown). -/
structure StatisticsView where
  regionOptions : List String
  detail : Option (List RegionStatistics)
  quickComparison : Option (List RegionStatistics)
  deriving DecidableEq, Repr

/-- Live `renderStatistics` (lines 556-638); `none` is `return null`. -/
def renderStatistics (s : ViewState) : Option StatisticsView :=
  match s.forecastData with
  | some (.statistics data) =>
    some
      { regionOptions := s.selectedRegions
        detail :=
          if s.selectedRegionForStats ≠ "" then
            some (data.filter fun item => item.region == s.selectedRegionForStats)
          else none
        quickComparison :=
          if 1 < s.selectedRegions.length then
            some (data.filter fun item => s.selectedRegions.contains item.region)
          else none }
  | _ => none

/-- Something that happens to the live component: a user action, an effect, or a
submission together with the environment that answers it.  A submission is run to
completion; the setters that carry a form value take the value. -/
inductive Action where
  | setAnalysisType (value : AnalysisType)
  | setForecastMonths (value : Int)
  | setNewRegion (value : String)
  | setSelectedRegionForStats (value : String)
  | handleSingleRegionChange (region : String)
  | addRegion
  | removeRegion (regionToRemove : String)
  | selectFirstAvailable
  | fetchRegions (outcome : RegionsOutcome)
  | handleForecast (env : Environment)

/-- The state after one action. -/
def step (s : ViewState) : Action → ViewState
  | .setAnalysisType value => { s with analysisType := value }
  | .setForecastMonths value => { s with forecastMonths := value }
  | .setNewRegion value => { s with newRegion := value }
  | .setSelectedRegionForStats value => { s with selectedRegionForStats := value }
  | .handleSingleRegionChange region => handleSingleRegionChange s region
  | .addRegion => addRegion s
  | .removeRegion regionToRemove => removeRegion s regionToRemove
  | .selectFirstAvailable => selectFirstAvailable s
  | .fetchRegions outcome => fetchRegions s outcome
  | .handleForecast env => (handleForecast env s).state

/-- The state after a sequence of actions. -/
def run (s : ViewState) (actions : List Action) : ViewState :=
  actions.foldl step s

/-- The fixed region list of the mock variant (mock lines 16-24). -/
def mockAvailableRegions : List String :=
  [ "Alabama", "Alaska", "Arizona", "Arkansas", "California", "Colorado", "Connecticut",
    "Delaware", "DistrictofColumbia", "Florida", "Georgia", "Hawaii", "Idaho", "Illinois",
    "Indiana", "Iowa", "Kansas", "Kentucky", "Louisiana", "Maine", "Maryland",
    "Massachusetts", "Michigan", "Minnesota", "Mississippi", "Missouri", "Montana",
    "Nebraska", "Nevada", "NewHampshire", "NewJersey", "NewMexico", "NewYork",
    "NorthCarolina", "NorthDakota", "Ohio", "Oklahoma", "Oregon", "Pennsylvania",
    "RhodeIsland", "SouthCarolina", "SouthDakota", "Tennessee", "Texas", "Utah", "Vermont",
    "Virginia", "Washington", "WestVirginia", "Wisconsin", "Wyoming" ]

/-- The state of the mock component when it mounts (mock lines 6-13). -/
def mockInitialState : MockViewState :=
  { selectedRegions := []
    forecastDays := 365
    analysisType := .single
    forecastData := none
    isLoading := false
    error := ""
    selectedRegionForStats := ""
    newRegion := "" }

/-- The function `handleSingleRegionChange` of the mock variant (mock lines 143-150). -/
def mockHandleSingleRegionChange (s : MockViewState) (region : String) : MockViewState :=
  if region ≠ "" then { s with selectedRegions := [region] }
  else { s with selectedRegions := [] }

/-- The function `addRegion` of the mock variant (mock lines 153-158). -/
def mockAddRegion (s : MockViewState) : MockViewState :=
  if s.newRegion ≠ "" ∧ ¬ s.newRegion ∈ s.selectedRegions then
    { s with selectedRegions := s.selectedRegions ++ [s.newRegion], newRegion := "" }
  else s

/-- The effect of mock lines 166-171. -/
def mockSelectFirstAvailable (s : MockViewState) : MockViewState :=
  match s.selectedRegions, mockAvailableRegions with
  | [], first :: _ => { s with selectedRegions := [first], selectedRegionForStats := first }
  | _, _ => s

/-- Mock `renderStatistics` (mock lines 441-523); `none` is `return null`. -/
def mockRenderStatistics (s : MockViewState) : Option StatisticsView :=
  match s.forecastData with
  | some (.statistics data) =>
    some
      { regionOptions := s.selectedRegions
        detail :=
          if s.selectedRegionForStats ≠ "" then
            some (data.filter fun item => item.region == s.selectedRegionForStats)
          else none
        quickComparison :=
          if 1 < s.selectedRegions.length then
            some (data.filter fun item => s.selectedRegions.contains item.region)
          else none }
  | _ => none

/-- Something that happens to the mock component. -/
inductive MockAction where
  | setAnalysisType (value : AnalysisType)
  | setForecastDays (value : Int)
  | setNewRegion (value : String)
  | setSelectedRegionForStats (value : String)
  | handleSingleRegionChange (region : String)
  | addRegion
  | removeRegion (regionToRemove : String)
  | selectFirstAvailable
  | handleForecast (gen : MockGenerators)

/-- The state of the mock component after one action. -/
def mockStep (s : MockViewState) : MockAction → MockViewState
  | .setAnalysisType value => { s with analysisType := value }
  | .setForecastDays value => { s with forecastDays := value }
  | .setNewRegion value => { s with newRegion := value }
  | .setSelectedRegionForStats value => { s with selectedRegionForStats := value }
  | .handleSingleRegionChange region => mockHandleSingleRegionChange s region
  | .addRegion => mockAddRegion s
  | .removeRegion regionToRemove => mockRemoveRegion s regionToRemove
  | .selectFirstAvailable => mockSelectFirstAvailable s
  | .handleForecast gen => (mockHandleForecast gen s).state

/-- The state of the mock component after a sequence of actions. -/
def mockRun (s : MockViewState) (actions : List MockAction) : MockViewState :=
  actions.foldl mockStep s

/-! ## The prediction form: text extraction, the request and the mock simulation -/

/-- Whether the character is white space or a line terminator of ECMAScript: what `\s`
matches and what `trim` strips. -/
def isJsWhitespace (c : Char) : Bool :=
  decide (c.toNat = 9 ∨ c.toNat = 10 ∨ c.toNat = 11 ∨ c.toNat = 12 ∨ c.toNat = 13 ∨
    c.toNat = 32 ∨ c.toNat = 160 ∨ c.toNat = 5760 ∨ (8192 ≤ c.toNat ∧ c.toNat ≤ 8202) ∨
    c.toNat = 8232 ∨ c.toNat = 8233 ∨ c.toNat = 8239 ∨ c.toNat = 8287 ∨ c.toNat = 12288 ∨
    c.toNat = 65279)

/-- Whether the character matches the letter `B` of a pattern with the flag `i`
(without the flag `u` only the two ASCII letters do). -/
def isLetterB (c : Char) : Bool :=
  decide (c.toNat = 66 ∨ c.toNat = 98)

/-- Whether the character matches the letter `H` of a pattern with the flag `i`. -/
def isLetterH (c : Char) : Bool :=
  decide (c.toNat = 72 ∨ c.toNat = 104)

/-- Whether the character matches the letter `K` of a pattern with the flag `i`. -/
def isLetterK (c : Char) : Bool :=
  decide (c.toNat = 75 ∨ c.toNat = 107)

/-- An attempt of the pattern `/(\d+)\s*BHK/i` at the start of `chars`; the result is the
text of capture group 1.  Both quantifiers are greedy, and neither can give a character
back to what follows it: a digit is neither white space nor a letter B, and white space is
not a letter B. -/
def matchBHKAt (chars : List Char) : Option (List Char) :=
  match chars.takeWhile isAsciiDigit with
  | [] => none
  | d :: ds =>
    match (chars.dropWhile isAsciiDigit).dropWhile isJsWhitespace with
    | b :: h :: k :: _ =>
      if isLetterB b && isLetterH h && isLetterK k then some (d :: ds) else none
    | _ => none

/-- The call `title.match(/(\d+)\s*BHK/i)`: the attempt at the leftmost position that
succeeds; `none` is `null`. -/
def searchBHK : List Char → Option (List Char)
  | [] => none
  | c :: rest =>
    match matchBHKAt (c :: rest) with
    | some digits => some digits
    | none => searchBHK rest

/-- The exponent of the unit in the last place of the double nearest to `n`: the least `e`
for which `n / 2 ^ e` fits the 53 bits of a significand, found in at most `fuel` halvings
(`n` itself is fuel enough). -/
def ulpExponent (fuel n : Nat) : Nat :=
  match fuel with
  | 0 => 0
  | fuel + 1 => if n < 2 ^ 53 then 0 else ulpExponent fuel (n / 2) + 1

/-- The integer `n` rounded to 53 significant bits, to the nearest such value and to the
even significand on a tie, as the conversion of a mathematical value to a Number does; the
range of the doubles is left to the caller. -/
def nearestDouble (n : Nat) : Nat :=
  let e := ulpExponent n n
  let q := n / 2 ^ e
  let r := n % 2 ^ e
  if 2 * r < 2 ^ e ∨ (2 * r = 2 ^ e ∧ q % 2 = 0) then q * 2 ^ e else (q + 1) * 2 ^ e

/-- The call `parseInt(digits)` on a non-empty run of decimal digits: the Number for the
integer the run denotes, which is that integer rounded to the nearest double, and
`Infinity` from `2 ^ 1024` on.  (For runs of more than 20 significant digits the standard
allows an engine to round less exactly; the correctly rounded value is taken here.) -/
def parseIntDigits (digits : List Char) : JSNum :=
  if nearestDouble (decimal digits) < 2 ^ 1024 then
    .fin (nearestDouble (decimal digits) : Nat)
  else .posInf

/-- The function `extractBHK` (`PricePrediction.js` lines 15-18, the same in both
variants): `parseInt` of capture group 1, a run of digits, or `null`. -/
def extractBHK (title : String) : Option JSNum :=
  (searchBHK title.toList).map parseIntDigits

/-- The call `text.split(',')`. -/
def splitComma : List Char → List (List Char)
  | [] => [[]]
  | c :: rest =>
    if c = ',' then [] :: splitComma rest
    else
      match splitComma rest with
      | [] => [[c]]
      | part :: parts => (c :: part) :: parts

/-- The method `trim`: the text without its leading and trailing white space. -/
def trim (chars : List Char) : List Char :=
  ((chars.dropWhile isJsWhitespace).reverse.dropWhile isJsWhitespace).reverse

/-- The function `extractCity` (`PricePrediction.js` lines 30-33). -/
def extractCity (location : String) : String :=
  match (splitComma location.toList).getLast? with
  | some part => String.mk (trim part)
  | none => ""

/-- The expression `value || fallback` on a number that may be `null`: zero and NaN are
falsy. -/
def orNumber (value : Option JSNum) (fallback : JSNum) : JSNum :=
  match value with
  | some (.fin q) => if q = 0 then fallback else .fin q
  | some .nan => fallback
  | some .posInf => .posInf
  | some .negInf => .negInf
  | none => fallback

/-- The body of a `POST /predict_price` request, as the object given to `JSON.stringify`. -/
structure PriceRequest where
  Location : String
  City : String
  BHK : JSNum
  Total_Area : Int
  Price_per_SQFT : Nat
  Bathroom : Int
  Balcony : Bool
  deriving DecidableEq, Repr

/-- The leading decimal digit of `n`, found in at most `fuel` divisions by ten (`n` itself
is fuel enough). -/
def leadingDigit (fuel n : Nat) : Nat :=
  match fuel with
  | 0 => n
  | fuel + 1 => if n < 10 then n else leadingDigit fuel (n / 10)

/-- The leading digit of the shortest decimal that reads back as the double `n`, for `n`
from `10 ^ 21` on.  When a one-digit decimal `c * 10 ^ k` reads back as `n` it is the
shortest, and its digit is `c`; otherwise no such decimal lies between `n` and its
shortest decimal, which therefore begins with the leading digit of `n` itself. -/
def shortestLeadingDigit (n : Nat) : Nat :=
  match ((List.range 288).flatMap fun k => (List.range 9).map fun c => (c + 1, k + 21)).find?
      fun candidate => nearestDouble (candidate.1 * 10 ^ candidate.2) == n with
  | some candidate => candidate.1
  | none => leadingDigit n n

/-- The call `parseInt(n)` on a number that is an integer.  The number is first written as
a string: in plain decimal digits below `10 ^ 21` in magnitude, and from there on in the
exponent form `d.ddde+21` of the shortest decimal that reads back as the same number, of
which `parseInt` reads the sign and the leading digit. -/
def parseIntOfInteger (n : Int) : Int :=
  if n.natAbs < 10 ^ 21 then n else n.sign * (shortestLeadingDigit n.natAbs : Nat)

/-- Live `handleSubmit`, lines 41-53: the object `requestData`.  The area and the bathroom
count are integers held in the state; `parseFloat` gives every number back, since it reads
the exponent form as well. -/
def requestData (s : PredictionState) : PriceRequest :=
  { Location := s.location
    City :=
      orDefault ((splitComma s.location.toList).getLast?.map fun part => String.mk (trim part))
        "Unknown"
    BHK := orNumber (extractBHK s.propertyTitle) (.fin 2)
    Total_Area := s.totalArea
    Price_per_SQFT := 5000
    Bathroom := parseIntOfInteger s.baths
    Balcony := s.balcony == "Yes" }

/-- The final state of a live `handleSubmit` call together with the `POST /predict_price`
bodies it sent. -/
structure PredictionOutcome where
  state : PredictionState
  requests : List PriceRequest

/-- Live `handleSubmit` (lines 35-77) against a server: it builds `requestData`, sends it
and settles as `handleSubmit` does on the answer. -/
def submitPrediction (fetch : PriceRequest → FetchResult PredictionResult)
    (s : PredictionState) : PredictionOutcome :=
  { state := handleSubmit (fetch (requestData s)) s
    requests := [requestData s] }

/-- The method `toLowerCase`, as far as ASCII letters in its result go: the letters `A` to
`Z`, the Kelvin sign and the dotted capital I are the only characters whose lower case
holds an ASCII letter; every other character is left as it is. -/
def toLowerCase (chars : List Char) : List Char :=
  chars.flatMap fun c =>
    if 65 ≤ c.toNat ∧ c.toNat ≤ 90 then [Char.ofNat (c.toNat + 32)]
    else if c.toNat = 8490 then ['k']
    else if c.toNat = 304 then ['i', Char.ofNat 775]
    else [c]

/-- The method `includes` on strings. -/
def includes (text pattern : List Char) : Bool :=
  text.tails.any fun rest => pattern.isPrefixOf rest

/-- The function `extractPropertyType` (`PricePrediction.js` lines 21-27). -/
def extractPropertyType (title : String) : String :=
  let lowerTitle := toLowerCase title.toList
  if includes lowerTitle "independent house".toList then "Independent House"
  else if includes lowerTitle "flat".toList then "Flat"
  else if includes lowerTitle "villa".toList then "Villa"
  else "Other"

/-- The object the mock `handleSubmit` stores (mock lines 65-72). -/
structure MockPrediction where
  price : JSNum
  priceInRupees : JSNum
  pricePerSqFt : JSNum
  bhk : JSNum
  propertyType : String
  city : String
  deriving DecidableEq, Repr

/-- The component state of the mock `PricePrediction` (mock lines 5-12). -/
structure MockPredictionState where
  propertyTitle : String
  location : String
  totalArea : Int
  baths : Int
  balcony : String
  predictionResult : Option MockPrediction
  isLoading : Bool
  error : String
  deriving DecidableEq, Repr

/-- The timer callback of the mock `handleSubmit` (mock lines 52-72): the simulated
prediction. -/
def simulatePrediction (s : MockPredictionState) : MockPrediction :=
  let bhk := orNumber (extractBHK s.propertyTitle) (.fin 0)
  let propertyType := extractPropertyType s.propertyTitle
  let city := extractCity s.location
  let basePrice : JSNum := .fin (1000 * s.totalArea)
  let bhkFactor : JSNum := (JSNum.fin 1).add (bhk.mul (.fin (2 / 10)))
  let balconyFactor : JSNum := if s.balcony = "Yes" then .fin (105 / 100) else .fin 1
  let bathroomFactor : JSNum := .fin (1 + s.baths * (5 / 100))
  let cityPremium : JSNum :=
    if city = "Mumbai" then .fin (15 / 10)
    else if city = "Delhi" then .fin (13 / 10)
    else if city = "Chennai" then .fin (12 / 10)
    else .fin 1
  let predictedPrice : JSNum :=
    ((((basePrice.mul bhkFactor).mul balconyFactor).mul bathroomFactor).mul cityPremium).div
      (.fin 100000)
  { price := predictedPrice
    priceInRupees := predictedPrice.mul (.fin 100000)
    pricePerSqFt := (predictedPrice.mul (.fin 100000)).div (.fin s.totalArea)
    bhk := bhk
    propertyType := propertyType
    city := city }

/-- The final state of a mock `handleSubmit` call together with the predictions it
computed. -/
structure MockPredictionOutcome where
  state : MockPredictionState
  computed : List MockPrediction

/-- Mock `handleSubmit` (mock lines 35-79), run until its timer has fired. -/
def mockHandleSubmit (s : MockPredictionState) : MockPredictionOutcome :=
  if s.propertyTitle = "" ∨ s.location = "" then
    { state :=
        { s with
          error := "Please fill in all required fields (Property Title and Location)"
          predictionResult := none }
      computed := [] }
  else
    { state :=
        { s with
          error := ""
          predictionResult := some (simulatePrediction s)
          isLoading := false }
      computed := [simulatePrediction s] }

/-- A place of the kind `extractBHK` looks for, in the words of its description: `chars`
begins with the non-empty digit run `digits`, followed by optional white space and then
the letters BHK in any letter case. -/
def BHKPlace (chars digits : List Char) : Prop :=
  ∃ ws b h k rest, chars = digits ++ (ws ++ b :: h :: k :: rest) ∧ digits ≠ [] ∧
    (∀ c ∈ digits, isAsciiDigit c = true) ∧ (∀ c ∈ ws, isJsWhitespace c = true) ∧
    isLetterB b = true ∧ isLetterH h = true ∧ isLetterK k = true

/-! ## Sample inputs -/

/-- A `/forecast` response with two historical and two forecast tuples. -/
def sampleResponse : ForecastResponse :=
  { historical := [⟨"2024-01-01", 100⟩, ⟨"2024-02-01", 110⟩]
    forecast := [⟨"2024-03-01", 120, some 115, some 125⟩, ⟨"2024-04-01", 90, some 80, some 100⟩] }

/-- A series with two historical points followed by three forecast points. -/
def sampleSeries : List SeriesPoint :=
  [ ⟨"2024-01-01", 300, none, none, some true, none⟩,
    ⟨"2024-02-01", 310, none, none, some true, none⟩,
    ⟨"2024-03-01", 200, some 190, some 210, none, some true⟩,
    ⟨"2024-04-01", 260, some 240, some 280, none, some true⟩,
    ⟨"2024-05-01", 250, some 220, some 270, none, some true⟩ ]

/-- A series whose only forecast points start from the value 0. -/
def zeroStartSeries : List SeriesPoint :=
  [ ⟨"2024-01-01", 300, none, none, some true, none⟩,
    ⟨"2024-02-01", 0, some 0, some 0, none, some true⟩,
    ⟨"2024-03-01", 0, some 0, some 0, none, some true⟩ ]

/-- A `/forecast` response for California with one historical and twelve forecast tuples. -/
def californiaResponse : ForecastResponse :=
  { historical := [⟨"2023-12-01", 700⟩]
    forecast :=
      [ ⟨"2024-01-01", 701, some 690, some 710⟩, ⟨"2024-02-01", 702, some 690, some 710⟩,
        ⟨"2024-03-01", 703, some 690, some 710⟩, ⟨"2024-04-01", 704, some 690, some 710⟩,
        ⟨"2024-05-01", 705, some 690, some 710⟩, ⟨"2024-06-01", 706, some 690, some 710⟩,
        ⟨"2024-07-01", 707, some 690, some 710⟩, ⟨"2024-08-01", 708, some 690, some 710⟩,
        ⟨"2024-09-01", 709, some 690, some 710⟩, ⟨"2024-10-01", 710, some 690, some 720⟩,
        ⟨"2024-11-01", 711, some 690, some 720⟩, ⟨"2024-12-01", 712, some 690, some 720⟩ ] }

/-- Region A of the comparison example: dates January and February. -/
def regionA : RegionResult :=
  { region := "A"
    data :=
      { historical := [⟨"2024-01-01", 100⟩]
        forecast := [⟨"2024-02-01", 110, some 105, some 115⟩] } }

/-- Region B of the comparison example: dates February and March. -/
def regionB : RegionResult :=
  { region := "B"
    data :=
      { historical := [⟨"2024-02-01", 200⟩]
        forecast := [⟨"2024-03-01", 210, some 205, some 215⟩] } }

/-- A live view state with nothing selected and an earlier single-mode result on show. -/
def emptySelectionState : ViewState :=
  { selectedRegions := []
    forecastMonths := 12
    analysisType := .comparison
    forecastData := some (.single "Texas" sampleSeries ⟨"2024-01-01"⟩ ⟨"2024-05-01"⟩ ⟨"2024-03-01"⟩)
    isLoading := false
    error := ""
    availableRegions := []
    selectedRegionForStats := ""
    newRegion := "" }

/-- A live view state with three regions selected. -/
def threeRegionState : ViewState :=
  { selectedRegions := ["Texas", "Ohio", "Utah"]
    forecastMonths := 12
    analysisType := .single
    forecastData := none
    isLoading := false
    error := ""
    availableRegions := ["Texas", "Ohio", "Utah", "Iowa"]
    selectedRegionForStats := "Texas"
    newRegion := "" }

/-- An environment whose server knows neither Ohio (500 with a detail) nor Utah (404
without one) and answers every other region with `sampleResponse`. -/
def sampleEnvironment : Environment :=
  { fetch := fun request =>
      if request.region = "Ohio" then
        .resolved ⟨500, .error (some (.text "No model for Ohio"))⟩
      else if request.region = "Utah" then .resolved ⟨404, .error none⟩
      else .resolved ⟨200, .payload sampleResponse⟩
    completion := [2, 1, 0]
    typeErrorMessage := fun property => "Cannot read properties of undefined: " ++ property }

/-- Generators of the mock variant that always yield the same data. -/
def sampleGenerators : MockGenerators :=
  { generateMockForecastData := fun _ _ _ => sampleSeries
    generateMockStatistics := fun region =>
      { region := region
        total_records := 1500
        date_range := "2010-01-01 to 2023-12-31"
        latest_zhvi := 300000
        zhvi_mean := 250000
        zhvi_std := 40000
        zhvi_min := 120000
        zhvi_max := 500000 } }

/-- A mock view state with nothing selected and an earlier result on show. -/
def mockEmptySelectionState : MockViewState :=
  { selectedRegions := []
    forecastDays := 365
    analysisType := .single
    forecastData := some (.single "Texas" sampleSeries)
    isLoading := false
    error := ""
    selectedRegionForStats := ""
    newRegion := "" }

/-- The prediction form, filled in. -/
def sampleForm : PredictionState :=
  { propertyTitle := "2 BHK Flat in Andheri"
    location := "Andheri West, Mumbai"
    totalArea := 1200
    baths := 2
    balcony := "Yes"
    predictionResult := none
    isLoading := false
    error := "" }

/-- A live view state in single mode whose first selected region is Ohio. -/
def ohioState : ViewState :=
  { selectedRegions := ["Ohio", "Texas"]
    forecastMonths := 6
    analysisType := .single
    forecastData := none
    isLoading := false
    error := ""
    availableRegions := ["Texas", "Ohio", "Utah", "Iowa"]
    selectedRegionForStats := "Ohio"
    newRegion := "" }

/-- A live view state in comparison mode whose two regions the sample server knows. -/
def comparisonState : ViewState :=
  { selectedRegions := ["Texas", "Iowa"]
    forecastMonths := 12
    analysisType := .comparison
    forecastData := none
    isLoading := false
    error := ""
    availableRegions := ["Texas", "Ohio", "Utah", "Iowa"]
    selectedRegionForStats := "Texas"
    newRegion := "" }

/-- A live view state in comparison mode with two regions the sample server rejects. -/
def failingComparisonState : ViewState :=
  { selectedRegions := ["Texas", "Ohio", "Utah"]
    forecastMonths := 12
    analysisType := .comparison
    forecastData := none
    isLoading := false
    error := ""
    availableRegions := ["Texas", "Ohio", "Utah", "Iowa"]
    selectedRegionForStats := "Texas"
    newRegion := "" }

/-- A `/forecast` response with history but an empty forecast list. -/
def noForecastResponse : ForecastResponse :=
  { historical := [⟨"2024-01-01", 100⟩, ⟨"2024-02-01", 110⟩]
    forecast := [] }

/-- An environment whose server answers every region 200 with `noForecastResponse`. -/
def noForecastEnvironment : Environment :=
  { fetch := fun _ => .resolved ⟨200, .payload noForecastResponse⟩
    completion := []
    typeErrorMessage := fun property => "Cannot read properties of undefined: " ++ property }

/-- A live view state in statistics mode with two regions selected and an earlier
comparison result on show. -/
def statisticsModeState : ViewState :=
  { selectedRegions := ["Texas", "Ohio"]
    forecastMonths := 24
    analysisType := .statistics
    forecastData := some (.comparison (comparisonData [regionA, regionB]))
    isLoading := false
    error := "old error"
    availableRegions := ["Texas", "Ohio", "Utah", "Iowa"]
    selectedRegionForStats := "Ohio"
    newRegion := "Utah" }

/-- A live view state showing a statistics result for three regions, two of them selected. -/
def statisticsResultState : ViewState :=
  { selectedRegions := ["Utah", "Texas"]
    forecastMonths := 12
    analysisType := .statistics
    forecastData :=
      some (.statistics
        [ ⟨"Texas", 1500, "2010-01-01 to 2023-12-31", 300000, 250000, 40000, 120000, 500000⟩,
          ⟨"Ohio", 1400, "2010-01-01 to 2023-12-31", 200000, 180000, 30000, 100000, 300000⟩,
          ⟨"Utah", 1300, "2010-01-01 to 2023-12-31", 400000, 350000, 50000, 150000, 600000⟩ ])
    isLoading := false
    error := ""
    availableRegions := ["Texas", "Ohio", "Utah", "Iowa"]
    selectedRegionForStats := "Texas"
    newRegion := "Ohio" }

/-- A mock view state in comparison mode with a single region selected and an earlier
single-mode result on show. -/
def mockOneRegionState : MockViewState :=
  { selectedRegions := ["Texas"]
    forecastDays := 365
    analysisType := .comparison
    forecastData := some (.single "Ohio" sampleSeries)
    isLoading := false
    error := ""
    selectedRegionForStats := "Texas"
    newRegion := "" }

/-- A mock view state in comparison mode with six regions selected. -/
def mockSixRegionState : MockViewState :=
  { selectedRegions := ["Texas", "Ohio", "Utah", "Iowa", "Maine", "Idaho"]
    forecastDays := 365
    analysisType := .comparison
    forecastData := some (.single "Ohio" sampleSeries)
    isLoading := false
    error := ""
    selectedRegionForStats := "Texas"
    newRegion := "" }

/-- A price server that answers every request with the same prediction. -/
def samplePriceServer : PriceRequest → FetchResult PredictionResult :=
  fun _ => .resolved ⟨200, .payload ⟨7500000, 3 / 4⟩⟩

/-- A live form whose title names zero bedrooms. -/
def zeroBhkForm : PredictionState :=
  { propertyTitle := "0 BHK Flat"
    location := "Andheri, Mumbai"
    totalArea := 1200
    baths := 2
    balcony := "No"
    predictionResult := none
    isLoading := false
    error := "" }

/-- The live form as it first renders: title and location empty. -/
def emptyForm : PredictionState :=
  { propertyTitle := ""
    location := ""
    totalArea := 1200
    baths := 2
    balcony := "Yes"
    predictionResult := none
    isLoading := false
    error := "" }

/-- The mock form as it first renders: title and location empty. -/
def mockEmptyForm : MockPredictionState :=
  { propertyTitle := ""
    location := ""
    totalArea := 1200
    baths := 2
    balcony := "Yes"
    predictionResult := none
    isLoading := false
    error := "" }

/-- An environment whose server answers Ohio 500 with an empty `detail` and every other
region 422 with a `detail` that is a list of one object. -/
def malformedDetailEnvironment : Environment :=
  { fetch := fun request =>
      if request.region = "Ohio" then .resolved ⟨500, .error (some (.text ""))⟩
      else .resolved ⟨422, .error (some (.other true "[object Object]"))⟩
    completion := []
    typeErrorMessage := fun property => "Cannot read properties of undefined: " ++ property }

/-- A live view state in single mode whose first selected region is Texas. -/
def texasState : ViewState :=
  { selectedRegions := ["Texas"]
    forecastMonths := 6
    analysisType := .single
    forecastData := none
    isLoading := false
    error := ""
    availableRegions := ["Texas", "Ohio", "Utah", "Iowa"]
    selectedRegionForStats := "Texas"
    newRegion := "" }

/-- An environment in which the call for Texas fails in transport and the server answers
Ohio 500; calls complete in call order. -/
def transportFailureEnvironment : Environment :=
  { fetch := fun request =>
      if request.region = "Texas" then
        .rejected "NetworkError when attempting to fetch resource."
      else if request.region = "Ohio" then
        .resolved ⟨500, .error (some (.text "No model for Ohio"))⟩
      else .resolved ⟨200, .payload sampleResponse⟩
    completion := [0, 1]
    typeErrorMessage := fun property => "Cannot read properties of undefined: " ++ property }

/-- A live view state in comparison mode with Texas and Ohio selected. -/
def transportFailureState : ViewState :=
  { selectedRegions := ["Texas", "Ohio"]
    forecastMonths := 12
    analysisType := .comparison
    forecastData := none
    isLoading := false
    error := ""
    availableRegions := ["Texas", "Ohio", "Utah", "Iowa"]
    selectedRegionForStats := "Texas"
    newRegion := "" }

/-! # Properties -/

/-! ## The single-mode normaliser -/

theorem historicalData_length (data : ForecastResponse) :
    (historicalData data).length = data.historical.length := by
  simp [historicalData]

theorem forecastDataTransformed_length (data : ForecastResponse) :
    (forecastDataTransformed data).length = data.forecast.length := by
  simp [forecastDataTransformed]

theorem combinedData_length (data : ForecastResponse) :
    (combinedData data).length = data.historical.length + data.forecast.length := by
  simp [combinedData, historicalData_length, forecastDataTransformed_length]

theorem mem_historicalData {data : ForecastResponse} {p : SeriesPoint}
    (h : p ∈ historicalData data) : p.isHistorical = some true ∧ p.isForecast = none := by
  simp only [historicalData, List.mem_map] at h
  obtain ⟨item, -, rfl⟩ := h
  exact ⟨rfl, rfl⟩

theorem mem_forecastDataTransformed {data : ForecastResponse} {p : SeriesPoint}
    (h : p ∈ forecastDataTransformed data) : p.isHistorical = none ∧ p.isForecast = some true := by
  simp only [forecastDataTransformed, List.mem_map] at h
  obtain ⟨item, -, rfl⟩ := h
  exact ⟨rfl, rfl⟩

theorem filter_isHistorical_combinedData (data : ForecastResponse) :
    (combinedData data).filter (fun d => truthy d.isHistorical) = historicalData data := by
  have h1 : (historicalData data).filter (fun d => truthy d.isHistorical) = historicalData data :=
    List.filter_eq_self.2 fun p hp => by simp [(mem_historicalData hp).1, truthy]
  have h2 : (forecastDataTransformed data).filter (fun d => truthy d.isHistorical) = [] :=
    List.filter_eq_nil_iff.2 fun p hp => by simp [(mem_forecastDataTransformed hp).1, truthy]
  simp [combinedData, List.filter_append, h1, h2]

theorem filter_isForecast_combinedData (data : ForecastResponse) :
    (combinedData data).filter (fun d => truthy d.isForecast) = forecastDataTransformed data := by
  have h1 : (historicalData data).filter (fun d => truthy d.isForecast) = [] :=
    List.filter_eq_nil_iff.2 fun p hp => by simp [(mem_historicalData hp).2, truthy]
  have h2 : (forecastDataTransformed data).filter (fun d => truthy d.isForecast)
      = forecastDataTransformed data :=
    List.filter_eq_self.2 fun p hp => by simp [(mem_forecastDataTransformed hp).2, truthy]
  simp [combinedData, List.filter_append, h1, h2]

/-- C1: the series built by the live single-mode normaliser has length `|H| + |F|`; its
`i`-th point (`i < |H|`) carries the month and price of `H[i]`, is flagged `isHistorical`
and has no bounds; its `(|H| + j)`-th point (`j < |F|`) carries the month, price and both
bounds of `F[j]` and is flagged `isForecast`; the order of `H` and of `F` is kept. -/
theorem combinedData_spec (data : ForecastResponse) :
    (combinedData data).length = data.historical.length + data.forecast.length ∧
    (∀ (i : Nat) (hi : i < data.historical.length),
      (combinedData data)[i]? = some
        { ds := (data.historical.get ⟨i, hi⟩).Month
          yhat := (data.historical.get ⟨i, hi⟩).Historical_Price
          yhat_lower := none
          yhat_upper := none
          isHistorical := some true
          isForecast := none }) ∧
    (∀ (j : Nat) (hj : j < data.forecast.length),
      (combinedData data)[data.historical.length + j]? = some
        { ds := (data.forecast.get ⟨j, hj⟩).Month
          yhat := (data.forecast.get ⟨j, hj⟩).Forecasted_Price
          yhat_lower := (data.forecast.get ⟨j, hj⟩).Lower_Bound
          yhat_upper := (data.forecast.get ⟨j, hj⟩).Upper_Bound
          isHistorical := none
          isForecast := some true }) ∧
    (combinedData data).map (fun d => d.ds)
      = data.historical.map (fun item => item.Month)
        ++ data.forecast.map (fun item => item.Month) := by
  refine ⟨combinedData_length data, ?_, ?_, ?_⟩
  · intro i hi
    have hi' : i < (historicalData data).length := by simpa [historicalData_length] using hi
    rw [combinedData, List.getElem?_append_left hi']
    simp [historicalData, hi]
  · intro j hj
    have hle : (historicalData data).length ≤ data.historical.length + j := by
      simp [historicalData_length]
    rw [combinedData, List.getElem?_append_right hle]
    simp [historicalData_length, forecastDataTransformed, hj]
  · simp [combinedData, historicalData, forecastDataTransformed, Function.comp_def]

/-- C2: in the series built by the live single-mode normaliser every point has exactly one
of `isHistorical` / `isForecast` true, and the points kept by the `isHistorical` filter
followed by the points kept by the `isForecast` filter (the two filters of
`renderSingleForecast`) are the series itself, in the same order. -/
theorem combinedData_partition (data : ForecastResponse) :
    (∀ p ∈ combinedData data, truthy p.isHistorical ≠ truthy p.isForecast) ∧
    (combinedData data).filter (fun d => truthy d.isHistorical)
        ++ (combinedData data).filter (fun d => truthy d.isForecast) = combinedData data ∧
    (∀ (region : String) (d1 d2 d3 : JSDate),
      (renderSingleForecast (some (.single region (combinedData data) d1 d2 d3))).map
          (fun stats => stats.historicalData ++ stats.forecastOnlyData)
        = if (combinedData data).length = 0 then none else some (combinedData data)) := by
  refine ⟨?_, ?_, ?_⟩
  · intro p hp
    rcases List.mem_append.1 hp with h | h
    · simp [(mem_historicalData h).1, (mem_historicalData h).2, truthy]
    · simp [(mem_forecastDataTransformed h).1, (mem_forecastDataTransformed h).2, truthy]
  · rw [filter_isHistorical_combinedData, filter_isForecast_combinedData, combinedData]
  · intro region d1 d2 d3
    simp only [renderSingleForecast]
    split
    · rfl
    · simp only [Option.map_some']
      rw [filter_isHistorical_combinedData, filter_isForecast_combinedData, combinedData]

/-- Witness for C1 on `sampleResponse`: the first historical and the first forecast point. -/
theorem combinedData_spec_witness :
    (combinedData sampleResponse)[0]?
        = some ⟨"2024-01-01", 100, none, none, some true, none⟩ ∧
      (combinedData sampleResponse)[2 + 0]?
        = some ⟨"2024-03-01", 120, some 115, some 125, none, some true⟩ :=
  ⟨(combinedData_spec sampleResponse).2.1 0 (by decide),
    (combinedData_spec sampleResponse).2.2.1 0 (by decide)⟩

/-- Witness for C2 on `sampleResponse`: its second historical point is historical only. -/
theorem combinedData_partition_witness :
    truthy (SeriesPoint.isHistorical ⟨"2024-02-01", 110, none, none, some true, none⟩)
      ≠ truthy (SeriesPoint.isForecast ⟨"2024-02-01", 110, none, none, some true, none⟩) :=
  (combinedData_partition sampleResponse).1 ⟨"2024-02-01", 110, none, none, some true, none⟩
    (by simp [combinedData, historicalData, sampleResponse])

/-! ## `findIndex` -/

theorem findIndex_eq_none_iff {α : Type} (p : α → Bool) (xs : List α) :
    findIndex p xs = none ↔ ∀ x ∈ xs, p x = false := by
  induction xs with
  | nil => simp [findIndex]
  | cons x xs ih =>
    by_cases hx : p x = true
    · simp [findIndex, hx]
    · simp [findIndex, hx, ih]

theorem findIndex_some {α : Type} (p : α → Bool) (xs : List α) (i : Nat)
    (h : findIndex p xs = some i) :
    i < xs.length ∧ xs[i]? = xs.find? p ∧ xs.drop i = xs.dropWhile (fun x => !p x) := by
  induction xs generalizing i with
  | nil => simp [findIndex] at h
  | cons x xs ih =>
    by_cases hx : p x = true
    · simp only [findIndex, hx, if_true, Option.some.injEq] at h
      subst h
      simp [List.find?, List.dropWhile, hx]
    · simp only [findIndex, hx, Bool.false_eq_true, if_false, Option.map_eq_some'] at h
      obtain ⟨j, hj, rfl⟩ := h
      obtain ⟨h1, h2, h3⟩ := ih j hj
      have hx' : p x = false := by simpa using hx
      refine ⟨by simp [h1], ?_, ?_⟩
      · simpa [List.find?, hx'] using h2
      · simpa [List.dropWhile, hx'] using h3

theorem findIndex_isSome_of_mem {α : Type} (p : α → Bool) (xs : List α)
    (h : ∃ x ∈ xs, p x = true) : ∃ i, findIndex p xs = some i := by
  cases hfi : findIndex p xs with
  | some i => exact ⟨i, rfl⟩
  | none =>
    obtain ⟨x, hx, hpx⟩ := h
    have := (findIndex_eq_none_iff p xs).1 hfi x hx
    simp [this] at hpx

/-! ## `getForecastSummary` -/

/-- The summary `getForecastSummary` returns once the first forecast index, the point at
it and the last point of the series are known. -/
theorem getForecastSummary_some (xs : List SeriesPoint) (i : Nat) (first last : SeriesPoint)
    (hi : findIndex (fun d => truthy d.isForecast) xs = some i)
    (hfirst : xs[i]? = some first) (hlast : xs.getLast? = some last) :
    getForecastSummary (some xs) = some
      { current_value := .fin first.yhat
        forecast_end_value := .fin last.yhat
        forecast_start_value := .fin first.yhat
        total_change := (JSNum.fin last.yhat).sub (.fin first.yhat)
        percent_change :=
          (((JSNum.fin last.yhat).sub (.fin first.yhat)).div (.fin first.yhat)).mul (.fin 100)
        max_forecast := mathMax ((xs.drop i).map fun d => JSNum.fin d.yhat)
        min_forecast := mathMin ((xs.drop i).map fun d => JSNum.fin d.yhat)
        forecast_periods := (xs.length : Int) - (i : Int) } := by
  have hne : xs.length ≠ 0 := by
    intro h0
    have : xs = [] := List.length_eq_zero.1 h0
    subst this
    simp at hlast
  have hlast' : xs[xs.length - 1]? = some last := by
    rw [← List.getLast?_eq_getElem?]; exact hlast
  simp only [getForecastSummary, hne, if_false, hi, hfirst, hlast']

/-- Whenever a forecast point exists, `getForecastSummary` finds the first one and the last
point of the series. -/
theorem exists_first_last (xs : List SeriesPoint)
    (h : ∃ p ∈ xs, truthy p.isForecast = true) :
    ∃ (i : Nat) (first last : SeriesPoint),
      findIndex (fun d => truthy d.isForecast) xs = some i ∧ xs[i]? = some first ∧
      xs.find? (fun d => truthy d.isForecast) = some first ∧ xs.getLast? = some last ∧
      (xs.dropWhile fun d => !truthy d.isForecast) = xs.drop i ∧ i < xs.length := by
  obtain ⟨i, hi⟩ := findIndex_isSome_of_mem _ xs h
  obtain ⟨hlt, hget, hdrop⟩ := findIndex_some _ xs i hi
  have hne : xs ≠ [] := by
    intro h0; subst h0; simp at hlt
  refine ⟨i, xs[i], xs.getLast hne, hi, ?_, ?_, ?_, hdrop.symm, hlt⟩
  · exact List.getElem?_eq_getElem hlt
  · rw [← hget]; exact List.getElem?_eq_getElem hlt
  · exact List.getLast?_eq_getLast xs hne

/-- C3: for a series with at least one forecast point, `getForecastSummary` returns a
summary whose `forecast_start_value` and `current_value` are the `yhat` of the first point
flagged `isForecast`, whose `forecast_end_value` is the `yhat` of the last point of the
forecast suffix, which is the last point of the series, whose `total_change` is end minus
start and whose `percent_change`, when the start is not 0, is
`total_change / start * 100`. -/
theorem getForecastSummary_values (forecastData : List SeriesPoint)
    (h : ∃ p ∈ forecastData, truthy p.isForecast = true) :
    ∃ (summary : ForecastSummary) (first last : SeriesPoint),
      getForecastSummary (some forecastData) = some summary ∧
      forecastData.find? (fun d => truthy d.isForecast) = some first ∧
      (forecastData.dropWhile fun d => !truthy d.isForecast).getLast? = some last ∧
      forecastData.getLast? = some last ∧
      summary.forecast_start_value = .fin first.yhat ∧
      summary.current_value = .fin first.yhat ∧
      summary.forecast_end_value = .fin last.yhat ∧
      summary.total_change = .fin (last.yhat - first.yhat) ∧
      (first.yhat ≠ 0 →
        summary.percent_change = .fin ((last.yhat - first.yhat) / first.yhat * 100)) := by
  obtain ⟨i, first, last, hi, hget, hfind, hlast, hdrop, hlt⟩ := exists_first_last forecastData h
  refine ⟨_, first, last, getForecastSummary_some forecastData i first last hi hget hlast,
    hfind, ?_, hlast, rfl, rfl, rfl, rfl, ?_⟩
  · rw [hdrop, List.getLast?_drop, if_neg (by omega)]
    exact hlast
  · intro hne
    simp [JSNum.sub, JSNum.div, JSNum.mul, hne]

/-- Witness for C3 on `sampleSeries`, whose third point is its first forecast point. -/
theorem getForecastSummary_values_witness :
    ∃ (summary : ForecastSummary) (first last : SeriesPoint),
      getForecastSummary (some sampleSeries) = some summary ∧
      sampleSeries.find? (fun d => truthy d.isForecast) = some first ∧
      (sampleSeries.dropWhile fun d => !truthy d.isForecast).getLast? = some last ∧
      sampleSeries.getLast? = some last ∧
      summary.forecast_start_value = .fin first.yhat ∧
      summary.current_value = .fin first.yhat ∧
      summary.forecast_end_value = .fin last.yhat ∧
      summary.total_change = .fin (last.yhat - first.yhat) ∧
      (first.yhat ≠ 0 →
        summary.percent_change = .fin ((last.yhat - first.yhat) / first.yhat * 100)) :=
  getForecastSummary_values sampleSeries
    ⟨⟨"2024-03-01", 200, some 190, some 210, none, some true⟩, by simp [sampleSeries], rfl⟩

theorem filter_getElem?_zero {α : Type} (p : α → Bool) (xs : List α) :
    (xs.filter p)[0]? = xs.find? p := by
  induction xs with
  | nil => rfl
  | cons x xs ih =>
    by_cases hx : p x = true
    · simp [List.filter, List.find?, hx]
    · have hx' : p x = false := by simpa using hx
      simpa [List.filter, List.find?, hx'] using ih

theorem findIndex_of_find? (xs : List SeriesPoint) (first : SeriesPoint)
    (hfirst : xs.find? (fun d => truthy d.isForecast) = some first) :
    ∃ i : Nat, findIndex (fun d => truthy d.isForecast) xs = some i ∧ xs[i]? = some first ∧
      xs.drop i = (xs.dropWhile fun d => !truthy d.isForecast) ∧ i < xs.length := by
  have hmem : ∃ p ∈ xs, (fun d => truthy d.isForecast) p = true :=
    ⟨first, List.mem_of_find?_eq_some hfirst, by simpa using List.find?_some hfirst⟩
  obtain ⟨i, hi⟩ := findIndex_isSome_of_mem _ xs hmem
  obtain ⟨hlt, hget, hdrop⟩ := findIndex_some _ xs i hi
  exact ⟨i, hi, hget.trans hfirst, hdrop, hlt⟩

/-- The inline statistics of `renderSingleForecast` once the first and the last point of
the `isForecast` filter are known. -/
theorem renderSingleForecast_single (region : String) (data : List SeriesPoint)
    (d1 d2 d3 : JSDate) (first last : SeriesPoint)
    (hfirst : data.find? (fun d => truthy d.isForecast) = some first)
    (hlast : (data.filter fun d => truthy d.isForecast).getLast? = some last) :
    renderSingleForecast (some (.single region data d1 d2 d3)) = some
      { historicalData := data.filter fun d => truthy d.isHistorical
        forecastOnlyData := data.filter fun d => truthy d.isForecast
        firstForecastValue := some first.yhat
        lastForecastValue := some last.yhat
        totalChange := (JSNum.fin last.yhat).sub (.fin first.yhat)
        percentChange :=
          (((JSNum.fin last.yhat).sub (.fin first.yhat)).div (.fin first.yhat)).mul (.fin 100)
        maxValue := mathMax ((data.filter fun d => truthy d.isForecast).map fun d => .fin d.yhat)
        minValue :=
          mathMin ((data.filter fun d => truthy d.isForecast).map fun d => .fin d.yhat) } := by
  have hne : data.length ≠ 0 := by
    intro h0
    have : data = [] := List.length_eq_zero.1 h0
    subst this
    simp at hfirst
  have h0 : (data.filter fun d => truthy d.isForecast)[0]? = some first := by
    rw [filter_getElem?_zero]; exact hfirst
  have hl : (data.filter fun d => truthy d.isForecast)[
      (data.filter fun d => truthy d.isForecast).length - 1]? = some last := by
    rw [← List.getLast?_eq_getElem?]; exact hlast
  simp only [renderSingleForecast, hne, if_false, h0, hl, Option.map_some', toNumber]

/-- C4, as the code has it: when the first forecast point has `yhat = 0` no sentinel is
returned.  `getForecastSummary` returns a summary whose `percent_change` is NaN when the
last point of the series has `yhat = 0` too, `+Infinity` when that value is positive and
`-Infinity` when it is negative; the inline computation of `renderSingleForecast` gives
the same with the last point of the `isForecast` filter. -/
theorem percent_change_zero_start (forecastData : List SeriesPoint)
    (first last lastForecast : SeriesPoint)
    (hfirst : forecastData.find? (fun d => truthy d.isForecast) = some first)
    (hlast : forecastData.getLast? = some last)
    (hlastForecast :
      (forecastData.filter fun d => truthy d.isForecast).getLast? = some lastForecast)
    (hzero : first.yhat = 0) :
    (∃ summary : ForecastSummary,
      getForecastSummary (some forecastData) = some summary ∧
      summary.percent_change
        = (if last.yhat = 0 then JSNum.nan
           else if 0 < last.yhat then JSNum.posInf else JSNum.negInf) ∧
      summary.percent_change.isFinite = false) ∧
    (∀ (region : String) (d1 d2 d3 : JSDate), ∃ stats : SingleForecastStats,
      renderSingleForecast (some (.single region forecastData d1 d2 d3)) = some stats ∧
      stats.percentChange
        = (if lastForecast.yhat = 0 then JSNum.nan
           else if 0 < lastForecast.yhat then JSNum.posInf else JSNum.negInf) ∧
      stats.percentChange.isFinite = false) := by
  have key : ∀ e : ℚ,
      (((JSNum.fin e).sub (.fin first.yhat)).div (.fin first.yhat)).mul (.fin 100)
        = (if e = 0 then JSNum.nan else if 0 < e then JSNum.posInf else JSNum.negInf) := by
    intro e
    rw [hzero]
    by_cases he : e = 0
    · simp [JSNum.sub, JSNum.div, JSNum.mul, he]
    · by_cases hp : 0 < e
      · simp [JSNum.sub, JSNum.div, JSNum.mul, he, hp]
      · simp [JSNum.sub, JSNum.div, JSNum.mul, he, hp]
  have key2 : ∀ e : ℚ,
      (if e = 0 then JSNum.nan else if 0 < e then JSNum.posInf else JSNum.negInf).isFinite
        = false := by
    intro e
    split_ifs <;> rfl
  obtain ⟨i, hi, hget, -, -⟩ := findIndex_of_find? forecastData first hfirst
  refine ⟨⟨_, getForecastSummary_some forecastData i first last hi hget hlast, ?_, ?_⟩, ?_⟩
  · exact key last.yhat
  · show JSNum.isFinite
      ((((JSNum.fin last.yhat).sub (.fin first.yhat)).div (.fin first.yhat)).mul (.fin 100))
        = false
    rw [key]; exact key2 _
  · intro region d1 d2 d3
    refine ⟨_, renderSingleForecast_single region forecastData d1 d2 d3 first lastForecast
      hfirst hlastForecast, ?_, ?_⟩
    · exact key lastForecast.yhat
    · show JSNum.isFinite
        ((((JSNum.fin lastForecast.yhat).sub (.fin first.yhat)).div (.fin first.yhat)).mul
          (.fin 100)) = false
      rw [key]; exact key2 _

/-- Witness for the amended C4 on `zeroStartSeries`. -/
theorem percent_change_zero_start_witness :
    (∃ summary : ForecastSummary,
      getForecastSummary (some zeroStartSeries) = some summary ∧
      summary.percent_change = JSNum.nan ∧ summary.percent_change.isFinite = false) ∧
    (∀ (region : String) (d1 d2 d3 : JSDate), ∃ stats : SingleForecastStats,
      renderSingleForecast (some (.single region zeroStartSeries d1 d2 d3)) = some stats ∧
      stats.percentChange = JSNum.nan ∧ stats.percentChange.isFinite = false) :=
  percent_change_zero_start zeroStartSeries
    ⟨"2024-02-01", 0, some 0, some 0, none, some true⟩
    ⟨"2024-03-01", 0, some 0, some 0, none, some true⟩
    ⟨"2024-03-01", 0, some 0, some 0, none, some true⟩
    (by simp [zeroStartSeries, truthy]) (by simp [zeroStartSeries])
    (by simp [zeroStartSeries, truthy]) rfl

/-- C4 as stated fails: on `zeroStartSeries`, whose first forecast point has `yhat = 0`,
both `getForecastSummary` and the inline computation of `renderSingleForecast` yield NaN
for the percent change, not a sentinel. -/
theorem percent_change_sentinel_counterexample :
    (getForecastSummary (some zeroStartSeries)).map (fun s => s.percent_change)
        = some JSNum.nan ∧
      (renderSingleForecast
          (some (.single "California" zeroStartSeries ⟨"2024-01-01"⟩ ⟨"2024-03-01"⟩
            ⟨"2024-02-01"⟩))).map (fun s => s.percentChange) = some JSNum.nan := by
  constructor
  · simp [getForecastSummary, zeroStartSeries, findIndex, truthy, JSNum.sub, JSNum.div,
      JSNum.mul]
  · simp [renderSingleForecast, zeroStartSeries, truthy, toNumber, JSNum.sub, JSNum.div,
      JSNum.mul]

/-- C5: when the first forecast value is strictly positive, the `percent_change` returned
by `getForecastSummary` is a finite number that is positive exactly when end > start, zero
exactly when end = start and negative exactly when end < start. -/
theorem percent_change_sign (forecastData : List SeriesPoint) (first last : SeriesPoint)
    (hfirst : forecastData.find? (fun d => truthy d.isForecast) = some first)
    (hlast : forecastData.getLast? = some last)
    (hpos : 0 < first.yhat) :
    ∃ (summary : ForecastSummary) (pc : ℚ),
      getForecastSummary (some forecastData) = some summary ∧
      summary.forecast_start_value = .fin first.yhat ∧
      summary.forecast_end_value = .fin last.yhat ∧
      summary.percent_change = .fin pc ∧
      (0 < pc ↔ first.yhat < last.yhat) ∧
      (pc = 0 ↔ last.yhat = first.yhat) ∧
      (pc < 0 ↔ last.yhat < first.yhat) := by
  obtain ⟨i, hi, hget, -, -⟩ := findIndex_of_find? forecastData first hfirst
  have hne : first.yhat ≠ 0 := ne_of_gt hpos
  have hc : (0 : ℚ) < 100 / first.yhat := by positivity
  have hpc : (last.yhat - first.yhat) / first.yhat * 100
      = (last.yhat - first.yhat) * (100 / first.yhat) := by ring
  refine ⟨_, (last.yhat - first.yhat) / first.yhat * 100,
    getForecastSummary_some forecastData i first last hi hget hlast, rfl, rfl, ?_, ?_, ?_, ?_⟩
  · simp [JSNum.sub, JSNum.div, JSNum.mul, hne]
  · rw [hpc, mul_pos_iff_of_pos_right hc, sub_pos]
  · rw [hpc, mul_eq_zero, sub_eq_zero]
    constructor
    · rintro (h | h)
      · exact h
      · exact absurd h (ne_of_gt hc)
    · intro h; exact Or.inl h
  · rw [hpc]
    constructor
    · intro h
      by_contra hcon
      have : 0 ≤ last.yhat - first.yhat := by linarith
      have := mul_nonneg this hc.le
      linarith
    · intro h
      exact mul_neg_of_neg_of_pos (by linarith) hc

/-- Witness for C5 on `sampleSeries`: the forecast starts at 200 and ends at 250. -/
theorem percent_change_sign_witness :
    ∃ (summary : ForecastSummary) (pc : ℚ),
      getForecastSummary (some sampleSeries) = some summary ∧
      summary.forecast_start_value = .fin 200 ∧
      summary.forecast_end_value = .fin 250 ∧
      summary.percent_change = .fin pc ∧
      (0 < pc ↔ (200 : ℚ) < 250) ∧
      (pc = 0 ↔ (250 : ℚ) = 200) ∧
      (pc < 0 ↔ (250 : ℚ) < 200) :=
  percent_change_sign sampleSeries
    ⟨"2024-03-01", 200, some 190, some 210, none, some true⟩
    ⟨"2024-05-01", 250, some 220, some 270, none, some true⟩
    (by simp [sampleSeries, truthy]) (by simp [sampleSeries]) (by norm_num)

/-! ## `Math.max` and `Math.min` over finite values -/

theorem mathMax_foldl_fin (ys : List ℚ) (a : ℚ) :
    ∃ M : ℚ,
      (ys.map JSNum.fin).foldl
          (fun highest number =>
            if highest.isNaN || number.isNaN then JSNum.nan
            else if highest.lt number then number else highest)
          (JSNum.fin a) = JSNum.fin M ∧
      (M = a ∨ M ∈ ys) ∧ a ≤ M ∧ ∀ y ∈ ys, y ≤ M := by
  induction ys generalizing a with
  | nil => exact ⟨a, rfl, Or.inl rfl, le_refl a, by simp⟩
  | cons y ys ih =>
    by_cases hlt : a < y
    · obtain ⟨M, hM, hmem, hle, hall⟩ := ih y
      refine ⟨M, ?_, ?_, le_trans hlt.le hle, ?_⟩
      · simpa [JSNum.isNaN, JSNum.lt, hlt] using hM
      · rcases hmem with h | h
        · exact Or.inr (by simp [h])
        · exact Or.inr (by simp [h])
      · intro z hz
        rcases List.mem_cons.1 hz with h | h
        · rw [h]; exact hle
        · exact hall z h
    · obtain ⟨M, hM, hmem, hle, hall⟩ := ih a
      refine ⟨M, ?_, ?_, hle, ?_⟩
      · simpa [JSNum.isNaN, JSNum.lt, hlt] using hM
      · rcases hmem with h | h
        · exact Or.inl h
        · exact Or.inr (by simp [h])
      · intro z hz
        rcases List.mem_cons.1 hz with h | h
        · rw [h]; exact le_trans (not_lt.1 hlt) hle
        · exact hall z h

theorem mathMin_foldl_fin (ys : List ℚ) (a : ℚ) :
    ∃ m : ℚ,
      (ys.map JSNum.fin).foldl
          (fun lowest number =>
            if lowest.isNaN || number.isNaN then JSNum.nan
            else if number.lt lowest then number else lowest)
          (JSNum.fin a) = JSNum.fin m ∧
      (m = a ∨ m ∈ ys) ∧ m ≤ a ∧ ∀ y ∈ ys, m ≤ y := by
  induction ys generalizing a with
  | nil => exact ⟨a, rfl, Or.inl rfl, le_refl a, by simp⟩
  | cons y ys ih =>
    by_cases hlt : y < a
    · obtain ⟨m, hm, hmem, hle, hall⟩ := ih y
      refine ⟨m, ?_, ?_, le_trans hle hlt.le, ?_⟩
      · simpa [JSNum.isNaN, JSNum.lt, hlt] using hm
      · rcases hmem with h | h
        · exact Or.inr (by simp [h])
        · exact Or.inr (by simp [h])
      · intro z hz
        rcases List.mem_cons.1 hz with h | h
        · rw [h]; exact hle
        · exact hall z h
    · obtain ⟨m, hm, hmem, hle, hall⟩ := ih a
      refine ⟨m, ?_, ?_, hle, ?_⟩
      · simpa [JSNum.isNaN, JSNum.lt, hlt] using hm
      · rcases hmem with h | h
        · exact Or.inl h
        · exact Or.inr (by simp [h])
      · intro z hz
        rcases List.mem_cons.1 hz with h | h
        · rw [h]; exact le_trans hle (not_lt.1 hlt)
        · exact hall z h

/-- On a non-empty list of points `Math.max` of the `yhat` values is attained by a point
of the list and bounds every point from above. -/
theorem mathMax_points (suffix : List SeriesPoint) (hne : suffix ≠ []) :
    ∃ hi ∈ suffix, mathMax (suffix.map fun d => JSNum.fin d.yhat) = .fin hi.yhat ∧
      ∀ p ∈ suffix, p.yhat ≤ hi.yhat := by
  cases suffix with
  | nil => exact absurd rfl hne
  | cons p ps =>
    obtain ⟨M, hM, hmem, hle, hall⟩ := mathMax_foldl_fin (ps.map fun d => d.yhat) p.yhat
    have hval : mathMax ((p :: ps).map fun d => JSNum.fin d.yhat) = .fin M := by
      simpa [mathMax, JSNum.isNaN, JSNum.lt, List.map_map, Function.comp_def] using hM
    have hbound : ∀ q ∈ p :: ps, q.yhat ≤ M := by
      intro q hq
      rcases List.mem_cons.1 hq with h | h
      · rw [h]; exact hle
      · exact hall _ (List.mem_map_of_mem _ h)
    rcases hmem with h | h
    · exact ⟨p, List.mem_cons_self _ _, by rw [hval, h], by rw [← h]; exact hbound⟩
    · obtain ⟨q, hq, hqM⟩ := List.mem_map.1 h
      exact ⟨q, List.mem_cons_of_mem _ hq, by rw [hval, hqM], by rw [hqM]; exact hbound⟩

/-- On a non-empty list of points `Math.min` of the `yhat` values is attained by a point
of the list and bounds every point from below. -/
theorem mathMin_points (suffix : List SeriesPoint) (hne : suffix ≠ []) :
    ∃ lo ∈ suffix, mathMin (suffix.map fun d => JSNum.fin d.yhat) = .fin lo.yhat ∧
      ∀ p ∈ suffix, lo.yhat ≤ p.yhat := by
  cases suffix with
  | nil => exact absurd rfl hne
  | cons p ps =>
    obtain ⟨m, hm, hmem, hle, hall⟩ := mathMin_foldl_fin (ps.map fun d => d.yhat) p.yhat
    have hval : mathMin ((p :: ps).map fun d => JSNum.fin d.yhat) = .fin m := by
      simpa [mathMin, JSNum.isNaN, JSNum.lt, List.map_map, Function.comp_def] using hm
    have hbound : ∀ q ∈ p :: ps, m ≤ q.yhat := by
      intro q hq
      rcases List.mem_cons.1 hq with h | h
      · rw [h]; exact hle
      · exact hall _ (List.mem_map_of_mem _ h)
    rcases hmem with h | h
    · exact ⟨p, List.mem_cons_self _ _, by rw [hval, h], by rw [← h]; exact hbound⟩
    · obtain ⟨q, hq, hqm⟩ := List.mem_map.1 h
      exact ⟨q, List.mem_cons_of_mem _ hq, by rw [hval, hqm], by rw [hqm]; exact hbound⟩

/-- The forecast suffix of a series that has a forecast point is not empty, and putting
any run of non-forecast points in front of it leaves it the forecast suffix. -/
theorem dropWhile_suffix (xs : List SeriesPoint)
    (h : ∃ p ∈ xs, truthy p.isForecast = true) :
    (xs.dropWhile fun d => !truthy d.isForecast) ≠ [] ∧
    ∀ pre : List SeriesPoint, (∀ p ∈ pre, truthy p.isForecast = false) →
      ((pre ++ xs.dropWhile fun d => !truthy d.isForecast).dropWhile
          fun d => !truthy d.isForecast)
        = (xs.dropWhile fun d => !truthy d.isForecast) := by
  constructor
  · intro hnil
    obtain ⟨p, hp, hpf⟩ := h
    have := List.dropWhile_eq_nil_iff.1 hnil p hp
    simp [hpf] at this
  · intro pre hpre
    rw [List.dropWhile_append_of_pos (fun a ha => by simp [hpre a ha]),
      List.dropWhile_idempotent]

/-- C6: for a series with a non-empty forecast suffix, `max_forecast` is the `yhat` of a
point of the suffix and is at least the `yhat` of every suffix point, `min_forecast` is
the `yhat` of a point of the suffix and is at most the `yhat` of every suffix point, and
both stay the same when the points before the suffix are replaced by any other run of
non-forecast points (in particular by the same points with other `yhat` values). -/
theorem max_min_forecast_spec (forecastData : List SeriesPoint)
    (h : ∃ p ∈ forecastData, truthy p.isForecast = true) :
    ∃ (summary : ForecastSummary) (hi lo : SeriesPoint),
      getForecastSummary (some forecastData) = some summary ∧
      hi ∈ (forecastData.dropWhile fun d => !truthy d.isForecast) ∧
      summary.max_forecast = .fin hi.yhat ∧
      (∀ p ∈ (forecastData.dropWhile fun d => !truthy d.isForecast), p.yhat ≤ hi.yhat) ∧
      lo ∈ (forecastData.dropWhile fun d => !truthy d.isForecast) ∧
      summary.min_forecast = .fin lo.yhat ∧
      (∀ p ∈ (forecastData.dropWhile fun d => !truthy d.isForecast), lo.yhat ≤ p.yhat) ∧
      ∀ historical : List SeriesPoint, (∀ p ∈ historical, truthy p.isForecast = false) →
        ∃ summary' : ForecastSummary,
          getForecastSummary
              (some (historical ++ forecastData.dropWhile fun d => !truthy d.isForecast))
            = some summary' ∧
          summary'.max_forecast = summary.max_forecast ∧
          summary'.min_forecast = summary.min_forecast := by
  obtain ⟨i, first, last, hi, hget, -, hlast, hdrop, -⟩ := exists_first_last forecastData h
  obtain ⟨hne, hpre⟩ := dropWhile_suffix forecastData h
  obtain ⟨pmax, hmaxmem, hmaxval, hmaxall⟩ := mathMax_points _ hne
  obtain ⟨pmin, hminmem, hminval, hminall⟩ := mathMin_points _ hne
  refine ⟨_, pmax, pmin, getForecastSummary_some forecastData i first last hi hget hlast,
    hmaxmem, ?_, hmaxall, hminmem, ?_, hminall, ?_⟩
  · show mathMax ((forecastData.drop i).map fun d => JSNum.fin d.yhat) = _
    rw [← hdrop]; exact hmaxval
  · show mathMin ((forecastData.drop i).map fun d => JSNum.fin d.yhat) = _
    rw [← hdrop]; exact hminval
  · intro historical hhist
    have h' : ∃ p ∈ historical ++ forecastData.dropWhile fun d => !truthy d.isForecast,
        truthy p.isForecast = true := by
      have hhead := List.head?_dropWhile_not (fun d => !truthy d.isForecast) forecastData
      cases hd : (forecastData.dropWhile fun d => !truthy d.isForecast) with
      | nil => exact absurd hd hne
      | cons a as =>
        rw [hd] at hhead
        refine ⟨a, List.mem_append_right _ (List.mem_cons_self _ _), ?_⟩
        simpa using hhead
    obtain ⟨i', first', last', hi', hget', -, hlast', hdrop', -⟩ := exists_first_last _ h'
    refine ⟨_, getForecastSummary_some _ i' first' last' hi' hget' hlast', ?_, ?_⟩
    · show mathMax (((historical ++ forecastData.dropWhile fun d => !truthy d.isForecast).drop
        i').map fun d => JSNum.fin d.yhat)
          = mathMax ((forecastData.drop i).map fun d => JSNum.fin d.yhat)
      rw [← hdrop', ← hdrop, hpre historical hhist]
    · show mathMin (((historical ++ forecastData.dropWhile fun d => !truthy d.isForecast).drop
        i').map fun d => JSNum.fin d.yhat)
          = mathMin ((forecastData.drop i).map fun d => JSNum.fin d.yhat)
      rw [← hdrop', ← hdrop, hpre historical hhist]

/-- Witness for C6 on `sampleSeries`. -/
theorem max_min_forecast_spec_witness :
    ∃ (summary : ForecastSummary) (hi lo : SeriesPoint),
      getForecastSummary (some sampleSeries) = some summary ∧
      hi ∈ (sampleSeries.dropWhile fun d => !truthy d.isForecast) ∧
      summary.max_forecast = .fin hi.yhat ∧
      (∀ p ∈ (sampleSeries.dropWhile fun d => !truthy d.isForecast), p.yhat ≤ hi.yhat) ∧
      lo ∈ (sampleSeries.dropWhile fun d => !truthy d.isForecast) ∧
      summary.min_forecast = .fin lo.yhat ∧
      (∀ p ∈ (sampleSeries.dropWhile fun d => !truthy d.isForecast), lo.yhat ≤ p.yhat) ∧
      ∀ historical : List SeriesPoint, (∀ p ∈ historical, truthy p.isForecast = false) →
        ∃ summary' : ForecastSummary,
          getForecastSummary
              (some (historical ++ sampleSeries.dropWhile fun d => !truthy d.isForecast))
            = some summary' ∧
          summary'.max_forecast = summary.max_forecast ∧
          summary'.min_forecast = summary.min_forecast :=
  max_min_forecast_spec sampleSeries
    ⟨⟨"2024-03-01", 200, some 190, some 210, none, some true⟩, by simp [sampleSeries], rfl⟩

/-- C7: `getForecastSummary` returns `null` exactly when its argument is `null`, is an
empty series or has no point flagged `isForecast`; and once `findIndex` has found a
forecast point, both reads guarded by `!forecastStart || !forecastEnd` yield a point, so
that guard never fires. -/
theorem getForecastSummary_eq_none_iff (forecastData : Option (List SeriesPoint)) :
    (getForecastSummary forecastData = none ↔
      forecastData = none ∨ forecastData = some [] ∨
        ∃ xs, forecastData = some xs ∧ ∀ p ∈ xs, truthy p.isForecast = false) ∧
    (∀ (xs : List SeriesPoint) (i : Nat), forecastData = some xs →
      findIndex (fun d => truthy d.isForecast) xs = some i →
      (xs[i]?).isSome = true ∧ (xs[xs.length - 1]?).isSome = true) := by
  constructor
  · cases forecastData with
    | none => simp [getForecastSummary]
    | some xs =>
      by_cases h : ∃ p ∈ xs, truthy p.isForecast = true
      · obtain ⟨i, first, last, hi, hget, -, hlast, -, -⟩ := exists_first_last xs h
        rw [getForecastSummary_some xs i first last hi hget hlast]
        obtain ⟨p, hp, hpf⟩ := h
        constructor
        · intro hcon; exact absurd hcon (by simp)
        · rintro (hcon | hcon | ⟨ys, hys, hall⟩)
          · exact absurd hcon (by simp)
          · simp only [Option.some.injEq] at hcon
            subst hcon
            simp at hp
          · simp only [Option.some.injEq] at hys
            subst hys
            rw [hall p hp] at hpf
            exact absurd hpf (by simp)
      · have hall : ∀ p ∈ xs, truthy p.isForecast = false := by
          intro p hp
          by_contra hcon
          exact h ⟨p, hp, by simpa using hcon⟩
        have hnone := (findIndex_eq_none_iff (fun d => truthy d.isForecast) xs).2 hall
        constructor
        · intro _; exact Or.inr (Or.inr ⟨xs, rfl, hall⟩)
        · intro _
          simp only [getForecastSummary, hnone]
          split <;> rfl
  · intro xs i _ hi
    obtain ⟨hlt, -, -⟩ := findIndex_some _ xs i hi
    constructor
    · simp [hlt]
    · have : xs.length - 1 < xs.length := by omega
      simp [this]

/-- Witness for C7 on `sampleSeries`, whose first forecast point has index 2. -/
theorem getForecastSummary_eq_none_iff_witness :
    (sampleSeries[2]?).isSome = true ∧ (sampleSeries[sampleSeries.length - 1]?).isSome = true :=
  (getForecastSummary_eq_none_iff (some sampleSeries)).2 sampleSeries 2 rfl
    (by simp [sampleSeries, findIndex, truthy])

/-- Live single mode on a response with `n >= 1` forecast tuples: the series is stored and
both period counts are `n`. -/
theorem storeSingleForecast_periods (region : String) (resp : ForecastResponse) (n : Nat)
    (hn : 1 ≤ n) (hlen : resp.forecast.length = n) :
    ∃ (d1 d2 d3 : JSDate) (summary : ForecastSummary) (stats : SingleForecastStats),
      storeSingleForecast region resp = some (.single region (combinedData resp) d1 d2 d3) ∧
      getForecastSummary (some (combinedData resp)) = some summary ∧
      summary.forecast_periods = (n : Int) ∧
      renderSingleForecast (storeSingleForecast region resp) = some stats ∧
      stats.forecastOnlyData.length = n := by
  have hF : (forecastDataTransformed resp).length = n := by
    rw [forecastDataTransformed_length]; exact hlen
  have hFpos : 0 < (forecastDataTransformed resp).length := by omega
  have hCpos : 0 < (combinedData resp).length := by
    rw [combinedData_length, hlen]; omega
  have hCne : (combinedData resp).length ≠ 0 := by omega
  obtain ⟨f0, hf0⟩ : ∃ f0, (forecastDataTransformed resp)[0]? = some f0 :=
    ⟨_, List.getElem?_eq_getElem hFpos⟩
  obtain ⟨c0, hc0⟩ : ∃ c0, (combinedData resp)[0]? = some c0 :=
    ⟨_, List.getElem?_eq_getElem hCpos⟩
  obtain ⟨cl, hcl⟩ : ∃ cl, (combinedData resp)[(combinedData resp).length - 1]? = some cl :=
    ⟨_, List.getElem?_eq_getElem (by omega)⟩
  have hstore : storeSingleForecast region resp
      = some (.single region (combinedData resp) ⟨c0.ds⟩ ⟨cl.ds⟩ ⟨f0.ds⟩) := by
    simp only [storeSingleForecast, hf0, hc0, hcl]
  have hrender : ∃ stats : SingleForecastStats,
      renderSingleForecast (storeSingleForecast region resp) = some stats ∧
      stats.forecastOnlyData = (combinedData resp).filter fun d => truthy d.isForecast := by
    rw [hstore]
    simp only [renderSingleForecast, hCne, if_false]
    exact ⟨_, rfl, rfl⟩
  obtain ⟨stats, hstats, hfo⟩ := hrender
  -- the first forecast point of the combined series
  have hfmem : f0 ∈ forecastDataTransformed resp := List.getElem?_mem hf0
  have hex : ∃ p ∈ combinedData resp, truthy p.isForecast = true :=
    ⟨_, List.mem_append_right _ hfmem, by simp [(mem_forecastDataTransformed hfmem).2, truthy]⟩
  obtain ⟨i, first, last, hi, hget, -, hlast, hdrop, hlt⟩ := exists_first_last _ hex
  have hsuffix : ((combinedData resp).dropWhile fun d => !truthy d.isForecast)
      = forecastDataTransformed resp := by
    rw [combinedData, List.dropWhile_append_of_pos
      (fun a ha => by simp [(mem_historicalData ha).2, truthy])]
    cases hcase : forecastDataTransformed resp with
    | nil => rfl
    | cons f fs =>
      have hfm : f ∈ forecastDataTransformed resp := by rw [hcase]; exact List.mem_cons_self _ _
      simp [List.dropWhile, (mem_forecastDataTransformed hfm).2, truthy]
  have hlen' : (combinedData resp).length - i = n := by
    rw [← List.length_drop, ← hdrop, hsuffix, hF]
  refine ⟨_, _, _, _, stats, hstore,
    getForecastSummary_some _ i first last hi hget hlast, ?_, hstats, ?_⟩
  · show ((combinedData resp).length : Int) - (i : Int) = (n : Int)
    omega
  · rw [hfo, filter_isForecast_combinedData, hF]

/-- C8: when the response to `POST /forecast {region, horizon}` carries `n >= 1` forecast
tuples (and any historical tuples), live single mode stores the normalised series,
`getForecastSummary` reports `forecast_periods = n` on it and the count shown by
`renderSingleForecast`, `forecastOnlyData.length`, is `n`. -/
theorem forecast_periods_eq (server : ForecastRequest → ForecastResponse) (region : String)
    (horizon : Int) (n : Nat) (hn : 1 ≤ n)
    (hlen : (server { region := region, horizon := horizon }).forecast.length = n) :
    ∃ (data : List SeriesPoint) (d1 d2 d3 : JSDate) (summary : ForecastSummary)
      (stats : SingleForecastStats),
      singleForecast server region horizon = some (.single region data d1 d2 d3) ∧
      data = combinedData (server { region := region, horizon := horizon }) ∧
      getForecastSummary (some data) = some summary ∧
      summary.forecast_periods = (n : Int) ∧
      renderSingleForecast (singleForecast server region horizon) = some stats ∧
      stats.forecastOnlyData.length = n := by
  obtain ⟨d1, d2, d3, summary, stats, h1, h2, h3, h4, h5⟩ :=
    storeSingleForecast_periods region (server { region := region, horizon := horizon }) n hn hlen
  exact ⟨_, d1, d2, d3, summary, stats, h1, rfl, h2, h3, h4, h5⟩

/-- Witness for C8: region "California", horizon 12 and a response with 12 forecast tuples
give a period count of 12. -/
theorem forecast_periods_eq_witness :
    ∃ (data : List SeriesPoint) (d1 d2 d3 : JSDate) (summary : ForecastSummary)
      (stats : SingleForecastStats),
      singleForecast (fun _ => californiaResponse) "California" 12
        = some (.single "California" data d1 d2 d3) ∧
      data = combinedData californiaResponse ∧
      getForecastSummary (some data) = some summary ∧
      summary.forecast_periods = 12 ∧
      renderSingleForecast (singleForecast (fun _ => californiaResponse) "California" 12)
        = some stats ∧
      stats.forecastOnlyData.length = 12 :=
  forecast_periods_eq (fun _ => californiaResponse) "California" 12 12 (by decide) rfl

/-! ## The merged time axis -/

theorem mem_setAdd (s : List String) (x t : String) : t ∈ setAdd s x ↔ t ∈ s ∨ t = x := by
  unfold setAdd
  split
  · constructor
    · exact Or.inl
    · rintro (h | h)
      · exact h
      · rw [h]; assumption
  · simp

theorem nodup_setAdd (s : List String) (x : String) (h : s.Nodup) : (setAdd s x).Nodup := by
  unfold setAdd
  split
  · exact h
  · rename_i hx
    exact List.nodup_append.2 ⟨h, List.nodup_singleton x, by
      intro a ha hb
      rw [List.mem_singleton] at hb
      exact hx (hb ▸ ha)⟩

theorem foldl_setAdd (pts : List SeriesPoint) (acc : List String) :
    (∀ t, t ∈ pts.foldl (fun dates item => setAdd dates item.ds) acc
      ↔ t ∈ acc ∨ ∃ p ∈ pts, p.ds = t) ∧
    (acc.Nodup → (pts.foldl (fun dates item => setAdd dates item.ds) acc).Nodup) := by
  induction pts generalizing acc with
  | nil => simp
  | cons p ps ih =>
    obtain ⟨h1, h2⟩ := ih (setAdd acc p.ds)
    constructor
    · intro t
      rw [List.foldl_cons, h1, mem_setAdd]
      constructor
      · rintro ((h | h) | ⟨q, hq, hqt⟩)
        · exact Or.inl h
        · exact Or.inr ⟨p, List.mem_cons_self _ _, h.symm⟩
        · exact Or.inr ⟨q, List.mem_cons_of_mem _ hq, hqt⟩
      · rintro (h | ⟨q, hq, hqt⟩)
        · exact Or.inl (Or.inl h)
        · rcases List.mem_cons.1 hq with h | h
          · exact Or.inl (Or.inr (by rw [← hqt, h]))
          · exact Or.inr ⟨q, h, hqt⟩
    · intro hacc
      exact h2 (nodup_setAdd acc p.ds hacc)

theorem foldl_allDates (data : List ComparisonEntry) (acc : List String) :
    (∀ t, t ∈ data.foldl
        (fun dates regionData =>
          regionData.allData.foldl (fun dates item => setAdd dates item.ds) dates) acc
      ↔ t ∈ acc ∨ ∃ e ∈ data, ∃ p ∈ e.allData, p.ds = t) ∧
    (acc.Nodup → (data.foldl
        (fun dates regionData =>
          regionData.allData.foldl (fun dates item => setAdd dates item.ds) dates) acc).Nodup) := by
  induction data generalizing acc with
  | nil => simp
  | cons e es ih =>
    obtain ⟨h1, h2⟩ := ih (e.allData.foldl (fun dates item => setAdd dates item.ds) acc)
    obtain ⟨g1, g2⟩ := foldl_setAdd e.allData acc
    constructor
    · intro t
      rw [List.foldl_cons, h1, g1]
      constructor
      · rintro ((h | h) | ⟨e', he', h⟩)
        · exact Or.inl h
        · exact Or.inr ⟨e, List.mem_cons_self _ _, h⟩
        · exact Or.inr ⟨e', List.mem_cons_of_mem _ he', h⟩
      · rintro (h | ⟨e', he', h⟩)
        · exact Or.inl (Or.inl h)
        · rcases List.mem_cons.1 he' with h' | h'
          · exact Or.inl (Or.inr (h' ▸ h))
          · exact Or.inr ⟨e', h', h⟩
    · intro hacc
      exact h2 (g2 hacc)

/-- The merged axis of any stored comparison data holds exactly the `ds` values of the
`allData` points, each once. -/
theorem sortedDates_mem_nodup (data : List ComparisonEntry) :
    (∀ t, t ∈ sortedDates data ↔ ∃ e ∈ data, ∃ p ∈ e.allData, p.ds = t) ∧
    (sortedDates data).Nodup := by
  obtain ⟨h1, h2⟩ := foldl_allDates data []
  have hperm : (sortedDates data).Perm (allDates data) := List.perm_insertionSort _ _
  constructor
  · intro t
    rw [hperm.mem_iff]
    have := h1 t
    simpa [allDates] using this
  · exact hperm.nodup_iff.2 (h2 List.nodup_nil)

/-- C9: the merged time axis `sortedDates` of a comparison result contains a timestamp
exactly when it is the `ds` of a historical or of a forecast point of some region, and
contains no timestamp twice. -/
theorem sortedDates_spec (results : List RegionResult) :
    (∀ t : String, t ∈ sortedDates (comparisonData results) ↔
      ∃ e ∈ comparisonData results,
        (∃ p ∈ e.historicalData, p.ds = t) ∨ (∃ p ∈ e.forecastData, p.ds = t)) ∧
    (sortedDates (comparisonData results)).Nodup := by
  obtain ⟨h1, h2⟩ := sortedDates_mem_nodup (comparisonData results)
  refine ⟨?_, h2⟩
  intro t
  rw [h1]
  have hall : ∀ e ∈ comparisonData results, e.allData = e.historicalData ++ e.forecastData := by
    intro e he
    simp only [comparisonData, List.mem_map] at he
    obtain ⟨r, -, rfl⟩ := he
    rfl
  constructor
  · rintro ⟨e, he, p, hp, hpt⟩
    rw [hall e he, List.mem_append] at hp
    rcases hp with hp | hp
    · exact ⟨e, he, Or.inl ⟨p, hp, hpt⟩⟩
    · exact ⟨e, he, Or.inr ⟨p, hp, hpt⟩⟩
  · rintro ⟨e, he, ⟨p, hp, hpt⟩ | ⟨p, hp, hpt⟩⟩
    · exact ⟨e, he, p, by rw [hall e he]; exact List.mem_append_left _ hp, hpt⟩
    · exact ⟨e, he, p, by rw [hall e he]; exact List.mem_append_right _ hp, hpt⟩

/-- Witness for C9: region A with January and February and region B with February and
March give the axis January, February, March, each once. -/
theorem sortedDates_spec_witness :
    sortedDates (comparisonData [regionA, regionB])
        = ["2024-01-01", "2024-02-01", "2024-03-01"] ∧
      (sortedDates (comparisonData [regionA, regionB])).Nodup :=
  ⟨by decide, (sortedDates_spec [regionA, regionB]).2⟩

/-! ## Chart rows of the comparison view -/

theorem find?_map_set (obj : JSObject) (key key' : String) (value : JSVal) :
    ((obj.map fun kv => if kv.1 == key then (key, value) else kv).find?
        fun kv => kv.1 == key').map (fun kv => kv.2)
      = if key' = key then (if obj.any (fun kv => kv.1 == key) then some value else none)
        else (obj.find? fun kv => kv.1 == key').map fun kv => kv.2 := by
  induction obj with
  | nil => simp
  | cons kv rest ih =>
    by_cases hk : kv.1 = key
    · have hb : (kv.1 == key) = true := by simp [hk]
      by_cases hk' : key' = key
      · subst hk'
        simp only [List.map_cons, List.find?_cons, List.any_cons, hb, if_true,
          Bool.true_or, Option.map_some', beq_self_eq_true]
      · have hb' : (key == key') = false := by simpa using fun h : key = key' => hk' h.symm
        have hb'' : (kv.1 == key') = false := by rw [hk]; exact hb'
        simp only [List.map_cons, List.find?_cons, hb, hb', hb'', if_true, if_neg hk']
        rw [ih, if_neg hk']
    · have hb : (kv.1 == key) = false := by simpa using hk
      by_cases hkv : kv.1 = key'
      · have hb' : (kv.1 == key') = true := by simp [hkv]
        have hne : ¬ key' = key := fun h => hk (hkv.trans h)
        simp only [List.map_cons, List.find?_cons, hb, hb', if_neg hne, Bool.false_eq_true,
          if_false]
      · have hb' : (kv.1 == key') = false := by simpa using hkv
        simp only [List.map_cons, List.find?_cons, List.any_cons, hb, hb', Bool.false_or,
          Bool.false_eq_true, if_false]
        exact ih

theorem JSObject.get_set (obj : JSObject) (key key' : String) (value : JSVal) :
    (obj.set key value).get key' = if key' = key then some value else obj.get key' := by
  unfold JSObject.set JSObject.get
  by_cases hany : obj.any (fun kv => kv.1 == key) = true
  · rw [if_pos hany, find?_map_set, hany]
    simp
  · rw [if_neg hany]
    have hnone : obj.find? (fun kv => kv.1 == key) = none := by
      rw [List.find?_eq_none]
      intro kv hkv hcon
      exact hany (List.any_eq_true.2 ⟨kv, hkv, hcon⟩)
    by_cases hk' : key' = key
    · subst hk'
      have hb : (key' == key') = true := by simp
      simp only [List.find?_append, hnone, List.find?_cons, hb, if_true, Option.none_or,
        Option.map_some']
    · have hb : (key == key') = false := by simpa using fun h : key = key' => hk' h.symm
      simp only [List.find?_append, List.find?_cons, hb, List.find?_nil, Option.or_none,
        if_neg hk']


theorem historical_key_inj (r r' : String) (h : r ++ "_historical" = r' ++ "_historical") :
    r = r' := by
  have h' := congrArg String.data h
  rw [String.data_append, String.data_append] at h'
  exact String.ext (List.append_cancel_right h')

theorem forecast_key_inj (r r' : String) (h : r ++ "_forecast" = r' ++ "_forecast") :
    r = r' := by
  have h' := congrArg String.data h
  rw [String.data_append, String.data_append] at h'
  exact String.ext (List.append_cancel_right h')

theorem historical_key_ne_forecast_key (r r' : String) :
    r ++ "_historical" ≠ r' ++ "_forecast" := by
  intro h
  have h' := congrArg (fun s => s.data.getLast?) h
  simp only [String.data_append] at h'
  have e1 : (r.data ++ "_historical".data).getLast? = some 'l' := by
    rw [List.getLast?_append]; rfl
  have e2 : (r'.data ++ "_forecast".data).getLast? = some 't' := by
    rw [List.getLast?_append]; rfl
  rw [e1, e2] at h'
  exact absurd h' (by decide)

theorem ds_ne_historical_key (r : String) : r ++ "_historical" ≠ "ds" := by
  intro h
  have h' := congrArg String.length h
  rw [String.length_append] at h'
  have e1 : "_historical".length = 11 := by decide
  have e2 : "ds".length = 2 := by decide
  omega

theorem ds_ne_forecast_key (r : String) : r ++ "_forecast" ≠ "ds" := by
  intro h
  have h' := congrArg String.length h
  rw [String.length_append] at h'
  have e1 : "_forecast".length = 9 := by decide
  have e2 : "ds".length = 2 := by decide
  omega


theorem chartRowStep_get_ds (t : String) (dp : JSObject) (e : ComparisonEntry) :
    (chartRowStep t dp e).get "ds" = dp.get "ds" := by
  unfold chartRowStep
  have h1 : ¬ "ds" = e.region ++ "_historical" := fun h => ds_ne_historical_key _ h.symm
  have h2 : ¬ "ds" = e.region ++ "_forecast" := fun h => ds_ne_forecast_key _ h.symm
  cases e.historicalData.find? (fun d => d.ds == t) <;>
    cases e.forecastData.find? (fun d => d.ds == t) <;>
    simp [JSObject.get_set, h1, h2]

theorem chartRowStep_get_historical (t r : String) (dp : JSObject) (e : ComparisonEntry) :
    (chartRowStep t dp e).get (r ++ "_historical")
      = if r = e.region then
          ((e.historicalData.find? fun d => d.ds == t).map fun p => JSVal.num p.yhat).or
            (dp.get (r ++ "_historical"))
        else dp.get (r ++ "_historical") := by
  unfold chartRowStep
  have h2 : ¬ r ++ "_historical" = e.region ++ "_forecast" :=
    historical_key_ne_forecast_key r e.region
  by_cases hr : r = e.region
  · subst hr
    cases e.historicalData.find? (fun d => d.ds == t) <;>
      cases e.forecastData.find? (fun d => d.ds == t) <;>
      simp [JSObject.get_set, h2]
  · have h1 : ¬ r ++ "_historical" = e.region ++ "_historical" :=
      fun h => hr (historical_key_inj _ _ h)
    cases e.historicalData.find? (fun d => d.ds == t) <;>
      cases e.forecastData.find? (fun d => d.ds == t) <;>
      simp [JSObject.get_set, h1, h2, hr]

theorem chartRowStep_get_forecast (t r : String) (dp : JSObject) (e : ComparisonEntry) :
    (chartRowStep t dp e).get (r ++ "_forecast")
      = if r = e.region then
          ((e.forecastData.find? fun d => d.ds == t).map fun p => JSVal.num p.yhat).or
            (dp.get (r ++ "_forecast"))
        else dp.get (r ++ "_forecast") := by
  unfold chartRowStep
  have h2 : ¬ r ++ "_forecast" = e.region ++ "_historical" :=
    fun h => historical_key_ne_forecast_key e.region r h.symm
  by_cases hr : r = e.region
  · subst hr
    cases e.historicalData.find? (fun d => d.ds == t) <;>
      cases e.forecastData.find? (fun d => d.ds == t) <;>
      simp [JSObject.get_set, h2]
  · have h1 : ¬ r ++ "_forecast" = e.region ++ "_forecast" :=
      fun h => hr (forecast_key_inj _ _ h)
    cases e.historicalData.find? (fun d => d.ds == t) <;>
      cases e.forecastData.find? (fun d => d.ds == t) <;>
      simp [JSObject.get_set, h1, h2, hr]

theorem foldl_chartRowStep_get_ds (t : String) (data : List ComparisonEntry) (dp : JSObject) :
    (data.foldl (chartRowStep t) dp).get "ds" = dp.get "ds" := by
  induction data generalizing dp with
  | nil => rfl
  | cons d ds ih => rw [List.foldl_cons, ih, chartRowStep_get_ds]

/-- A column that only the callback of its own region writes keeps its value through the
regions that come after. -/
theorem foldl_chartRowStep_get_other (t : String) (k : String → String)
    (col : ComparisonEntry → Option JSVal)
    (hstep : ∀ (r : String) (dp : JSObject) (e : ComparisonEntry),
      (chartRowStep t dp e).get (k r)
        = if r = e.region then (col e).or (dp.get (k r)) else dp.get (k r))
    (r : String) (data : List ComparisonEntry) (dp : JSObject)
    (hr : ∀ e ∈ data, r ≠ e.region) :
    (data.foldl (chartRowStep t) dp).get (k r) = dp.get (k r) := by
  induction data generalizing dp with
  | nil => rfl
  | cons d ds ih =>
    rw [List.foldl_cons, ih _ (fun e he => hr e (List.mem_cons_of_mem _ he)), hstep,
      if_neg (hr d (List.mem_cons_self _ _))]

/-- With pairwise distinct region names, the column of a region holds after the whole
`forEach` what the callback of that region wrote. -/
theorem foldl_chartRowStep_get (t : String) (k : String → String)
    (col : ComparisonEntry → Option JSVal)
    (hstep : ∀ (r : String) (dp : JSObject) (e : ComparisonEntry),
      (chartRowStep t dp e).get (k r)
        = if r = e.region then (col e).or (dp.get (k r)) else dp.get (k r))
    (data : List ComparisonEntry) (dp : JSObject) (e : ComparisonEntry) (he : e ∈ data)
    (hnd : (data.map fun x => x.region).Nodup) :
    (data.foldl (chartRowStep t) dp).get (k e.region) = (col e).or (dp.get (k e.region)) := by
  induction data generalizing dp with
  | nil => simp at he
  | cons d ds ih =>
    rw [List.map_cons, List.nodup_cons] at hnd
    obtain ⟨hnot, hnd'⟩ := hnd
    rw [List.foldl_cons]
    rcases List.mem_cons.1 he with h | h
    · subst h
      have hothers : ∀ x ∈ ds, e.region ≠ x.region := by
        intro x hx hcon
        exact hnot (List.mem_map.2 ⟨x, hx, hcon.symm⟩)
      rw [foldl_chartRowStep_get_other t k col hstep e.region ds _ hothers, hstep, if_pos rfl]
    · have hne : e.region ≠ d.region := by
        intro hcon
        exact hnot (List.mem_map.2 ⟨e, h, hcon⟩)
      rw [ih _ h hnd', hstep, if_neg hne]

theorem comparisonData_regions (results : List RegionResult) :
    (comparisonData results).map (fun e => e.region) = results.map (fun r => r.region) := by
  simp [comparisonData, Function.comp_def]

/-- The columns of the chart row of `t`, for stored comparison data with pairwise distinct
region names. -/
theorem chartRow_columns (data : List ComparisonEntry) (t : String)
    (hnd : (data.map fun x => x.region).Nodup) (e : ComparisonEntry) (he : e ∈ data) :
    (chartRow data t).get "ds" = some (.str t) ∧
    (chartRow data t).get (e.region ++ "_historical")
      = ((e.historicalData.find? fun d => d.ds == t).map fun p => JSVal.num p.yhat) ∧
    (chartRow data t).get (e.region ++ "_forecast")
      = ((e.forecastData.find? fun d => d.ds == t).map fun p => JSVal.num p.yhat) := by
  have hds : JSObject.get [("ds", JSVal.str t)] "ds" = some (.str t) := by
    simp [JSObject.get]
  have hh : JSObject.get [("ds", JSVal.str t)] (e.region ++ "_historical") = none := by
    have : ¬ "ds" = e.region ++ "_historical" := fun h => ds_ne_historical_key _ h.symm
    simp [JSObject.get, this]
  have hf : JSObject.get [("ds", JSVal.str t)] (e.region ++ "_forecast") = none := by
    have : ¬ "ds" = e.region ++ "_forecast" := fun h => ds_ne_forecast_key _ h.symm
    simp [JSObject.get, this]
  refine ⟨?_, ?_, ?_⟩
  · rw [chartRow, foldl_chartRowStep_get_ds, hds]
  · rw [chartRow, foldl_chartRowStep_get t (fun r => r ++ "_historical")
      (fun e => (e.historicalData.find? fun d => d.ds == t).map fun p => JSVal.num p.yhat)
      (fun r dp e => chartRowStep_get_historical t r dp e) data _ e he hnd, hh, Option.or_none]
  · rw [chartRow, foldl_chartRowStep_get t (fun r => r ++ "_forecast")
      (fun e => (e.forecastData.find? fun d => d.ds == t).map fun p => JSVal.num p.yhat)
      (fun r dp e => chartRowStep_get_forecast t r dp e) data _ e he hnd, hf, Option.or_none]

theorem find?_ds_isSome (pts : List SeriesPoint) (t : String) :
    (((pts.find? fun d => d.ds == t).map fun p => JSVal.num p.yhat).isSome = true)
      ↔ ∃ p ∈ pts, p.ds = t := by
  rw [Option.isSome_map', List.find?_isSome]
  simp

/-- C10: for a comparison result over pairwise distinct region names, the chart row at
position `i` is the row of the `i`-th timestamp `t` of the merged axis; for every region
its column `<R>_historical` holds the `yhat` of the (first) historical point of `R` with
`ds = t` and is present exactly when such a point exists, its column `<R>_forecast` holds
the `yhat` of the (first) forecast point of `R` with `ds = t` and is present exactly when
such a point exists; a column without a point is absent, not 0 and not a value of another
region. -/
theorem chartData_columns (results : List RegionResult)
    (hnd : (results.map fun r => r.region).Nodup) (i : Nat) (t : String)
    (ht : (sortedDates (comparisonData results))[i]? = some t) :
    ∃ row : JSObject,
      (renderComparisonForecast (some (.comparison (comparisonData results)))).map
          (fun rows => rows[i]?) = some (some row) ∧
      row.get "ds" = some (.str t) ∧
      ∀ e ∈ comparisonData results,
        row.get (e.region ++ "_historical")
          = ((e.historicalData.find? fun d => d.ds == t).map fun p => JSVal.num p.yhat) ∧
        ((row.get (e.region ++ "_historical")).isSome = true
          ↔ ∃ p ∈ e.historicalData, p.ds = t) ∧
        row.get (e.region ++ "_forecast")
          = ((e.forecastData.find? fun d => d.ds == t).map fun p => JSVal.num p.yhat) ∧
        ((row.get (e.region ++ "_forecast")).isSome = true
          ↔ ∃ p ∈ e.forecastData, p.ds = t) := by
  have hnd' : ((comparisonData results).map fun x => x.region).Nodup := by
    rw [comparisonData_regions]; exact hnd
  refine ⟨chartRow (comparisonData results) t, ?_, ?_, ?_⟩
  · simp only [renderComparisonForecast, chartData, Option.map_some', List.getElem?_map, ht]
  · rw [chartRow, foldl_chartRowStep_get_ds]
    simp [JSObject.get]
  · intro e he
    obtain ⟨-, h1, h2⟩ := chartRow_columns (comparisonData results) t hnd' e he
    refine ⟨h1, ?_, h2, ?_⟩
    · rw [h1]; exact find?_ds_isSome _ _
    · rw [h2]; exact find?_ds_isSome _ _

/-- Witness for C10: with A on January and February and B on February and March, the row
of March has no column of A and the row of January has no column of B, while the row of
February holds A's forecast and B's historical value. -/
theorem chartData_columns_witness :
    ∃ rowJan rowFeb rowMar : JSObject,
      chartData (comparisonData [regionA, regionB]) = [rowJan, rowFeb, rowMar] ∧
      rowMar.get "A_historical" = none ∧ rowMar.get "A_forecast" = none ∧
      rowJan.get "B_historical" = none ∧ rowJan.get "B_forecast" = none ∧
      rowFeb.get "A_forecast" = some (.num 110) ∧
      rowFeb.get "B_historical" = some (.num 200) := by
  have hnd : ([regionA, regionB].map fun r => r.region).Nodup := by decide
  have hA : (comparisonData [regionA]).head (by simp [comparisonData])
      ∈ comparisonData [regionA, regionB] := by simp [comparisonData]
  have hB : (comparisonData [regionB]).head (by simp [comparisonData])
      ∈ comparisonData [regionA, regionB] := by simp [comparisonData]
  obtain ⟨rowJan, hJ, -, hJan⟩ :=
    chartData_columns [regionA, regionB] hnd 0 "2024-01-01" (by decide)
  obtain ⟨rowFeb, hF, -, hFeb⟩ :=
    chartData_columns [regionA, regionB] hnd 1 "2024-02-01" (by decide)
  obtain ⟨rowMar, hM, -, hMar⟩ :=
    chartData_columns [regionA, regionB] hnd 2 "2024-03-01" (by decide)
  refine ⟨rowJan, rowFeb, rowMar, ?_, (hMar _ hA).1, (hMar _ hA).2.2.1, (hJan _ hB).1,
    (hJan _ hB).2.2.1, (hFeb _ hA).2.2.1, (hFeb _ hB).1⟩
  have hs : sortedDates (comparisonData [regionA, regionB])
      = ["2024-01-01", "2024-02-01", "2024-03-01"] := by decide
  simp only [renderComparisonForecast, chartData, hs, Option.map_some', List.map_cons,
    List.map_nil, Option.some.injEq] at hJ hF hM
  simp only [List.getElem?_cons_zero, List.getElem?_cons_succ, Option.some.injEq] at hJ hF hM
  rw [chartData, hs, ← hJ, ← hF, ← hM]
  rfl

/-! ## Validation of the selection -/

/-- C12: with an empty selection, in every analysis mode, live `handleForecast` sets the
error to 'Please select at least one region', sends no request and leaves `forecastData`,
`isLoading` and every other field as they were; the mock `handleForecast` does the same
and calls no generator. -/
theorem handleForecast_empty_selection :
    (∀ (env : Environment) (s : ViewState), s.selectedRegions = [] →
      (handleForecast env s).requests = [] ∧
      (handleForecast env s).state = { s with error := "Please select at least one region" } ∧
      (handleForecast env s).state.forecastData = s.forecastData ∧
      (handleForecast env s).state.isLoading = s.isLoading) ∧
    (∀ (gen : MockGenerators) (s : MockViewState), s.selectedRegions = [] →
      (mockHandleForecast gen s).calls = [] ∧
      (mockHandleForecast gen s).state
        = { s with error := "Please select at least one region" } ∧
      (mockHandleForecast gen s).state.forecastData = s.forecastData ∧
      (mockHandleForecast gen s).state.isLoading = s.isLoading) := by
  constructor
  · intro env s hs
    simp [handleForecast, hs]
  · intro gen s hs
    simp [mockHandleForecast, hs]

/-- Witness for C12 on `emptySelectionState` and `mockEmptySelectionState`: no request, no
generator call, and the earlier result stays on show. -/
theorem handleForecast_empty_selection_witness :
    ((handleForecast sampleEnvironment emptySelectionState).requests = [] ∧
      (handleForecast sampleEnvironment emptySelectionState).state
        = { emptySelectionState with error := "Please select at least one region" } ∧
      (handleForecast sampleEnvironment emptySelectionState).state.forecastData
        = emptySelectionState.forecastData ∧
      (handleForecast sampleEnvironment emptySelectionState).state.isLoading
        = emptySelectionState.isLoading) ∧
    ((mockHandleForecast sampleGenerators mockEmptySelectionState).calls = [] ∧
      (mockHandleForecast sampleGenerators mockEmptySelectionState).state
        = { mockEmptySelectionState with error := "Please select at least one region" } ∧
      (mockHandleForecast sampleGenerators mockEmptySelectionState).state.forecastData
        = mockEmptySelectionState.forecastData ∧
      (mockHandleForecast sampleGenerators mockEmptySelectionState).state.isLoading
        = mockEmptySelectionState.isLoading) :=
  ⟨handleForecast_empty_selection.1 sampleEnvironment emptySelectionState rfl,
    handleForecast_empty_selection.2 sampleGenerators mockEmptySelectionState rfl⟩

/-! ## Editing the selection -/

/-- C17: `removeRegion(r)` deletes `r` and nothing else, in both variants: the new
selection is a sublist of the old one (relative order kept), holds every other region as
often as before, no longer holds `r`, and is the old selection when `r` was not in it. -/
theorem removeRegion_spec (regionToRemove : String) :
    (∀ s : ViewState,
      (removeRegion s regionToRemove).selectedRegions.Sublist s.selectedRegions ∧
      (∀ region : String, region ≠ regionToRemove →
        (removeRegion s regionToRemove).selectedRegions.count region
          = s.selectedRegions.count region) ∧
      (∀ region : String, region ∈ (removeRegion s regionToRemove).selectedRegions
        ↔ region ∈ s.selectedRegions ∧ region ≠ regionToRemove) ∧
      regionToRemove ∉ (removeRegion s regionToRemove).selectedRegions ∧
      (regionToRemove ∉ s.selectedRegions →
        (removeRegion s regionToRemove).selectedRegions = s.selectedRegions)) ∧
    (∀ s : MockViewState,
      (mockRemoveRegion s regionToRemove).selectedRegions.Sublist s.selectedRegions ∧
      (∀ region : String, region ≠ regionToRemove →
        (mockRemoveRegion s regionToRemove).selectedRegions.count region
          = s.selectedRegions.count region) ∧
      (∀ region : String, region ∈ (mockRemoveRegion s regionToRemove).selectedRegions
        ↔ region ∈ s.selectedRegions ∧ region ≠ regionToRemove) ∧
      regionToRemove ∉ (mockRemoveRegion s regionToRemove).selectedRegions ∧
      (regionToRemove ∉ s.selectedRegions →
        (mockRemoveRegion s regionToRemove).selectedRegions = s.selectedRegions)) := by
  have key : ∀ l : List String,
      (l.filter fun region => region != regionToRemove).Sublist l ∧
      (∀ region : String, region ≠ regionToRemove →
        (l.filter fun region => region != regionToRemove).count region = l.count region) ∧
      (∀ region : String, region ∈ (l.filter fun region => region != regionToRemove)
        ↔ region ∈ l ∧ region ≠ regionToRemove) ∧
      regionToRemove ∉ (l.filter fun region => region != regionToRemove) ∧
      (regionToRemove ∉ l → (l.filter fun region => region != regionToRemove) = l) := by
    intro l
    refine ⟨List.filter_sublist l, ?_, ?_, ?_, ?_⟩
    · intro region hne
      rw [List.count_filter]
      simpa using hne
    · intro region
      simp [List.mem_filter]
    · simp [List.mem_filter]
    · intro hnot
      rw [List.filter_eq_self]
      intro a ha
      have : a ≠ regionToRemove := fun h => hnot (h ▸ ha)
      simpa using this
  exact ⟨fun s => key s.selectedRegions, fun s => key s.selectedRegions⟩

/-- Witness for C17: removing "Ohio" from Texas, Ohio, Utah leaves Texas, Utah. -/
theorem removeRegion_spec_witness :
    (removeRegion threeRegionState "Ohio").selectedRegions = ["Texas", "Utah"] ∧
      (removeRegion threeRegionState "Iowa").selectedRegions = ["Texas", "Ohio", "Utah"] :=
  ⟨by decide,
    ((removeRegion_spec "Iowa").1 threeRegionState).2.2.2.2 (by decide)⟩

/-! ## Trend classification -/

/-- C18: the insight class is a total three-way function of the percent change, under
JavaScript's comparisons: 'positive' exactly when `percentChange > 5`, 'negative' exactly
when `percentChange < -5`, 'neutral' otherwise; on a finite value `q` these are `5 < q`,
`q < -5` and `-5 <= q <= 5`, and the boundary values 5 and -5 are both 'neutral'. -/
theorem insightClass_spec (percentChange : JSNum) (q : ℚ) :
    (insightClass percentChange = "positive" ↔ (JSNum.fin 5).lt percentChange = true) ∧
    (insightClass percentChange = "negative" ↔ percentChange.lt (JSNum.fin (-5)) = true) ∧
    (insightClass percentChange = "neutral" ↔
      (JSNum.fin 5).lt percentChange = false ∧ percentChange.lt (JSNum.fin (-5)) = false) ∧
    (insightClass percentChange = "positive" ∨ insightClass percentChange = "negative" ∨
      insightClass percentChange = "neutral") ∧
    (insightClass (.fin q) = "positive" ↔ 5 < q) ∧
    (insightClass (.fin q) = "negative" ↔ q < -5) ∧
    (insightClass (.fin q) = "neutral" ↔ -5 ≤ q ∧ q ≤ 5) ∧
    insightClass (.fin 5) = "neutral" ∧ insightClass (.fin (-5)) = "neutral" ∧
    insightClass .nan = "neutral" := by
  have hpn : ("positive" : String) ≠ "negative" := by decide
  have hpu : ("positive" : String) ≠ "neutral" := by decide
  have hnu : ("negative" : String) ≠ "neutral" := by decide
  have hfin : ∀ x : ℚ,
      (insightClass (.fin x) = "positive" ↔ 5 < x) ∧
      (insightClass (.fin x) = "negative" ↔ x < -5) ∧
      (insightClass (.fin x) = "neutral" ↔ -5 ≤ x ∧ x ≤ 5) := by
    intro x
    by_cases h5 : 5 < x
    · have h1 : ¬ x < -5 := by linarith
      have h2 : ¬ x ≤ 5 := by linarith
      simp [insightClass, JSNum.lt, h5, h1, h2, hpn, hpu]
    · by_cases hm : x < -5
      · have h2 : ¬ -5 ≤ x := by linarith
        simp [insightClass, JSNum.lt, h5, hm, h2, hpn.symm, hnu]
      · have h1 : -5 ≤ x := by linarith
        have h2 : x ≤ 5 := by linarith
        simp [insightClass, JSNum.lt, h5, hm, h1, h2, hpu.symm, hnu.symm]
  have h5 : insightClass (.fin 5) = "neutral" := ((hfin 5).2.2).2 ⟨by norm_num, le_refl _⟩
  have hm5 : insightClass (.fin (-5)) = "neutral" := ((hfin (-5)).2.2).2 ⟨le_refl _, by norm_num⟩
  refine ⟨?_, ?_, ?_, ?_, (hfin q).1, (hfin q).2.1, (hfin q).2.2, h5, hm5, ?_⟩
  · cases percentChange with
    | fin x =>
      by_cases h : 5 < x
      · simp [insightClass, JSNum.lt, h]
      · by_cases hm : x < -5 <;> simp [insightClass, JSNum.lt, h, hm, hpn.symm, hpu.symm]
    | posInf => simp [insightClass, JSNum.lt]
    | negInf => simp [insightClass, JSNum.lt, hpn.symm]
    | nan => simp [insightClass, JSNum.lt, hpu.symm]
  · cases percentChange with
    | fin x =>
      by_cases h : 5 < x
      · have h1 : ¬ x < -5 := by linarith
        simp [insightClass, JSNum.lt, h, h1, hpn]
      · by_cases hm : x < -5 <;> simp [insightClass, JSNum.lt, h, hm, hnu.symm]
    | posInf => simp [insightClass, JSNum.lt, hpn]
    | negInf => simp [insightClass, JSNum.lt]
    | nan => simp [insightClass, JSNum.lt, hnu.symm]
  · cases percentChange with
    | fin x =>
      by_cases h : 5 < x
      · simp [insightClass, JSNum.lt, h, hpu]
      · by_cases hm : x < -5 <;> simp [insightClass, JSNum.lt, h, hm, hnu]
    | posInf => simp [insightClass, JSNum.lt, hpu]
    | negInf => simp [insightClass, JSNum.lt, hnu]
    | nan => simp [insightClass, JSNum.lt]
  · unfold insightClass
    split
    · exact Or.inl rfl
    · split
      · exact Or.inr (Or.inl rfl)
      · exact Or.inr (Or.inr rfl)
  · simp [insightClass, JSNum.lt]

/-! ## Bounds in comparison mode -/

/-- C20, as the code has it: in live comparison mode the forecast points of a region are
built from `Month` and `Forecasted Price` only; they are flagged `isForecast` and carry
neither the lower nor the upper bound of their source tuple, unlike in single mode. -/
theorem comparisonData_forecast_bounds (results : List RegionResult) :
    (comparisonData results).map (fun e => e.forecastData)
      = results.map (fun r => r.data.forecast.map fun item =>
          ({ ds := item.Month
             yhat := item.Forecasted_Price
             yhat_lower := none
             yhat_upper := none
             isHistorical := none
             isForecast := some true } : SeriesPoint)) ∧
    ∀ e ∈ comparisonData results, ∀ p ∈ e.forecastData,
      p.yhat_lower = none ∧ p.yhat_upper = none ∧ p.isForecast = some true := by
  constructor
  · simp [comparisonData, Function.comp_def]
  · intro e he p hp
    simp only [comparisonData, List.mem_map] at he
    obtain ⟨r, -, rfl⟩ := he
    simp only [List.mem_map] at hp
    obtain ⟨item, -, rfl⟩ := hp
    exact ⟨rfl, rfl, rfl⟩

/-- Witness for the amended C20 on region A, whose forecast tuple supplies both bounds. -/
theorem comparisonData_forecast_bounds_witness :
    SeriesPoint.yhat_lower ⟨"2024-02-01", 110, none, none, none, some true⟩ = none ∧
      SeriesPoint.yhat_upper ⟨"2024-02-01", 110, none, none, none, some true⟩ = none ∧
      SeriesPoint.isForecast ⟨"2024-02-01", 110, none, none, none, some true⟩ = some true :=
  (comparisonData_forecast_bounds [regionA]).2
    { region := "A"
      historicalData := [⟨"2024-01-01", 100, none, none, some true, none⟩]
      forecastData := [⟨"2024-02-01", 110, none, none, none, some true⟩]
      allData :=
        [⟨"2024-01-01", 100, none, none, some true, none⟩,
          ⟨"2024-02-01", 110, none, none, none, some true⟩] }
    (by simp [comparisonData, regionA])
    ⟨"2024-02-01", 110, none, none, none, some true⟩ (by simp)

/-- C20 as stated fails: the forecast tuple of region A supplies the bounds 105 and 115;
single mode keeps them, comparison mode yields a point without bounds. -/
theorem comparison_bounds_counterexample :
    (comparisonData [regionA]).map
        (fun e => e.forecastData.map fun p => (p.yhat_lower, p.yhat_upper))
      = [[(none, none)]] ∧
    (forecastDataTransformed regionA.data).map (fun p => (p.yhat_lower, p.yhat_upper))
      = [(some 105, some 115)] := by
  constructor
  · simp [comparisonData, regionA]
  · simp [forecastDataTransformed, regionA]

/-! ## Error messages -/

theorem orDefault_some_of_ne (text fallback : String) (h : text ≠ "") :
    orDefault (some text) fallback = text := by
  simp [orDefault, h]

theorem append_ne_empty (pre rest : String) (h : pre ≠ "") : pre ++ rest ≠ "" := by
  intro hcon
  have hl := congrArg String.length hcon
  rw [String.length_append] at hl
  have h0 : "".length = 0 := rfl
  have hp : pre.length ≠ 0 := by
    intro hz
    apply h
    apply String.ext
    have : pre.data.length = 0 := hz
    rw [List.length_eq_zero.1 this]
  omega

theorem statusMessage_ne_empty (status : Nat) : "Error: " ++ toString status ≠ "" :=
  append_ne_empty _ _ (by decide)

theorem failedToFetch_ne_empty (region : String) : "Failed to fetch " ++ region ≠ "" :=
  append_ne_empty _ _ (by decide)

/-- The error shown for a non-2xx response whose body is an error body: the thrown message,
or `fallback` when that message is empty. -/
theorem detailMessage_shown (detail : Option Detail) (status : Nat) (fallback : String) :
    (∀ text : String, detail = some (.text text) → text ≠ "" →
      orDefault (some (detailMessage detail ("Error: " ++ toString status))) fallback
        = text) ∧
    ((detail = none ∨ detail = some (.text "") ∨
        ∃ shown, detail = some (.other false shown)) →
      orDefault (some (detailMessage detail ("Error: " ++ toString status))) fallback
        = "Error: " ++ toString status) ∧
    (∀ shown : String, detail = some (.other true shown) → shown ≠ "" →
      orDefault (some (detailMessage detail ("Error: " ++ toString status))) fallback
        = shown) ∧
    (detail = some (.other true "") →
      orDefault (some (detailMessage detail ("Error: " ++ toString status))) fallback
        = fallback) := by
  refine ⟨?_, ?_, ?_, ?_⟩
  · intro text hd ht
    rw [hd]
    simp only [detailMessage, if_neg ht]
    exact orDefault_some_of_ne _ _ ht
  · intro hd
    have hmsg : detailMessage detail ("Error: " ++ toString status)
        = "Error: " ++ toString status := by
      rcases hd with hd | hd | ⟨shown, hd⟩ <;> rw [hd] <;> simp [detailMessage]
    rw [hmsg]
    exact orDefault_some_of_ne _ _ (statusMessage_ne_empty status)
  · intro shown hd hs
    rw [hd]
    simp only [detailMessage]
    exact orDefault_some_of_ne _ _ hs
  · intro hd
    rw [hd]
    simp [detailMessage, orDefault]

/-- C16, against the claim as written: a body that carries a `detail` which is the empty
string is answered with 'Error: 500', and one whose `detail` is a list of one object (the
validation errors of a 422 answer) with '[object Object]'; neither is the detail
verbatim.  Both handlers agree. -/
theorem non2xx_error_counterexample :
    (handleSubmit (.resolved ⟨500, .error (some (.text ""))⟩) sampleForm).error
      = "Error: 500" ∧
    (handleSubmit (.resolved ⟨422, .error (some (.other true "[object Object]"))⟩)
      sampleForm).error = "[object Object]" ∧
    (handleForecast malformedDetailEnvironment ohioState).state.error = "Error: 500" ∧
    (handleForecast malformedDetailEnvironment texasState).state.error
      = "[object Object]" := by
  decide

/-- C16, amended: for a non-2xx response whose body is an error body, the live single-mode
`handleForecast` and the live `handleSubmit` show `detail` verbatim when it is a non-empty
string; 'Error: ' followed by the status code when `detail` is absent, the empty string or
a falsy value of another type; the string a truthy value of another type converts to, and
the generic message of the handler when that string is empty.  No result is stored and
`isLoading` is false afterwards. -/
theorem non2xx_error (status : Nat) (detail : Option Detail)
    (hstatus : ¬ (200 ≤ status ∧ status ≤ 299)) :
    (∀ (env : Environment) (s : ViewState) (region : String) (others : List String),
      s.selectedRegions = region :: others → s.analysisType = .single →
      env.fetch { region := region, horizon := s.forecastMonths }
        = .resolved ⟨status, .error detail⟩ →
      (∀ text : String, detail = some (.text text) → text ≠ "" →
        (handleForecast env s).state.error = text) ∧
      ((detail = none ∨ detail = some (.text "") ∨
          ∃ shown, detail = some (.other false shown)) →
        (handleForecast env s).state.error = "Error: " ++ toString status) ∧
      (∀ shown : String, detail = some (.other true shown) → shown ≠ "" →
        (handleForecast env s).state.error = shown) ∧
      (detail = some (.other true "") →
        (handleForecast env s).state.error = "Failed to get forecast") ∧
      (handleForecast env s).state.forecastData = none ∧
      (handleForecast env s).state.isLoading = false) ∧
    (∀ s : PredictionState,
      (∀ text : String, detail = some (.text text) → text ≠ "" →
        (handleSubmit (.resolved ⟨status, .error detail⟩) s).error = text) ∧
      ((detail = none ∨ detail = some (.text "") ∨
          ∃ shown, detail = some (.other false shown)) →
        (handleSubmit (.resolved ⟨status, .error detail⟩) s).error
          = "Error: " ++ toString status) ∧
      (∀ shown : String, detail = some (.other true shown) → shown ≠ "" →
        (handleSubmit (.resolved ⟨status, .error detail⟩) s).error = shown) ∧
      (detail = some (.other true "") →
        (handleSubmit (.resolved ⟨status, .error detail⟩) s).error
          = "Failed to get prediction") ∧
      (handleSubmit (.resolved ⟨status, .error detail⟩) s).predictionResult = none ∧
      (handleSubmit (.resolved ⟨status, .error detail⟩) s).isLoading = false) := by
  have hok : ∀ α : Type, ∀ body : JsonBody α,
      HttpResponse.ok (⟨status, body⟩ : HttpResponse α) = false := by
    intro α body
    simp only [HttpResponse.ok, decide_eq_false_iff_not]
    exact hstatus
  constructor
  · intro env s region others hsel hmode hfetch
    have herr : (handleForecast env s).state.error
        = orDefault (some (detailMessage detail ("Error: " ++ toString status)))
            "Failed to get forecast" := by
      simp only [handleForecast, hsel, hmode, forecastSingle, hfetch, hok, Bool.not_false,
        if_true, Except.map, settleForecast]
    have h := detailMessage_shown detail status "Failed to get forecast"
    refine ⟨?_, ?_, ?_, ?_, ?_, ?_⟩
    · intro text hd ht
      rw [herr]; exact h.1 text hd ht
    · intro hd
      rw [herr]; exact h.2.1 hd
    · intro shown hd hs
      rw [herr]; exact h.2.2.1 shown hd hs
    · intro hd
      rw [herr]; exact h.2.2.2 hd
    · simp only [handleForecast, hsel, hmode, forecastSingle, hfetch, hok, Bool.not_false,
        if_true, Except.map, settleForecast]
    · simp only [handleForecast, hsel, hmode, forecastSingle, hfetch, hok, Bool.not_false,
        if_true, Except.map, settleForecast]
  · intro s
    have herr : (handleSubmit (.resolved ⟨status, .error detail⟩) s).error
        = orDefault (some (detailMessage detail ("Error: " ++ toString status)))
            "Failed to get prediction" := by
      simp only [handleSubmit, hok, Bool.not_false, if_true]
    have h := detailMessage_shown detail status "Failed to get prediction"
    refine ⟨?_, ?_, ?_, ?_, ?_, ?_⟩
    · intro text hd ht
      rw [herr]; exact h.1 text hd ht
    · intro hd
      rw [herr]; exact h.2.1 hd
    · intro shown hd hs
      rw [herr]; exact h.2.2.1 shown hd hs
    · intro hd
      rw [herr]; exact h.2.2.2 hd
    · simp only [handleSubmit, hok, Bool.not_false, if_true]
    · simp only [handleSubmit, hok, Bool.not_false, if_true]

/-- Witness for C16: the 500 answer for Ohio shows its detail, in `handleForecast` and in
`handleSubmit`. -/
theorem non2xx_error_witness :
    (handleForecast sampleEnvironment ohioState).state.error = "No model for Ohio" ∧
      (handleForecast sampleEnvironment ohioState).state.forecastData = none ∧
      (handleForecast sampleEnvironment ohioState).state.isLoading = false ∧
      (handleSubmit (.resolved ⟨500, .error (some (.text "No model for Ohio"))⟩)
        sampleForm).error = "No model for Ohio" ∧
      (handleSubmit (.resolved ⟨500, .error (some (.text "No model for Ohio"))⟩)
        sampleForm).predictionResult = none :=
  have h := non2xx_error 500 (some (.text "No model for Ohio")) (by decide)
  have h1 := h.1 sampleEnvironment ohioState "Ohio" ["Texas"] rfl rfl rfl
  have h2 := h.2 sampleForm
  ⟨h1.1 _ rfl (by decide), h1.2.2.2.2.1, h1.2.2.2.2.2, h2.1 _ rfl (by decide),
    h2.2.2.2.2.1⟩

/-! ## Single mode -/

theorem storeSingleForecast_some (region : String) (data : ForecastResponse)
    (stored : ForecastData) (h : storeSingleForecast region data = some stored) :
    ∃ d1 d2 d3 : JSDate, stored = .single region (combinedData data) d1 d2 d3 := by
  simp only [storeSingleForecast] at h
  split at h
  · simp only [Option.some.injEq] at h
    exact ⟨_, _, _, h.symm⟩
  · exact absurd h (by simp)

/-- Whatever the single-mode `try` body stores is tagged with the requested region. -/
theorem forecastSingle_ok (env : Environment) (region : String) (horizon : Int)
    (stored : ForecastData) (h : forecastSingle env region horizon = .ok stored) :
    ∃ (data : List SeriesPoint) (d1 d2 d3 : JSDate), stored = .single region data d1 d2 d3 := by
  unfold forecastSingle at h
  split at h
  · exact absurd h (by simp)
  · split at h
    · split at h <;> exact absurd h (by simp)
    · split at h
      · split at h
        · rename_i hstore
          simp only [Except.ok.injEq] at h
          subst h
          obtain ⟨d1, d2, d3, hd⟩ := storeSingleForecast_some region _ _ hstore
          exact ⟨_, d1, d2, d3, hd⟩
        · exact absurd h (by simp)
      · exact absurd h (by simp)

/-- C13: with a non-empty selection `r1 :: others`, live `handleForecast` in single mode
sends exactly one request, the body `{region: r1, horizon}`; the other selected regions
cause no request and do not influence the outcome; whatever is stored is a single-mode
result tagged `r1`, and a 2xx answer with a non-empty forecast list is stored so. -/
theorem handleForecast_single_request (env : Environment) (s : ViewState) (r1 : String)
    (others : List String) (hsel : s.selectedRegions = r1 :: others)
    (hmode : s.analysisType = .single) :
    (handleForecast env s).requests = [{ region := r1, horizon := s.forecastMonths }] ∧
    ((handleForecast env s).state.forecastData = none ∨
      ∃ (data : List SeriesPoint) (d1 d2 d3 : JSDate),
        (handleForecast env s).state.forecastData = some (.single r1 data d1 d2 d3)) ∧
    (∀ others' : List String,
      (handleForecast env { s with selectedRegions := r1 :: others' }).requests
        = (handleForecast env s).requests ∧
      (handleForecast env { s with selectedRegions := r1 :: others' }).state.forecastData
        = (handleForecast env s).state.forecastData ∧
      (handleForecast env { s with selectedRegions := r1 :: others' }).state.error
        = (handleForecast env s).state.error) ∧
    (∀ (status : Nat) (data : ForecastResponse),
      env.fetch { region := r1, horizon := s.forecastMonths }
        = .resolved ⟨status, .payload data⟩ →
      200 ≤ status → status ≤ 299 → data.forecast ≠ [] →
      ∃ d1 d2 d3 : JSDate,
        (handleForecast env s).state.forecastData
          = some (.single r1 (combinedData data) d1 d2 d3) ∧
        (handleForecast env s).state.error = "" ∧
        (handleForecast env s).state.isLoading = false) := by
  refine ⟨?_, ?_, ?_, ?_⟩
  · simp only [handleForecast, hsel, hmode]
  · simp only [handleForecast, hsel, hmode]
    cases hres : forecastSingle env r1 s.forecastMonths with
    | error message => exact Or.inl (by simp [Except.map, settleForecast])
    | ok stored =>
      obtain ⟨data, d1, d2, d3, hd⟩ := forecastSingle_ok env r1 _ stored hres
      exact Or.inr ⟨data, d1, d2, d3, by simp [Except.map, settleForecast, hd]⟩
  · intro others'
    simp only [handleForecast, hsel, hmode]
    cases forecastSingle env r1 s.forecastMonths <;> simp [Except.map, settleForecast]
  · intro status data hfetch h200 h299 hne
    have hok : HttpResponse.ok (⟨status, .payload data⟩ : HttpResponse ForecastResponse)
        = true := by
      simp [HttpResponse.ok, h200, h299]
    have hlen : 1 ≤ data.forecast.length := by
      cases hf : data.forecast with
      | nil => exact absurd hf hne
      | cons a as => simp
    obtain ⟨d1, d2, d3, -, -, hstore, -, -, -, -⟩ :=
      storeSingleForecast_periods r1 data data.forecast.length hlen rfl
    refine ⟨d1, d2, d3, ?_, ?_, ?_⟩ <;>
      simp [handleForecast, hsel, hmode, forecastSingle, hfetch, hok, hstore, Except.map,
        settleForecast]

/-- Witness for C13 on `threeRegionState` (Texas, Ohio, Utah): one request, for Texas. -/
theorem handleForecast_single_request_witness :
    (handleForecast sampleEnvironment threeRegionState).requests
        = [{ region := "Texas", horizon := 12 }] ∧
      ∃ d1 d2 d3 : JSDate,
        (handleForecast sampleEnvironment threeRegionState).state.forecastData
          = some (.single "Texas" (combinedData sampleResponse) d1 d2 d3) ∧
        (handleForecast sampleEnvironment threeRegionState).state.error = "" ∧
        (handleForecast sampleEnvironment threeRegionState).state.isLoading = false :=
  have h := handleForecast_single_request sampleEnvironment threeRegionState "Texas"
    ["Ohio", "Utah"] rfl rfl
  ⟨h.1, h.2.2.2 200 sampleResponse rfl (by decide) (by decide) (by simp [sampleResponse])⟩

/-! ## Comparison mode: the parallel join -/

theorem promiseAll_ok {α : Type} (completion : List Nat) (values : List α) :
    promiseAll completion (values.map Except.ok) = (.ok values : Except String (List α)) := by
  have hnone : (completion ++ List.range (values.map (Except.ok : α → Except String α)).length).findSome?
      (fun (i : Nat) =>
        match (values.map (Except.ok : α → Except String α))[i]? with
        | some (Except.error message) => some message
        | _ => none) = none := by
    rw [List.findSome?_eq_none_iff]
    intro i _
    rw [List.getElem?_map]
    cases values[i]? <;> rfl
  unfold promiseAll
  rw [hnone]
  simp only [List.filterMap_map]
  congr 1
  exact List.filterMap_some values

theorem promiseAll_error {α : Type} (completion : List Nat) (settled : List (Except String α))
    (i : Nat) (e : String) (h : settled[i]? = some (.error e)) :
    ∃ (j : Nat) (message : String),
      promiseAll completion settled = .error message ∧ settled[j]? = some (.error message) := by
  cases hfs : (completion ++ List.range settled.length).findSome?
      (fun (i : Nat) =>
        match settled[i]? with
        | some (Except.error message) => some message
        | _ => none) with
  | none =>
    rw [List.findSome?_eq_none_iff] at hfs
    have hi : i < settled.length := by
      by_contra hcon
      rw [List.getElem?_eq_none (by omega)] at h
      exact absurd h (by simp)
    have := hfs i (List.mem_append_right _ (List.mem_range.2 hi))
    rw [h] at this
    exact absurd this (by simp)
  | some message =>
    obtain ⟨j, -, hj⟩ := List.exists_of_findSome?_eq_some hfs
    refine ⟨j, message, ?_, ?_⟩
    · unfold promiseAll
      rw [hfs]
    · split at hj
      · rename_i m hm
        simp only [Option.some.injEq] at hj
        rw [hm, hj]
      · exact absurd hj (by simp)

theorem decodeResults_payload (regions : List String) (bodies : String → ForecastResponse) :
    decodeResults (regions.map fun r => (r, JsonBody.payload (bodies r)))
      = some (regions.map fun r => { region := r, data := bodies r }) := by
  induction regions with
  | nil => rfl
  | cons r rs ih => simp [decodeResults, ih]

/-- C14: with a non-empty selection `r1, ..., rn`, live `handleForecast` in comparison
mode sends exactly `n` requests, the `i`-th with body `{region: ri, horizon}`; when every
call is answered 2xx with a `/forecast` body, `bodies ri` for region `ri`, the stored
comparison data has `n` entries and entry `i` is tagged `ri` and built from `bodies ri`
alone, for every completion order of the calls. -/
theorem handleForecast_comparison (env : Environment) (s : ViewState)
    (bodies : String → ForecastResponse) (hsel : s.selectedRegions ≠ [])
    (hmode : s.analysisType = .comparison) :
    (handleForecast env s).requests
      = s.selectedRegions.map (fun r => { region := r, horizon := s.forecastMonths }) ∧
    (handleForecast env s).requests.length = s.selectedRegions.length ∧
    ((∀ r ∈ s.selectedRegions, ∃ status : Nat, 200 ≤ status ∧ status ≤ 299 ∧
        env.fetch { region := r, horizon := s.forecastMonths }
          = .resolved ⟨status, .payload (bodies r)⟩) →
      (handleForecast env s).state.forecastData
        = some (.comparison (comparisonData
            (s.selectedRegions.map fun r => { region := r, data := bodies r }))) ∧
      (handleForecast env s).state.error = "" ∧
      (handleForecast env s).state.isLoading = false ∧
      (comparisonData (s.selectedRegions.map fun r => { region := r, data := bodies r })).length
        = s.selectedRegions.length ∧
      ∀ (i : Nat) (r : String), s.selectedRegions[i]? = some r →
        (comparisonData (s.selectedRegions.map fun r => { region := r, data := bodies r }))[i]?
          = some
              { region := r
                historicalData := (bodies r).historical.map (fun item =>
                  ({ ds := item.Month
                     yhat := item.Historical_Price
                     yhat_lower := none
                     yhat_upper := none
                     isHistorical := some true
                     isForecast := none } : SeriesPoint))
                forecastData := (bodies r).forecast.map (fun item =>
                  ({ ds := item.Month
                     yhat := item.Forecasted_Price
                     yhat_lower := none
                     yhat_upper := none
                     isHistorical := none
                     isForecast := some true } : SeriesPoint))
                allData :=
                  (bodies r).historical.map (fun item =>
                    ({ ds := item.Month
                       yhat := item.Historical_Price
                       yhat_lower := none
                       yhat_upper := none
                       isHistorical := some true
                       isForecast := none } : SeriesPoint))
                  ++ (bodies r).forecast.map (fun item =>
                    ({ ds := item.Month
                       yhat := item.Forecasted_Price
                       yhat_lower := none
                       yhat_upper := none
                       isHistorical := none
                       isForecast := some true } : SeriesPoint)) }) := by
  cases hregions : s.selectedRegions with
  | nil => exact absurd hregions hsel
  | cons r1 others =>
    have hreq : (handleForecast env s).requests
        = (r1 :: others).map (fun r => { region := r, horizon := s.forecastMonths }) := by
      simp only [handleForecast, hregions, hmode]
    refine ⟨hreq, by rw [hreq, List.length_map], ?_⟩
    intro hall
    have hsettled : (r1 :: others).map (forecastRegion env s.forecastMonths)
        = ((r1 :: others).map fun r => (r, JsonBody.payload (bodies r))).map Except.ok := by
      rw [List.map_map]
      apply List.map_congr_left
      intro r hr
      obtain ⟨status, h200, h299, hfetch⟩ := hall r hr
      have hok : HttpResponse.ok (⟨status, .payload (bodies r)⟩ : HttpResponse ForecastResponse)
          = true := by
        simp [HttpResponse.ok, h200, h299]
      simp [forecastRegion, hfetch, hok]
    have hcomp : forecastComparison env (r1 :: others) s.forecastMonths
        = .ok (.comparison (comparisonData
            ((r1 :: others).map fun r => { region := r, data := bodies r }))) := by
      simp only [forecastComparison, hsettled, promiseAll_ok, decodeResults_payload]
    have hstate : (handleForecast env s).state
        = settleForecast s (.ok (some (.comparison (comparisonData
            ((r1 :: others).map fun r => { region := r, data := bodies r }))))) := by
      simp only [handleForecast, hregions, hmode, hcomp, Except.map]
    refine ⟨by rw [hstate]; rfl, by rw [hstate]; rfl, by rw [hstate]; rfl, ?_, ?_⟩
    · simp [comparisonData]
    · intro i r hi
      simp only [comparisonData, List.map_map, List.getElem?_map, hi, Option.map_some',
        Function.comp_def]

/-- Witness for C14 on `comparisonState` (Texas, Iowa), both answered with
`sampleResponse`. -/
theorem handleForecast_comparison_witness :
    (handleForecast sampleEnvironment comparisonState).requests
        = [{ region := "Texas", horizon := 12 }, { region := "Iowa", horizon := 12 }] ∧
      (handleForecast sampleEnvironment comparisonState).state.forecastData
        = some (.comparison (comparisonData
            [{ region := "Texas", data := sampleResponse },
              { region := "Iowa", data := sampleResponse }])) ∧
      (handleForecast sampleEnvironment comparisonState).state.error = "" :=
  have h := handleForecast_comparison sampleEnvironment comparisonState
    (fun _ => sampleResponse) (by decide) rfl
  have hall : ∀ r ∈ comparisonState.selectedRegions, ∃ status : Nat,
      200 ≤ status ∧ status ≤ 299 ∧
      sampleEnvironment.fetch { region := r, horizon := comparisonState.forecastMonths }
        = .resolved ⟨status, .payload sampleResponse⟩ := by
    intro r hr
    refine ⟨200, by decide, by decide, ?_⟩
    have hr' : r = "Texas" ∨ r = "Iowa" := by simpa [comparisonState] using hr
    rcases hr' with rfl | rfl <;> rfl
  ⟨h.1, (h.2.2 hall).1, (h.2.2 hall).2.1⟩

/-- C15, against the claim as written: Ohio's call is answered 500, but the call for Texas
fails in transport and settles first; the error shown is the transport message, which
names no region. -/
theorem comparison_failure_counterexample :
    (∃ r ∈ transportFailureState.selectedRegions,
      ∃ response : HttpResponse ForecastResponse,
        transportFailureEnvironment.fetch
            { region := r, horizon := transportFailureState.forecastMonths }
          = .resolved response ∧
        response.ok = false) ∧
    (handleForecast transportFailureEnvironment transportFailureState).state.error
      = "NetworkError when attempting to fetch resource." ∧
    ∀ r ∈ transportFailureState.selectedRegions,
      (handleForecast transportFailureEnvironment transportFailureState).state.error
        ≠ "Failed to fetch " ++ r :=
  ⟨⟨"Ohio", by decide, _, rfl, rfl⟩, by decide, by decide⟩

/-- C15, amended: in live comparison mode, when at least one call is answered non-2xx, all
`n` requests were sent, nothing is stored and `isLoading` is false afterwards.  The error
shown is 'Failed to fetch <region>' for a selected region whose answer was not 2xx, or
else the message of a call that failed in transport (the generic message when that one is
empty); it is the former whenever every call is answered by the server. -/
theorem handleForecast_comparison_failure (env : Environment) (s : ViewState)
    (hmode : s.analysisType = .comparison)
    (hfail : ∃ r ∈ s.selectedRegions, ∃ response : HttpResponse ForecastResponse,
      env.fetch { region := r, horizon := s.forecastMonths } = .resolved response ∧
      response.ok = false) :
    ((∃ r ∈ s.selectedRegions,
        (∃ response : HttpResponse ForecastResponse,
          env.fetch { region := r, horizon := s.forecastMonths } = .resolved response ∧
          response.ok = false) ∧
        (handleForecast env s).state.error = "Failed to fetch " ++ r) ∨
      (∃ r ∈ s.selectedRegions, ∃ message : String,
        env.fetch { region := r, horizon := s.forecastMonths } = .rejected message ∧
        (handleForecast env s).state.error
          = orDefault (some message) "Failed to get forecast")) ∧
    ((∀ r ∈ s.selectedRegions, ∃ response : HttpResponse ForecastResponse,
        env.fetch { region := r, horizon := s.forecastMonths } = .resolved response) →
      ∃ r ∈ s.selectedRegions,
        (∃ response : HttpResponse ForecastResponse,
          env.fetch { region := r, horizon := s.forecastMonths } = .resolved response ∧
          response.ok = false) ∧
        (handleForecast env s).state.error = "Failed to fetch " ++ r) ∧
    (handleForecast env s).state.forecastData = none ∧
    (handleForecast env s).state.isLoading = false ∧
    (handleForecast env s).requests
      = s.selectedRegions.map (fun r => { region := r, horizon := s.forecastMonths }) := by
  cases hregions : s.selectedRegions with
  | nil =>
    obtain ⟨r, hr, -⟩ := hfail
    rw [hregions] at hr
    exact absurd hr (by simp)
  | cons r1 others =>
    rw [hregions] at hfail
    obtain ⟨r, hr, response, hfetch, hnok⟩ := hfail
    obtain ⟨i, hi⟩ := List.mem_iff_getElem?.1 hr
    have hsi : ((r1 :: others).map (forecastRegion env s.forecastMonths))[i]?
        = some (.error ("Failed to fetch " ++ r)) := by
      rw [List.getElem?_map, hi]
      simp [forecastRegion, hfetch, hnok]
    obtain ⟨j, message, hall, hj⟩ := promiseAll_error env.completion _ i _ hsi
    rw [List.getElem?_map] at hj
    cases hrj : (r1 :: others)[j]? with
    | none => rw [hrj] at hj; exact absurd hj (by simp)
    | some r' =>
      rw [hrj] at hj
      simp only [Option.map_some', Option.some.injEq] at hj
      have hr' : r' ∈ r1 :: others := List.getElem?_mem hrj
      have hcomp : forecastComparison env (r1 :: others) s.forecastMonths
          = .error message := by
        simp only [forecastComparison, hall]
      have hstate : (handleForecast env s).state = settleForecast s (.error message) := by
        simp only [handleForecast, hregions, hmode, hcomp, Except.map]
      have herror : (handleForecast env s).state.error
          = orDefault (some message) "Failed to get forecast" := by
        rw [hstate]; rfl
      have hcases :
          (∃ response' : HttpResponse ForecastResponse,
            env.fetch { region := r', horizon := s.forecastMonths } = .resolved response' ∧
            response'.ok = false ∧ message = "Failed to fetch " ++ r') ∨
          env.fetch { region := r', horizon := s.forecastMonths } = .rejected message := by
        cases hfetch' : env.fetch { region := r', horizon := s.forecastMonths } with
        | rejected m =>
          simp only [forecastRegion, hfetch', Except.error.injEq] at hj
          rw [hj]
          exact Or.inr rfl
        | resolved response' =>
          simp only [forecastRegion, hfetch'] at hj
          cases hok : response'.ok with
          | true => rw [hok] at hj; exact absurd hj (by simp)
          | false =>
            rw [hok] at hj
            simp only [Bool.not_false, if_true, Except.error.injEq] at hj
            exact Or.inl ⟨response', rfl, hok, hj.symm⟩
      have hnamed : ∀ response' : HttpResponse ForecastResponse,
          env.fetch { region := r', horizon := s.forecastMonths } = .resolved response' →
          response'.ok = false → message = "Failed to fetch " ++ r' →
          (handleForecast env s).state.error = "Failed to fetch " ++ r' := by
        intro response' _ _ hmsg
        rw [herror, hmsg]
        exact orDefault_some_of_ne _ "Failed to get forecast" (failedToFetch_ne_empty r')
      refine ⟨?_, ?_, ?_, ?_, ?_⟩
      · rcases hcases with ⟨response', hfetch', hok, hmsg⟩ | hrej
        · exact Or.inl ⟨r', hr', ⟨response', hfetch', hok⟩,
            hnamed response' hfetch' hok hmsg⟩
        · exact Or.inr ⟨r', hr', message, hrej, herror⟩
      · intro hanswered
        rcases hcases with ⟨response', hfetch', hok, hmsg⟩ | hrej
        · exact ⟨r', hr', ⟨response', hfetch', hok⟩, hnamed response' hfetch' hok hmsg⟩
        · obtain ⟨response', hfetch'⟩ := hanswered r' hr'
          rw [hrej] at hfetch'
          exact absurd hfetch' (by simp)
      · rw [hstate]; rfl
      · rw [hstate]; rfl
      · simp only [handleForecast, hregions, hmode]

/-- Witness for C15 on `failingComparisonState` (Texas, Ohio, Utah): Ohio and Utah are not
answered 2xx; Utah's call completes first, its name is shown, and nothing is stored
although Texas succeeded. -/
theorem handleForecast_comparison_failure_witness :
    (∃ r ∈ failingComparisonState.selectedRegions,
      (∃ response : HttpResponse ForecastResponse,
        sampleEnvironment.fetch
            { region := r, horizon := failingComparisonState.forecastMonths }
          = .resolved response ∧
        response.ok = false) ∧
      (handleForecast sampleEnvironment failingComparisonState).state.error
        = "Failed to fetch " ++ r) ∧
    (handleForecast sampleEnvironment failingComparisonState).state.forecastData = none ∧
    (handleForecast sampleEnvironment failingComparisonState).state.isLoading = false ∧
    (handleForecast sampleEnvironment failingComparisonState).requests
      = failingComparisonState.selectedRegions.map
          (fun r => { region := r, horizon := failingComparisonState.forecastMonths }) ∧
    (handleForecast sampleEnvironment failingComparisonState).state.error
      = "Failed to fetch Utah" :=
  have h := handleForecast_comparison_failure sampleEnvironment failingComparisonState rfl
    ⟨"Ohio", by decide, _, rfl, rfl⟩
  ⟨h.2.1 (by
      intro r hr
      have hr' : r = "Texas" ∨ r = "Ohio" ∨ r = "Utah" := by
        simpa [failingComparisonState] using hr
      rcases hr' with rfl | rfl | rfl
      · exact ⟨_, rfl⟩
      · exact ⟨_, rfl⟩
      · exact ⟨_, rfl⟩),
    h.2.2.1, h.2.2.2.1, h.2.2.2.2, by decide⟩

/-! ## Empty forecast lists -/

theorem orDefault_ne_empty (value : Option String) (fallback : String) (h : fallback ≠ "") :
    orDefault value fallback ≠ "" := by
  unfold orDefault
  cases value with
  | none => exact h
  | some text =>
    by_cases ht : text = ""
    · simp [ht, h]
    · simp [ht]

theorem storeSingleForecast_empty (region : String) (data : ForecastResponse)
    (h : data.forecast = []) : storeSingleForecast region data = none := by
  have h0 : (forecastDataTransformed data)[0]? = none := by
    simp [forecastDataTransformed, h]
  simp only [storeSingleForecast, h0]
  cases (combinedData data)[0]? <;>
    cases (combinedData data)[(combinedData data).length - 1]? <;> rfl

/-- C19: an empty forecast list produces no summary statistics in the live variant.  In
single mode a 2xx answer whose forecast list is empty stores nothing: `forecastData` is
null, the error is the non-empty message of the TypeError and `renderSingleForecast`
renders nothing.  In comparison mode the summary table has no row for a region whose
forecast list is empty, and every row it has comes from a non-empty list. -/
theorem empty_forecast_no_statistics :
    (∀ (env : Environment) (s : ViewState) (r1 : String) (others : List String)
      (status : Nat) (data : ForecastResponse),
      s.selectedRegions = r1 :: others → s.analysisType = .single →
      env.fetch { region := r1, horizon := s.forecastMonths }
        = .resolved ⟨status, .payload data⟩ →
      200 ≤ status → status ≤ 299 → data.forecast = [] →
      (handleForecast env s).state.forecastData = none ∧
      (handleForecast env s).state.error
        = orDefault (some (env.typeErrorMessage "ds")) "Failed to get forecast" ∧
      (handleForecast env s).state.error ≠ "" ∧
      (handleForecast env s).state.isLoading = false ∧
      renderSingleForecast (handleForecast env s).state.forecastData = none) ∧
    (∀ (results : List RegionResult) (i : Nat) (r : RegionResult),
      results[i]? = some r → r.data.forecast = [] →
      (comparisonTable (comparisonData results))[i]? = some none) ∧
    (∀ (e : ComparisonEntry) (row : ComparisonRow),
      comparisonTableRow e = some row → e.forecastData ≠ []) := by
  refine ⟨?_, ?_, ?_⟩
  · intro env s r1 others status data hsel hmode hfetch h200 h299 hempty
    have hok : HttpResponse.ok (⟨status, .payload data⟩ : HttpResponse ForecastResponse)
        = true := by
      simp [HttpResponse.ok, h200, h299]
    have hstate : (handleForecast env s).state
        = settleForecast s (.error (env.typeErrorMessage "ds")) := by
      simp only [handleForecast, hsel, hmode, forecastSingle, hfetch, hok,
        storeSingleForecast_empty r1 data hempty, Except.map]
      rfl
    refine ⟨by rw [hstate]; rfl, by rw [hstate]; rfl, ?_, by rw [hstate]; rfl, ?_⟩
    · rw [hstate]
      exact orDefault_ne_empty (some (env.typeErrorMessage "ds")) "Failed to get forecast"
        (by decide)
    · rw [hstate]; rfl
  · intro results i r hi hempty
    simp only [comparisonTable, comparisonData, List.map_map, List.getElem?_map, hi,
      Option.map_some', Function.comp_def, comparisonTableRow, hempty, List.map_nil]
  · intro e row h hnil
    simp [comparisonTableRow, hnil] at h

/-- Witness for C19: the sample server of `noForecastEnvironment` answers Texas with an
empty forecast list; nothing is stored, and the table row of such a region is absent. -/
theorem empty_forecast_no_statistics_witness :
    ((handleForecast noForecastEnvironment threeRegionState).state.forecastData = none ∧
      (handleForecast noForecastEnvironment threeRegionState).state.error
        = orDefault (some (noForecastEnvironment.typeErrorMessage "ds"))
            "Failed to get forecast" ∧
      (handleForecast noForecastEnvironment threeRegionState).state.error ≠ "" ∧
      (handleForecast noForecastEnvironment threeRegionState).state.isLoading = false ∧
      renderSingleForecast
        (handleForecast noForecastEnvironment threeRegionState).state.forecastData = none) ∧
    (comparisonTable (comparisonData [regionA, ⟨"Texas", noForecastResponse⟩]))[1]?
      = some none :=
  ⟨empty_forecast_no_statistics.1 noForecastEnvironment threeRegionState "Texas"
      ["Ohio", "Utah"] 200 noForecastResponse rfl rfl rfl (by decide) (by decide) rfl,
    empty_forecast_no_statistics.2.1 [regionA, ⟨"Texas", noForecastResponse⟩] 1
      ⟨"Texas", noForecastResponse⟩ rfl rfl⟩

/-! ## Order of the merged axis -/

theorem codeUnitsLt_total (a b : List Nat) :
    codeUnitsLt b a = false ∨ codeUnitsLt a b = false := by
  induction a generalizing b with
  | nil => cases b <;> simp [codeUnitsLt]
  | cons x xs ih =>
    cases b with
    | nil => simp [codeUnitsLt]
    | cons y ys =>
      simp only [codeUnitsLt, Bool.or_eq_false_iff, Bool.and_eq_false_imp, decide_eq_false_iff_not,
        beq_iff_eq]
      rcases Nat.lt_trichotomy x y with h | h | h
      · left
        exact ⟨by omega, fun h' => by omega⟩
      · subst h
        rcases ih ys with h' | h'
        · left; exact ⟨by omega, fun _ => h'⟩
        · right; exact ⟨by omega, fun _ => h'⟩
      · right
        exact ⟨by omega, fun h' => by omega⟩

theorem codeUnitsLt_trans (a b c : List Nat) (hab : codeUnitsLt b a = false)
    (hbc : codeUnitsLt c b = false) : codeUnitsLt c a = false := by
  induction a generalizing b c with
  | nil =>
    cases b with
    | nil => exact hbc
    | cons y ys => cases c <;> simp [codeUnitsLt] at hab hbc ⊢
  | cons x xs ih =>
    cases b with
    | nil =>
      cases c with
      | nil => simp [codeUnitsLt] at hab
      | cons z zs => simp [codeUnitsLt] at hab
    | cons y ys =>
      cases c with
      | nil => simp [codeUnitsLt] at hbc
      | cons z zs =>
        simp only [codeUnitsLt, Bool.or_eq_false_iff, Bool.and_eq_false_imp,
          decide_eq_false_iff_not, beq_iff_eq] at hab hbc ⊢
        refine ⟨by omega, fun hzx => ?_⟩
        have hyx : y = x := by omega
        have hzy : z = y := by omega
        exact ih ys zs (hab.2 hyx) (hbc.2 hzy)

theorem sortedDates_sorted (data : List ComparisonEntry) :
    (sortedDates data).Sorted jsStringLe := by
  haveI : IsTotal String jsStringLe := ⟨fun a b => codeUnitsLt_total (utf16 a) (utf16 b)⟩
  haveI : IsTrans String jsStringLe :=
    ⟨fun a b c hab hbc => codeUnitsLt_trans (utf16 a) (utf16 b) (utf16 c) hab hbc⟩
  exact List.sorted_insertionSort jsStringLe (allDates data)

theorem char_eq_iff_toNat (c d : Char) : c = d ↔ c.toNat = d.toNat := by
  constructor
  · intro h; rw [h]
  · intro h
    rw [← Char.ofNat_toNat c, ← Char.ofNat_toNat d, h]

theorem utf16Units_of_lt (c : Char) (h : c.toNat < 65536) : utf16Units c = [c.toNat] := by
  simp [utf16Units, h]

set_option maxHeartbeats 1000000 in
theorem isoDay_before (a b : String) (ha : isIsoDay a = true) (hb : isIsoDay b = true)
    (hle : jsStringLe a b) (hne : a ≠ b) : dateBefore (isoDate a) (isoDate b) := by
  unfold isIsoDay at ha hb
  split at ha
  case h_2 => exact absurd ha (by simp)
  rename_i a1 a2 a3 a4 a5 a6 a7 a8 a9 a10 heqa
  split at hb
  case h_2 => exact absurd hb (by simp)
  rename_i b1 b2 b3 b4 b5 b6 b7 b8 b9 b10 heqb
  simp only [isAsciiDigit, isHyphen, Bool.and_eq_true, decide_eq_true_eq] at ha hb
  have hne' : ¬ (a.toList = b.toList) := fun h => hne (String.ext h)
  rw [heqa, heqb] at hne'
  simp only [List.cons.injEq, and_true, char_eq_iff_toNat] at hne'
  have hle' : codeUnitsLt (utf16 b) (utf16 a) = false := hle
  simp only [utf16, heqa, heqb, List.flatMap_cons, List.flatMap_nil,
    utf16Units_of_lt a1 (by omega), utf16Units_of_lt a2 (by omega),
    utf16Units_of_lt a3 (by omega), utf16Units_of_lt a4 (by omega),
    utf16Units_of_lt a5 (by omega), utf16Units_of_lt a6 (by omega),
    utf16Units_of_lt a7 (by omega), utf16Units_of_lt a8 (by omega),
    utf16Units_of_lt a9 (by omega), utf16Units_of_lt a10 (by omega),
    utf16Units_of_lt b1 (by omega), utf16Units_of_lt b2 (by omega),
    utf16Units_of_lt b3 (by omega), utf16Units_of_lt b4 (by omega),
    utf16Units_of_lt b5 (by omega), utf16Units_of_lt b6 (by omega),
    utf16Units_of_lt b7 (by omega), utf16Units_of_lt b8 (by omega),
    utf16Units_of_lt b9 (by omega), utf16Units_of_lt b10 (by omega),
    List.singleton_append, List.append_nil, codeUnitsLt, Bool.or_eq_false_iff,
    Bool.and_eq_false_imp, decide_eq_false_iff_not, beq_iff_eq] at hle'
  simp only [isoDate, heqa, heqb, dateBefore, decimal, List.foldl_cons, List.foldl_nil]
  omega

set_option maxHeartbeats 1000000 in
theorem isoMonth_before (a b : String) (ha : isIsoMonth a = true) (hb : isIsoMonth b = true)
    (hle : jsStringLe a b) (hne : a ≠ b) : dateBefore (isoDate a) (isoDate b) := by
  unfold isIsoMonth at ha hb
  split at ha
  case h_2 => exact absurd ha (by simp)
  rename_i a1 a2 a3 a4 a5 a6 a7 heqa
  split at hb
  case h_2 => exact absurd hb (by simp)
  rename_i b1 b2 b3 b4 b5 b6 b7 heqb
  simp only [isAsciiDigit, isHyphen, Bool.and_eq_true, decide_eq_true_eq] at ha hb
  have hne' : ¬ (a.toList = b.toList) := fun h => hne (String.ext h)
  rw [heqa, heqb] at hne'
  simp only [List.cons.injEq, and_true, char_eq_iff_toNat] at hne'
  have hle' : codeUnitsLt (utf16 b) (utf16 a) = false := hle
  simp only [utf16, heqa, heqb, List.flatMap_cons, List.flatMap_nil,
    utf16Units_of_lt a1 (by omega), utf16Units_of_lt a2 (by omega),
    utf16Units_of_lt a3 (by omega), utf16Units_of_lt a4 (by omega),
    utf16Units_of_lt a5 (by omega), utf16Units_of_lt a6 (by omega),
    utf16Units_of_lt a7 (by omega),
    utf16Units_of_lt b1 (by omega), utf16Units_of_lt b2 (by omega),
    utf16Units_of_lt b3 (by omega), utf16Units_of_lt b4 (by omega),
    utf16Units_of_lt b5 (by omega), utf16Units_of_lt b6 (by omega),
    utf16Units_of_lt b7 (by omega),
    List.singleton_append, List.append_nil, codeUnitsLt, Bool.or_eq_false_iff,
    Bool.and_eq_false_imp, decide_eq_false_iff_not, beq_iff_eq] at hle'
  simp only [isoDate, heqa, heqb, dateBefore, decimal, List.foldl_cons, List.foldl_nil]
  omega

/-- On labels of one ISO format the axis order is the order of the dates. -/
theorem sortedDates_pairwise_before (data : List ComparisonEntry)
    (hformat : (∀ e ∈ data, ∀ p ∈ e.allData, isIsoDay p.ds = true) ∨
      (∀ e ∈ data, ∀ p ∈ e.allData, isIsoMonth p.ds = true)) :
    (sortedDates data).Pairwise fun a b => dateBefore (isoDate a) (isoDate b) := by
  obtain ⟨hmem, hnodup⟩ := sortedDates_mem_nodup data
  have hpair : (sortedDates data).Pairwise fun a b => jsStringLe a b ∧ a ≠ b :=
    List.Pairwise.and (sortedDates_sorted data) hnodup
  refine List.Pairwise.imp_of_mem ?_ hpair
  intro a b ha hb hab
  obtain ⟨ea, hea, pa, hpa, rfl⟩ := (hmem a).1 ha
  obtain ⟨eb, heb, pb, hpb, rfl⟩ := (hmem b).1 hb
  rcases hformat with h | h
  · exact isoDay_before _ _ (h ea hea pa hpa) (h eb heb pb hpb) hab.1 hab.2
  · exact isoMonth_before _ _ (h ea hea pa hpa) (h eb heb pb hpb) hab.1 hab.2

/-- C11: when all period labels of a comparison result are ISO dates of one zero-padded
format (all `YYYY-MM-DD`, or all `YYYY-MM`), the merged axis, which `sort()` orders by
JavaScript's string comparison, is strictly ascending by date: every entry denotes a
strictly earlier date than every later entry, in particular than the entry after it. -/
theorem sortedDates_ascending (results : List RegionResult)
    (hformat :
      (∀ r ∈ results, (∀ item ∈ r.data.historical, isIsoDay item.Month = true) ∧
        (∀ item ∈ r.data.forecast, isIsoDay item.Month = true)) ∨
      (∀ r ∈ results, (∀ item ∈ r.data.historical, isIsoMonth item.Month = true) ∧
        (∀ item ∈ r.data.forecast, isIsoMonth item.Month = true))) :
    (sortedDates (comparisonData results)).Sorted jsStringLe ∧
    ((sortedDates (comparisonData results)).Pairwise
      fun a b => dateBefore (isoDate a) (isoDate b)) ∧
    ∀ (i : Nat) (a b : String),
      (sortedDates (comparisonData results))[i]? = some a →
      (sortedDates (comparisonData results))[i + 1]? = some b →
      dateBefore (isoDate a) (isoDate b) := by
  have hlabels : ∀ (P : String → Prop),
      (∀ r ∈ results, (∀ item ∈ r.data.historical, P item.Month) ∧
        (∀ item ∈ r.data.forecast, P item.Month)) →
      ∀ e ∈ comparisonData results, ∀ p ∈ e.allData, P p.ds := by
    intro P hP e he p hp
    simp only [comparisonData, List.mem_map] at he
    obtain ⟨r, hr, rfl⟩ := he
    simp only [List.mem_append, List.mem_map] at hp
    rcases hp with ⟨item, hitem, rfl⟩ | ⟨item, hitem, rfl⟩
    · exact (hP r hr).1 item hitem
    · exact (hP r hr).2 item hitem
  have hformat' : (∀ e ∈ comparisonData results, ∀ p ∈ e.allData, isIsoDay p.ds = true) ∨
      (∀ e ∈ comparisonData results, ∀ p ∈ e.allData, isIsoMonth p.ds = true) := by
    rcases hformat with h | h
    · exact Or.inl (hlabels (fun label => isIsoDay label = true) h)
    · exact Or.inr (hlabels (fun label => isIsoMonth label = true) h)
  have hpair := sortedDates_pairwise_before (comparisonData results) hformat'
  refine ⟨sortedDates_sorted _, hpair, ?_⟩
  intro i a b hia hib
  obtain ⟨hi, rfl⟩ := List.getElem?_eq_some.1 hia
  obtain ⟨hj, rfl⟩ := List.getElem?_eq_some.1 hib
  exact List.pairwise_iff_getElem.1 hpair i (i + 1) hi hj (Nat.lt_succ_self i)

/-- Witness for C11 on regions A and B: January comes before February on the axis. -/
theorem sortedDates_ascending_witness :
    dateBefore (isoDate "2024-01-01") (isoDate "2024-02-01") ∧
      dateBefore (isoDate "2024-02-01") (isoDate "2024-03-01") :=
  have h := sortedDates_ascending [regionA, regionB] (Or.inl (by decide))
  ⟨h.2.2 0 "2024-01-01" "2024-02-01" (by decide) (by decide),
    h.2.2 1 "2024-02-01" "2024-03-01" (by decide) (by decide)⟩

/-! ## Statistics mode and the replacement of the stored result -/

/-- C21: with a non-empty selection, for every horizon, live `handleForecast` in
statistics mode sends no request at all. -/
theorem handleForecast_statistics_no_request (env : Environment) (s : ViewState)
    (hsel : s.selectedRegions ≠ []) (hmode : s.analysisType = .statistics) :
    (handleForecast env s).requests = [] := by
  cases hregions : s.selectedRegions with
  | nil => exact absurd hregions hsel
  | cons region others => simp only [handleForecast, hregions, hmode]

/-- Witness for C21 on `statisticsModeState`. -/
theorem handleForecast_statistics_no_request_witness :
    (handleForecast sampleEnvironment statisticsModeState).requests = [] :=
  handleForecast_statistics_no_request sampleEnvironment statisticsModeState
    (by decide) rfl

/-- The whole outcome of a submission that passes validation does not depend on the
result stored before. -/
theorem handleForecast_forget_previous (env : Environment) (s : ViewState)
    (previous : Option ForecastData) (hsel : s.selectedRegions ≠ []) :
    handleForecast env { s with forecastData := previous } = handleForecast env s := by
  obtain ⟨selected, months, mode, stored, loading, err, available, forStats, newRegion⟩ := s
  cases selected with
  | nil => exact absurd rfl hsel
  | cons region others =>
    cases mode with
    | single =>
      simp only [handleForecast]
      cases forecastSingle env region months <;> rfl
    | comparison =>
      simp only [handleForecast]
      cases forecastComparison env (region :: others) months <;> rfl
    | statistics => rfl

/-- C22: in the live variant a submission that passes validation replaces the stored
result wholesale: two view states that differ only in the previous `forecastData` end in
the same state after the same requests, and the `forecastData` they end with is null or
the value the `try` body built from this submission's responses. -/
theorem handleForecast_replaces_wholesale (env : Environment) (s : ViewState)
    (previous previous' : Option ForecastData) (hsel : s.selectedRegions ≠ []) :
    (handleForecast env { s with forecastData := previous }).state
      = (handleForecast env { s with forecastData := previous' }).state ∧
    (handleForecast env { s with forecastData := previous }).requests
      = (handleForecast env { s with forecastData := previous' }).requests ∧
    ((handleForecast env { s with forecastData := previous }).state.forecastData = none ∨
      (∃ (region : String) (others : List String) (stored : ForecastData),
        s.selectedRegions = region :: others ∧ s.analysisType = .single ∧
        forecastSingle env region s.forecastMonths = .ok stored ∧
        (handleForecast env { s with forecastData := previous }).state.forecastData
          = some stored) ∨
      (∃ stored : ForecastData, s.analysisType = .comparison ∧
        forecastComparison env s.selectedRegions s.forecastMonths = .ok stored ∧
        (handleForecast env { s with forecastData := previous }).state.forecastData
          = some stored)) := by
  have h1 := handleForecast_forget_previous env s previous hsel
  have h2 := handleForecast_forget_previous env s previous' hsel
  refine ⟨by rw [h1, h2], by rw [h1, h2], ?_⟩
  rw [h1]
  cases hregions : s.selectedRegions with
  | nil => exact absurd hregions hsel
  | cons region others =>
    cases hmode : s.analysisType with
    | single =>
      cases hres : forecastSingle env region s.forecastMonths with
      | error message =>
        left
        simp only [handleForecast, hregions, hmode, hres, Except.map, settleForecast]
      | ok stored =>
        right; left
        refine ⟨region, others, stored, rfl, rfl, hres, ?_⟩
        simp only [handleForecast, hregions, hmode, hres, Except.map, settleForecast]
    | comparison =>
      cases hres : forecastComparison env (region :: others) s.forecastMonths with
      | error message =>
        left
        simp only [handleForecast, hregions, hmode, hres, Except.map, settleForecast]
      | ok stored =>
        right; right
        refine ⟨stored, rfl, rfl, ?_⟩
        simp only [handleForecast, hregions, hmode, hres, Except.map, settleForecast]
    | statistics =>
      left
      simp only [handleForecast, hregions, hmode, settleForecast]

/-- Witness for C22 on `threeRegionState`: with an earlier comparison result or with an
earlier single result on show, the submission ends in the same state. -/
theorem handleForecast_replaces_wholesale_witness :
    (handleForecast sampleEnvironment
        { threeRegionState with
          forecastData := some (.comparison (comparisonData [regionA, regionB])) }).state
      = (handleForecast sampleEnvironment
        { threeRegionState with
          forecastData :=
            some (.single "Utah" sampleSeries ⟨"2024-01-01"⟩ ⟨"2024-05-01"⟩
              ⟨"2024-03-01"⟩) }).state :=
  (handleForecast_replaces_wholesale sampleEnvironment threeRegionState
    (some (.comparison (comparisonData [regionA, regionB])))
    (some (.single "Utah" sampleSeries ⟨"2024-01-01"⟩ ⟨"2024-05-01"⟩ ⟨"2024-03-01"⟩))
    (by decide)).1

/-! ## Reachable states -/

/-- Whatever the comparison-mode `try` body stores is a comparison result. -/
theorem forecastComparison_ok (env : Environment) (regions : List String) (horizon : Int)
    (stored : ForecastData) (h : forecastComparison env regions horizon = .ok stored) :
    ∃ entries : List ComparisonEntry, stored = .comparison entries := by
  unfold forecastComparison at h
  split at h
  · exact absurd h (by simp)
  · split at h
    · simp only [Except.ok.injEq] at h
      exact ⟨_, h.symm⟩
    · exact absurd h (by simp)

/-- Live `handleForecast` never stores a statistics result and keeps none that was not
there before. -/
theorem handleForecast_not_statistics (env : Environment) (s : ViewState)
    (h : ∀ data, s.forecastData ≠ some (.statistics data)) :
    ∀ data, (handleForecast env s).state.forecastData ≠ some (.statistics data) := by
  intro data
  cases hregions : s.selectedRegions with
  | nil =>
    simp only [handleForecast, hregions]
    exact h data
  | cons region others =>
    cases hmode : s.analysisType with
    | single =>
      cases hres : forecastSingle env region s.forecastMonths with
      | error message =>
        simp [handleForecast, hregions, hmode, hres, Except.map, settleForecast]
      | ok stored =>
        obtain ⟨d, d1, d2, d3, hd⟩ := forecastSingle_ok env region _ stored hres
        simp [handleForecast, hregions, hmode, hres, Except.map, settleForecast, hd]
    | comparison =>
      cases hres : forecastComparison env (region :: others) s.forecastMonths with
      | error message =>
        simp [handleForecast, hregions, hmode, hres, Except.map, settleForecast]
      | ok stored =>
        obtain ⟨entries, hd⟩ := forecastComparison_ok env _ _ stored hres
        simp [handleForecast, hregions, hmode, hres, Except.map, settleForecast, hd]
    | statistics =>
      simp [handleForecast, hregions, hmode, settleForecast]

theorem step_not_statistics (s : ViewState) (a : Action)
    (h : ∀ data, s.forecastData ≠ some (.statistics data)) :
    ∀ data, (step s a).forecastData ≠ some (.statistics data) := by
  cases a with
  | handleForecast env => exact handleForecast_not_statistics env s h
  | handleSingleRegionChange region =>
    intro data
    simp only [step, handleSingleRegionChange]
    split <;> exact h data
  | addRegion =>
    intro data
    simp only [step, addRegion]
    split <;> exact h data
  | selectFirstAvailable =>
    intro data
    simp only [step, selectFirstAvailable]
    split <;> exact h data
  | fetchRegions outcome =>
    intro data
    cases outcome <;> exact h data
  | _ => exact h

theorem run_not_statistics (s : ViewState) (actions : List Action)
    (h : ∀ data, s.forecastData ≠ some (.statistics data)) :
    ∀ data, (run s actions).forecastData ≠ some (.statistics data) := by
  induction actions generalizing s with
  | nil => exact h
  | cons a rest ih => exact ih (step s a) (step_not_statistics s a h)

/-- C30: in the live variant every state reached from the initial state by any sequence
of actions has a `forecastData` that is null, a single result or a comparison result,
never one of type 'statistics'; so `renderStatistics` returns nothing, and a
statistics-mode submission that passes validation ends with `forecastData` null, an
empty error and `isLoading` false. -/
theorem no_statistics_result (actions : List Action) :
    (∀ data, (run initialState actions).forecastData ≠ some (.statistics data)) ∧
    ((run initialState actions).forecastData = none ∨
      (∃ (region : String) (data : List SeriesPoint) (d1 d2 d3 : JSDate),
        (run initialState actions).forecastData = some (.single region data d1 d2 d3)) ∨
      (∃ entries : List ComparisonEntry,
        (run initialState actions).forecastData = some (.comparison entries))) ∧
    renderStatistics (run initialState actions) = none ∧
    (∀ env : Environment, (run initialState actions).selectedRegions ≠ [] →
      (run initialState actions).analysisType = .statistics →
      (handleForecast env (run initialState actions)).state.forecastData = none ∧
      (handleForecast env (run initialState actions)).state.error = "" ∧
      (handleForecast env (run initialState actions)).state.isLoading = false ∧
      (handleForecast env (run initialState actions)).requests = []) := by
  have hinv := run_not_statistics initialState actions (by simp [initialState])
  refine ⟨hinv, ?_, ?_, ?_⟩
  · cases hfd : (run initialState actions).forecastData with
    | none => exact Or.inl rfl
    | some stored =>
      cases stored with
      | single region data d1 d2 d3 => exact Or.inr (Or.inl ⟨region, data, d1, d2, d3, rfl⟩)
      | comparison entries => exact Or.inr (Or.inr ⟨entries, rfl⟩)
      | statistics data => exact absurd hfd (hinv data)
  · unfold renderStatistics
    split
    · rename_i data hfd
      exact absurd hfd (hinv data)
    · rfl
  · intro env hsel hmode
    cases hregions : (run initialState actions).selectedRegions with
    | nil => exact absurd hregions hsel
    | cons region others =>
      simp [handleForecast, hregions, hmode, settleForecast]

/-- Witness for C30: the regions arrive, the first one is selected, the mode is set to
statistics and the form is submitted; nothing is stored and nothing is sent. -/
theorem no_statistics_result_witness :
    (handleForecast sampleEnvironment
        (run initialState
          [.fetchRegions (.loaded ["Texas", "Ohio"]), .selectFirstAvailable,
            .setAnalysisType .statistics])).state.forecastData = none ∧
      (handleForecast sampleEnvironment
        (run initialState
          [.fetchRegions (.loaded ["Texas", "Ohio"]), .selectFirstAvailable,
            .setAnalysisType .statistics])).state.error = "" ∧
      (handleForecast sampleEnvironment
        (run initialState
          [.fetchRegions (.loaded ["Texas", "Ohio"]), .selectFirstAvailable,
            .setAnalysisType .statistics])).state.isLoading = false ∧
      (handleForecast sampleEnvironment
        (run initialState
          [.fetchRegions (.loaded ["Texas", "Ohio"]), .selectFirstAvailable,
            .setAnalysisType .statistics])).requests = [] :=
  (no_statistics_result
    [.fetchRegions (.loaded ["Texas", "Ohio"]), .selectFirstAvailable,
      .setAnalysisType .statistics]).2.2.2 sampleEnvironment (by decide) rfl

/-! ## The selection stays free of duplicates -/

theorem nodup_append_singleton (regions : List String) (region : String)
    (h : regions.Nodup) (hnot : ¬ region ∈ regions) : (regions ++ [region]).Nodup :=
  List.nodup_append.2 ⟨h, List.nodup_singleton region, by
    intro a ha hb
    rw [List.mem_singleton] at hb
    exact hnot (hb ▸ ha)⟩

theorem step_nodup (s : ViewState) (a : Action) (h : s.selectedRegions.Nodup) :
    (step s a).selectedRegions.Nodup := by
  cases a with
  | handleSingleRegionChange region =>
    simp only [step, handleSingleRegionChange]
    split <;> simp
  | addRegion =>
    simp only [step, addRegion]
    split
    · rename_i hc
      exact nodup_append_singleton _ _ h hc.2
    · exact h
  | removeRegion regionToRemove => exact List.Nodup.filter _ h
  | selectFirstAvailable =>
    simp only [step, selectFirstAvailable]
    split
    · simp
    · exact h
  | fetchRegions outcome => cases outcome <;> exact h
  | handleForecast env =>
    have hsame : (handleForecast env s).state.selectedRegions = s.selectedRegions := by
      simp only [handleForecast]
      split
      · rfl
      · split
        · cases forecastSingle env _ s.forecastMonths <;> rfl
        · cases forecastComparison env _ s.forecastMonths <;> rfl
        · rfl
    simp only [step]
    rw [hsame]
    exact h
  | _ => exact h

theorem mockStep_nodup (s : MockViewState) (a : MockAction) (h : s.selectedRegions.Nodup) :
    (mockStep s a).selectedRegions.Nodup := by
  cases a with
  | handleSingleRegionChange region =>
    simp only [mockStep, mockHandleSingleRegionChange]
    split <;> simp
  | addRegion =>
    simp only [mockStep, mockAddRegion]
    split
    · rename_i hc
      exact nodup_append_singleton _ _ h hc.2
    · exact h
  | removeRegion regionToRemove => exact List.Nodup.filter _ h
  | selectFirstAvailable =>
    simp only [mockStep, mockSelectFirstAvailable]
    split
    · simp
    · exact h
  | handleForecast gen =>
    have hsame : (mockHandleForecast gen s).state.selectedRegions = s.selectedRegions := by
      simp only [mockHandleForecast]
      split
      · rfl
      · split
        · rfl
        · split <;> rfl
        · rfl
    simp only [mockStep]
    rw [hsame]
    exact h
  | _ => exact h

theorem run_nodup (s : ViewState) (actions : List Action) (h : s.selectedRegions.Nodup) :
    (run s actions).selectedRegions.Nodup := by
  induction actions generalizing s with
  | nil => exact h
  | cons a rest ih => exact ih (step s a) (step_nodup s a h)

theorem mockRun_nodup (s : MockViewState) (actions : List MockAction)
    (h : s.selectedRegions.Nodup) : (mockRun s actions).selectedRegions.Nodup := by
  induction actions generalizing s with
  | nil => exact h
  | cons a rest ih => exact ih (mockStep s a) (mockStep_nodup s a h)

/-- C29: starting from the empty initial selection, every sequence of actions of the
component (the selection editors, the select-first-available effect, the other setters and
submissions) leaves `selectedRegions` free of duplicates, in both variants; `addRegion`
appends a non-empty `newRegion` that is not yet selected at the end, keeping the existing
order, and changes nothing when `newRegion` is empty or already selected. -/
theorem selectedRegions_nodup (actions : List Action) (mockActions : List MockAction)
    (s : ViewState) (m : MockViewState) :
    (run initialState actions).selectedRegions.Nodup ∧
    (mockRun mockInitialState mockActions).selectedRegions.Nodup ∧
    ((s.newRegion ≠ "" ∧ ¬ s.newRegion ∈ s.selectedRegions) →
      (addRegion s).selectedRegions = s.selectedRegions ++ [s.newRegion]) ∧
    ((s.newRegion = "" ∨ s.newRegion ∈ s.selectedRegions) → addRegion s = s) ∧
    ((m.newRegion ≠ "" ∧ ¬ m.newRegion ∈ m.selectedRegions) →
      (mockAddRegion m).selectedRegions = m.selectedRegions ++ [m.newRegion]) ∧
    ((m.newRegion = "" ∨ m.newRegion ∈ m.selectedRegions) → mockAddRegion m = m) := by
  refine ⟨run_nodup _ _ (by simp [initialState]),
    mockRun_nodup _ _ (by simp [mockInitialState]), ?_, ?_, ?_, ?_⟩
  · intro h
    simp only [addRegion, if_pos h]
  · intro h
    have hn : ¬ (s.newRegion ≠ "" ∧ ¬ s.newRegion ∈ s.selectedRegions) := by
      rintro ⟨h1, h2⟩
      rcases h with h | h
      · exact h1 h
      · exact h2 h
    simp only [addRegion, if_neg hn]
  · intro h
    simp only [mockAddRegion, if_pos h]
  · intro h
    have hn : ¬ (m.newRegion ≠ "" ∧ ¬ m.newRegion ∈ m.selectedRegions) := by
      rintro ⟨h1, h2⟩
      rcases h with h | h
      · exact h1 h
      · exact h2 h
    simp only [mockAddRegion, if_neg hn]

/-- Witness for C29: on `statisticsResultState` (Utah, Texas selected, `newRegion` Ohio)
`addRegion` gives Utah, Texas, Ohio; a second `addRegion` of Texas changes nothing. -/
theorem selectedRegions_nodup_witness :
    (addRegion statisticsResultState).selectedRegions = ["Utah", "Texas", "Ohio"] ∧
      addRegion { statisticsResultState with newRegion := "Texas" }
        = { statisticsResultState with newRegion := "Texas" } :=
  ⟨(selectedRegions_nodup [] [] statisticsResultState mockInitialState).2.2.1
      ⟨by decide, by decide⟩,
    (selectedRegions_nodup [] [] { statisticsResultState with newRegion := "Texas" }
      mockInitialState).2.2.2.1 (Or.inr (by decide))⟩

/-! ## The detail region and the compared regions -/

/-- C26: the region chosen for the detail view and the compared regions are independent.
Setting `selectedRegionForStats` leaves `selectedRegions` as it was; `addRegion` and
`removeRegion` leave `selectedRegionForStats` as it was; and on a statistics result the
quick comparison table, shown when more than one region is selected, has as rows exactly
the result entries whose region is selected, in result order, whatever
`selectedRegionForStats` is.  The same holds in the mock variant. -/
theorem statistics_detail_independent (s : ViewState) (m : MockViewState)
    (value regionToRemove : String) (data : List RegionStatistics) :
    (step s (.setSelectedRegionForStats value)).selectedRegions = s.selectedRegions ∧
    (addRegion s).selectedRegionForStats = s.selectedRegionForStats ∧
    (removeRegion s regionToRemove).selectedRegionForStats = s.selectedRegionForStats ∧
    (renderStatistics { s with forecastData := some (.statistics data) }).map
        (fun view => view.quickComparison)
      = some (if 1 < s.selectedRegions.length then
          some (data.filter fun item => s.selectedRegions.contains item.region)
        else none) ∧
    (renderStatistics
        { s with forecastData := some (.statistics data), selectedRegionForStats := value }).map
        (fun view => view.quickComparison)
      = (renderStatistics { s with forecastData := some (.statistics data) }).map
        (fun view => view.quickComparison) ∧
    (data.filter fun item => s.selectedRegions.contains item.region).Sublist data ∧
    (∀ item : RegionStatistics,
      item ∈ (data.filter fun item => s.selectedRegions.contains item.region)
        ↔ item ∈ data ∧ item.region ∈ s.selectedRegions) ∧
    (mockStep m (.setSelectedRegionForStats value)).selectedRegions = m.selectedRegions ∧
    (mockAddRegion m).selectedRegionForStats = m.selectedRegionForStats ∧
    (mockRemoveRegion m regionToRemove).selectedRegionForStats = m.selectedRegionForStats ∧
    (mockRenderStatistics
        { m with forecastData := some (.statistics data), selectedRegionForStats := value }).map
        (fun view => view.quickComparison)
      = some (if 1 < m.selectedRegions.length then
          some (data.filter fun item => m.selectedRegions.contains item.region)
        else none) := by
  refine ⟨rfl, ?_, rfl, rfl, rfl, List.filter_sublist _, ?_, rfl, ?_, rfl, rfl⟩
  · simp only [addRegion]
    split <;> rfl
  · intro item
    simp [List.mem_filter]
  · simp only [mockAddRegion]
    split <;> rfl

/-! ## Comparison mode of the mock variant -/

/-- C23, as the code has it: in the mock variant a comparison submission with at least
two selected regions replaces `forecastData`, whatever it was, by a comparison result
holding one generated series for each of the first five selected regions, in selection
order and tagged with its region (for two to five regions: one per selected region); with
a single selected region nothing is generated and `forecastData` stays as it was. -/
theorem mockHandleForecast_comparison (gen : MockGenerators) (s : MockViewState)
    (hmode : s.analysisType = .comparison) :
    (2 ≤ s.selectedRegions.length →
      (mockHandleForecast gen s).state.forecastData
        = some (.comparison ((s.selectedRegions.take 5).map fun r =>
            { region := r, data := gen.generateMockForecastData r s.forecastDays false })) ∧
      (∀ previous : Option MockForecastData,
        (mockHandleForecast gen { s with forecastData := previous }).state.forecastData
          = (mockHandleForecast gen s).state.forecastData) ∧
      (s.selectedRegions.length ≤ 5 →
        (mockHandleForecast gen s).state.forecastData
          = some (.comparison (s.selectedRegions.map fun r =>
              { region := r, data := gen.generateMockForecastData r s.forecastDays false })))) ∧
    (s.selectedRegions.length = 1 →
      (mockHandleForecast gen s).state.forecastData = s.forecastData ∧
      (mockHandleForecast gen s).calls = []) := by
  obtain ⟨selected, days, mode, stored, loading, err, forStats, newRegion⟩ := s
  simp only at hmode
  subst hmode
  constructor
  · intro hlen
    cases selected with
    | nil => simp at hlen
    | cons region others =>
      have hlen' : 2 ≤ (region :: others).length := hlen
      refine ⟨?_, ?_, ?_⟩
      · simp only [mockHandleForecast, if_pos hlen']
      · intro previous
        simp only [mockHandleForecast, if_pos hlen']
      · intro h5
        have htake : (region :: others).take 5 = region :: others :=
          List.take_of_length_le h5
        simp only [mockHandleForecast, if_pos hlen', htake]
  · intro hlen
    cases selected with
    | nil => simp at hlen
    | cons region others =>
      have hlen' : ¬ 2 ≤ (region :: others).length := by
        have : (region :: others).length = 1 := hlen
        omega
      simp only [mockHandleForecast, if_neg hlen']
      exact ⟨trivial, trivial⟩

/-- Witness for the amended C23 on `mockSixRegionState`: the sixth region, Idaho, gets no
series; on `mockOneRegionState` the earlier result stays. -/
theorem mockHandleForecast_comparison_witness :
    (mockHandleForecast sampleGenerators mockSixRegionState).state.forecastData
        = some (.comparison ((mockSixRegionState.selectedRegions.take 5).map fun r =>
            { region := r
              data := sampleGenerators.generateMockForecastData r
                mockSixRegionState.forecastDays false })) ∧
      (mockHandleForecast sampleGenerators mockOneRegionState).state.forecastData
        = mockOneRegionState.forecastData :=
  ⟨((mockHandleForecast_comparison sampleGenerators mockSixRegionState rfl).1
      (by decide)).1,
    ((mockHandleForecast_comparison sampleGenerators mockOneRegionState rfl).2 rfl).1⟩

/-- C23 as stated fails: with the single region Texas selected, a comparison submission of
the mock variant stores no comparison result and the earlier single-mode result stays;
with six regions selected the stored result has five entries. -/
theorem mock_comparison_counterexample :
    (mockHandleForecast sampleGenerators mockOneRegionState).state.forecastData
        = some (.single "Ohio" sampleSeries) ∧
      ((mockHandleForecast sampleGenerators mockSixRegionState).state.forecastData.map
        fun stored =>
          match stored with
          | .comparison data => data.map fun entry => entry.region
          | _ => []) = some ["Texas", "Ohio", "Utah", "Iowa", "Maine"] := by
  constructor
  · rfl
  · rfl

/-! ## The two computations of the summary agree -/

theorem dropWhile_combinedData (data : ForecastResponse) :
    ((combinedData data).dropWhile fun d => !truthy d.isForecast)
      = forecastDataTransformed data := by
  rw [combinedData, List.dropWhile_append_of_pos
    (fun a ha => by simp [(mem_historicalData ha).2, truthy])]
  cases hcase : forecastDataTransformed data with
  | nil => rfl
  | cons f fs =>
    have hfm : f ∈ forecastDataTransformed data := by rw [hcase]; exact List.mem_cons_self _ _
    simp [List.dropWhile, (mem_forecastDataTransformed hfm).2, truthy]

/-- C28: on a series built by the live normaliser from a response with a non-empty
forecast list, the statistics `renderSingleForecast` computes inline from the `isForecast`
filter equal, field for field, those `getForecastSummary` returns: first and last value,
total change, percent change, maximum, minimum and number of periods. -/
theorem inline_statistics_eq_summary (data : ForecastResponse) (region : String)
    (d1 d2 d3 : JSDate) (h : data.forecast ≠ []) :
    ∃ (summary : ForecastSummary) (stats : SingleForecastStats),
      getForecastSummary (some (combinedData data)) = some summary ∧
      renderSingleForecast (some (.single region (combinedData data) d1 d2 d3)) = some stats ∧
      toNumber stats.firstForecastValue = summary.forecast_start_value ∧
      toNumber stats.lastForecastValue = summary.forecast_end_value ∧
      stats.totalChange = summary.total_change ∧
      stats.percentChange = summary.percent_change ∧
      stats.maxValue = summary.max_forecast ∧
      stats.minValue = summary.min_forecast ∧
      (stats.forecastOnlyData.length : Int) = summary.forecast_periods := by
  have hFne : forecastDataTransformed data ≠ [] := by
    intro hnil
    apply h
    have := congrArg List.length hnil
    rw [forecastDataTransformed_length] at this
    exact List.length_eq_zero.1 this
  obtain ⟨f0, hf0⟩ := List.exists_mem_of_ne_nil _ hFne
  have hex : ∃ p ∈ combinedData data, truthy p.isForecast = true :=
    ⟨f0, List.mem_append_right _ hf0, by simp [(mem_forecastDataTransformed hf0).2, truthy]⟩
  obtain ⟨i, first, last, hi, hget, hfind, hlast, hdrop, hlt⟩ := exists_first_last _ hex
  have hsuffix := dropWhile_combinedData data
  have hfilter := filter_isForecast_combinedData data
  have hdropF : (combinedData data).drop i = forecastDataTransformed data := by
    rw [← hdrop]; exact hsuffix
  have hlastF : (forecastDataTransformed data).getLast? = some last := by
    rw [← hdropF, List.getLast?_drop, if_neg (by omega)]
    exact hlast
  have hlastFilter :
      ((combinedData data).filter fun d => truthy d.isForecast).getLast? = some last := by
    rw [hfilter]; exact hlastF
  refine ⟨_, _, getForecastSummary_some _ i first last hi hget hlast,
    renderSingleForecast_single region _ d1 d2 d3 first last hfind hlastFilter,
    rfl, rfl, rfl, rfl, ?_, ?_, ?_⟩
  · show mathMax (((combinedData data).filter fun d => truthy d.isForecast).map
        fun d => JSNum.fin d.yhat)
      = mathMax (((combinedData data).drop i).map fun d => JSNum.fin d.yhat)
    rw [hfilter, hdropF]
  · show mathMin (((combinedData data).filter fun d => truthy d.isForecast).map
        fun d => JSNum.fin d.yhat)
      = mathMin (((combinedData data).drop i).map fun d => JSNum.fin d.yhat)
    rw [hfilter, hdropF]
  · show ((((combinedData data).filter fun d => truthy d.isForecast).length : Nat) : Int)
      = ((combinedData data).length : Int) - (i : Int)
    have hlen : (combinedData data).length - i = (forecastDataTransformed data).length := by
      rw [← List.length_drop, hdropF]
    rw [hfilter]
    omega

/-- Witness for C28 on `sampleResponse`. -/
theorem inline_statistics_eq_summary_witness :
    ∃ (summary : ForecastSummary) (stats : SingleForecastStats),
      getForecastSummary (some (combinedData sampleResponse)) = some summary ∧
      renderSingleForecast
          (some (.single "Texas" (combinedData sampleResponse) ⟨"2024-01-01"⟩ ⟨"2024-04-01"⟩
            ⟨"2024-03-01"⟩)) = some stats ∧
      toNumber stats.firstForecastValue = summary.forecast_start_value ∧
      toNumber stats.lastForecastValue = summary.forecast_end_value ∧
      stats.totalChange = summary.total_change ∧
      stats.percentChange = summary.percent_change ∧
      stats.maxValue = summary.max_forecast ∧
      stats.minValue = summary.min_forecast ∧
      (stats.forecastOnlyData.length : Int) = summary.forecast_periods :=
  inline_statistics_eq_summary sampleResponse "Texas" ⟨"2024-01-01"⟩ ⟨"2024-04-01"⟩
    ⟨"2024-03-01"⟩ (by simp [sampleResponse])

theorem digit_not_whitespace (c : Char) (h : isAsciiDigit c = true) :
    isJsWhitespace c = false := by
  simp only [isAsciiDigit, isJsWhitespace, decide_eq_true_eq, decide_eq_false_iff_not] at *
  omega

theorem letterB_not_digit (c : Char) (h : isLetterB c = true) : isAsciiDigit c = false := by
  simp only [isAsciiDigit, isLetterB, decide_eq_true_eq, decide_eq_false_iff_not] at *
  omega

theorem whitespace_not_digit (c : Char) (h : isJsWhitespace c = true) :
    isAsciiDigit c = false := by
  simp only [isAsciiDigit, isJsWhitespace, decide_eq_true_eq, decide_eq_false_iff_not] at *
  omega

theorem letterB_not_whitespace (c : Char) (h : isLetterB c = true) :
    isJsWhitespace c = false := by
  simp only [isLetterB, isJsWhitespace, decide_eq_true_eq, decide_eq_false_iff_not] at *
  omega

theorem takeWhile_run (p : Char → Bool) (run rest : List Char)
    (hrun : ∀ c ∈ run, p c = true) (hrest : ∀ c, rest.head? = some c → p c = false) :
    (run ++ rest).takeWhile p = run ∧ (run ++ rest).dropWhile p = rest := by
  induction run with
  | nil =>
    cases rest with
    | nil => simp
    | cons c r =>
      have hc := hrest c rfl
      simp [List.takeWhile, List.dropWhile, hc]
  | cons d ds ih =>
    have hd := hrun d (List.mem_cons_self d ds)
    have ih' := ih (fun c hc => hrun c (List.mem_cons_of_mem d hc))
    simp [List.takeWhile, List.dropWhile, hd, ih'.1, ih'.2]

theorem matchBHKAt_of_place (chars digits : List Char) (h : BHKPlace chars digits) :
    matchBHKAt chars = some digits := by
  obtain ⟨ws, b, hh, k, rest, hchars, hne, hdigits, hws, hb, hH, hk⟩ := h
  have h1 := takeWhile_run isAsciiDigit digits (ws ++ b :: hh :: k :: rest) hdigits (by
    intro c hc
    cases ws with
    | nil =>
      simp at hc
      subst hc
      exact letterB_not_digit _ hb
    | cons w ws' =>
      simp at hc
      subst hc
      exact whitespace_not_digit _ (hws _ (List.mem_cons_self _ _)))
  have h2 := takeWhile_run isJsWhitespace ws (b :: hh :: k :: rest) hws (by
    intro c hc
    simp at hc
    subst hc
    exact letterB_not_whitespace _ hb)
  subst hchars
  cases digits with
  | nil => exact absurd rfl hne
  | cons d ds =>
    unfold matchBHKAt
    rw [h1.1, h1.2]
    simp only [h2.2, hb, hH, hk, Bool.and_self, if_true]

theorem place_of_matchBHKAt (chars digits : List Char) (h : matchBHKAt chars = some digits) :
    BHKPlace chars digits := by
  unfold matchBHKAt at h
  cases hd : chars.takeWhile isAsciiDigit with
  | nil => rw [hd] at h; simp at h
  | cons d ds =>
    rw [hd] at h
    simp only at h
    cases hrest : (chars.dropWhile isAsciiDigit).dropWhile isJsWhitespace with
    | nil => rw [hrest] at h; simp at h
    | cons b r1 =>
      cases r1 with
      | nil => rw [hrest] at h; simp at h
      | cons hh r2 =>
        cases r2 with
        | nil => rw [hrest] at h; simp at h
        | cons k rest =>
          rw [hrest] at h
          simp only at h
          by_cases hcond : (isLetterB b && isLetterH hh && isLetterK k) = true
          · rw [if_pos hcond] at h
            simp only [Option.some.injEq] at h
            simp only [Bool.and_eq_true] at hcond
            refine ⟨(chars.dropWhile isAsciiDigit).takeWhile isJsWhitespace, b, hh, k, rest,
              ?_, ?_, ?_, ?_, hcond.1.1, hcond.1.2, hcond.2⟩
            · rw [← hrest, List.takeWhile_append_dropWhile, ← h, ← hd,
                List.takeWhile_append_dropWhile]
            · rw [← h]; simp
            · intro c hc
              rw [← h, ← hd] at hc
              exact (List.mem_takeWhile_imp hc)
            · intro c hc
              exact (List.mem_takeWhile_imp hc)
          · rw [if_neg hcond] at h
            simp at h

theorem searchBHK_eq_none (chars : List Char) :
    searchBHK chars = none ↔
      ∀ pre suffix, chars = pre ++ suffix → matchBHKAt suffix = none := by
  induction chars with
  | nil =>
    constructor
    · intro _ pre suffix h
      have hs : suffix = [] := (List.append_eq_nil.mp h.symm).2
      subst hs
      rfl
    · intro _
      rfl
  | cons c rest ih =>
    constructor
    · intro h pre suffix hsplit
      simp only [searchBHK] at h
      cases hm : matchBHKAt (c :: rest) with
      | some d => rw [hm] at h; simp at h
      | none =>
        rw [hm] at h
        simp only at h
        cases pre with
        | nil =>
          simp only [List.nil_append] at hsplit
          rw [← hsplit]
          exact hm
        | cons p pre' =>
          simp only [List.cons_append, List.cons.injEq] at hsplit
          exact ih.mp h pre' suffix hsplit.2
    · intro h
      simp only [searchBHK]
      rw [h [] (c :: rest) rfl]
      simp only
      exact ih.mpr (fun pre suffix hsplit => h (c :: pre) suffix (by rw [hsplit]; rfl))

theorem searchBHK_eq_some (chars digits : List Char) (h : searchBHK chars = some digits) :
    ∃ pre suffix, chars = pre ++ suffix ∧ matchBHKAt suffix = some digits ∧
      ∀ pre' suffix', chars = pre' ++ suffix' → pre'.length < pre.length →
        matchBHKAt suffix' = none := by
  induction chars with
  | nil => simp [searchBHK] at h
  | cons c rest ih =>
    simp only [searchBHK] at h
    cases hm : matchBHKAt (c :: rest) with
    | some d =>
      rw [hm] at h
      simp only [Option.some.injEq] at h
      subst h
      exact ⟨[], c :: rest, rfl, hm, fun pre' _ _ hlt => absurd hlt (Nat.not_lt_zero _)⟩
    | none =>
      rw [hm] at h
      simp only at h
      obtain ⟨pre, suffix, hsplit, hmatch, hleft⟩ := ih h
      refine ⟨c :: pre, suffix, by rw [hsplit]; rfl, hmatch, ?_⟩
      intro pre' suffix' hsplit' hlt
      cases pre' with
      | nil =>
        simp only [List.nil_append] at hsplit'
        rw [← hsplit']
        exact hm
      | cons p pre'' =>
        simp only [List.cons_append, List.cons.injEq] at hsplit'
        exact hleft pre'' suffix' hsplit'.2 (by simpa using hlt)

theorem place_extend_left (c : Char) (suffix digits : List Char)
    (hc : isAsciiDigit c = true) (h : BHKPlace suffix digits) :
    BHKPlace (c :: suffix) (c :: digits) := by
  obtain ⟨ws, b, hh, k, rest, hchars, _, hdigits, hws, hb, hH, hk⟩ := h
  refine ⟨ws, b, hh, k, rest, by rw [hchars]; rfl, by simp, ?_, hws, hb, hH, hk⟩
  intro x hx
  cases List.mem_cons.mp hx with
  | inl hxc => rw [hxc]; exact hc
  | inr hxd => exact hdigits x hxd

theorem ulpExponent_spec (fuel n : Nat) (h : n ≤ fuel) :
    n / 2 ^ ulpExponent fuel n < 2 ^ 53 ∧
      (0 < ulpExponent fuel n → 2 ^ 52 ≤ n / 2 ^ ulpExponent fuel n) := by
  induction fuel generalizing n with
  | zero =>
    have hn : n = 0 := Nat.le_zero.mp h
    subst hn
    simp [ulpExponent]
  | succ fuel ih =>
    by_cases hsmall : n < 2 ^ 53
    · simp only [ulpExponent, if_pos hsmall, pow_zero, Nat.div_one]
      exact ⟨hsmall, fun h0 => absurd h0 (Nat.lt_irrefl 0)⟩
    · simp only [ulpExponent, if_neg hsmall]
      have hbig : 2 ^ 53 ≤ n := Nat.le_of_not_lt hsmall
      have hhalf : n / 2 ≤ fuel := by
        have : (2 : Nat) ^ 53 = 9007199254740992 := by norm_num
        omega
      have hdiv : n / 2 ^ (ulpExponent fuel (n / 2) + 1)
          = n / 2 / 2 ^ ulpExponent fuel (n / 2) := by
        rw [pow_succ, Nat.mul_comm, Nat.div_div_eq_div_mul]
      rw [hdiv]
      obtain ⟨h1, h2⟩ := ih (n / 2) hhalf
      refine ⟨h1, fun _ => ?_⟩
      by_cases he : 0 < ulpExponent fuel (n / 2)
      · exact h2 he
      · have he0 : ulpExponent fuel (n / 2) = 0 := by omega
        rw [he0, pow_zero, Nat.div_one]
        have : (2 : Nat) ^ 53 = 9007199254740992 := by norm_num
        have : (2 : Nat) ^ 52 = 4503599627370496 := by norm_num
        omega

theorem ulpExponent_small (fuel n : Nat) (h : n < 2 ^ 53) : ulpExponent fuel n = 0 := by
  cases fuel with
  | zero => rfl
  | succ fuel => simp only [ulpExponent, if_pos h]

theorem nearestDouble_exact (n : Nat) (h : n ≤ 2 ^ 53) : nearestDouble n = n := by
  rcases Nat.lt_or_ge n (2 ^ 53) with hlt | hge
  · simp [nearestDouble, ulpExponent_small n n hlt, Nat.mod_one]
  · have hn : n = 2 ^ 53 := Nat.le_antisymm h hge
    subst hn
    decide

theorem nearestDouble_error (n : Nat) :
    2 ^ 53 * (nearestDouble n - n) ≤ n ∧ 2 ^ 53 * (n - nearestDouble n) ≤ n := by
  obtain ⟨-, hlow⟩ := ulpExponent_spec n n (Nat.le_refl n)
  unfold nearestDouble
  simp only
  generalize ulpExponent n n = e at hlow ⊢
  have hsplit : 2 ^ e * (n / 2 ^ e) + n % 2 ^ e = n := Nat.div_add_mod n (2 ^ e)
  have hr : n % 2 ^ e < 2 ^ e := Nat.mod_lt _ (Nat.two_pow_pos e)
  rcases Nat.eq_zero_or_pos e with he | he
  · subst he
    simp [Nat.mod_one]
  · have hq := hlow he
    have hX : 2 ^ 52 * 2 ^ e ≤ n / 2 ^ e * 2 ^ e := Nat.mul_le_mul_right _ hq
    have hcomm : 2 ^ e * (n / 2 ^ e) = n / 2 ^ e * 2 ^ e := Nat.mul_comm _ _
    have hsucc : (n / 2 ^ e + 1) * 2 ^ e = n / 2 ^ e * 2 ^ e + 2 ^ e := by
      rw [Nat.add_mul, Nat.one_mul]
    have h52 : (2 : Nat) ^ 52 = 4503599627370496 := by norm_num
    have h53 : (2 : Nat) ^ 53 = 9007199254740992 := by norm_num
    rw [hcomm] at hsplit
    rw [h52] at hX
    rw [h53]
    generalize n / 2 ^ e * 2 ^ e = X at hsplit hX hsucc ⊢
    generalize hE : 2 ^ e = E at hsplit hr hX hsucc ⊢
    generalize n % E = r at hsplit hr ⊢
    generalize n / E = q at hsucc ⊢
    split
    · rename_i hdown
      constructor
      · omega
      · rcases hdown with hd | ⟨hd, -⟩ <;> omega
    · rename_i hup
      rw [hsucc]
      have hup' : E ≤ 2 * r := by
        by_contra hc
        exact hup (Or.inl (Nat.lt_of_not_le hc))
      constructor <;> omega

theorem lt_two_pow_1024 (n : Nat) (h : n ≤ 2 ^ 53) : n < 2 ^ 1024 := by
  apply Nat.lt_of_le_of_lt h
  apply Nat.pow_lt_pow_right <;> decide

theorem parseIntDigits_spec (digits : List Char) :
    (decimal digits ≤ 2 ^ 53 → parseIntDigits digits = .fin (decimal digits : ℕ)) ∧
    ((∃ m : ℕ, parseIntDigits digits = .fin (m : ℚ) ∧
        2 ^ 53 * (m - decimal digits) ≤ decimal digits ∧
        2 ^ 53 * (decimal digits - m) ≤ decimal digits) ∨
      (parseIntDigits digits = .posInf ∧ 2 ^ 1023 ≤ decimal digits)) := by
  constructor
  · intro h
    have hlt : decimal digits < 2 ^ 1024 := lt_two_pow_1024 _ h
    simp only [parseIntDigits, nearestDouble_exact _ h, if_pos hlt]
  · have herr := nearestDouble_error (decimal digits)
    by_cases hlt : nearestDouble (decimal digits) < 2 ^ 1024
    · exact Or.inl ⟨nearestDouble (decimal digits), by simp only [parseIntDigits, if_pos hlt],
        herr.1, herr.2⟩
    · refine Or.inr ⟨by simp only [parseIntDigits, if_neg hlt], ?_⟩
      have hge : 2 ^ 1024 ≤ nearestDouble (decimal digits) := Nat.le_of_not_lt hlt
      have h1024 : (2 : Nat) ^ 1024 = 2 * 2 ^ 1023 := by rw [pow_succ, Nat.mul_comm]
      have h53 : 1 ≤ (2 : Nat) ^ 53 := Nat.one_le_two_pow
      have hmul : 1 * (nearestDouble (decimal digits) - decimal digits)
          ≤ 2 ^ 53 * (nearestDouble (decimal digits) - decimal digits) :=
        Nat.mul_le_mul_right _ h53
      rw [h1024] at hge
      generalize (2 : Nat) ^ 1023 = B at hge ⊢
      generalize (2 : Nat) ^ 53 * (nearestDouble (decimal digits) - decimal digits) = D
        at hmul herr
      omega

theorem extractBHK_of_search (title : String) (digits : List Char) (n : Nat)
    (hsearch : searchBHK title.toList = some digits) (hval : decimal digits = n)
    (hsmall : n ≤ 2 ^ 53) : extractBHK title = some (.fin (n : ℚ)) := by
  subst hval
  simp only [extractBHK, hsearch, Option.map_some', (parseIntDigits_spec digits).1 hsmall]

/-- Claim C27, against the claim as written: the leftmost BHK place of the title
`'9007199254740993 BHK'` holds the digit run of the integer 9007199254740993, and
`extractBHK` returns 9007199254740992. -/
theorem extractBHK_rounds :
    searchBHK "9007199254740993 BHK".toList = some "9007199254740993".toList ∧
    decimal "9007199254740993".toList = 9007199254740993 ∧
    extractBHK "9007199254740993 BHK" = some (.fin 9007199254740992) := by
  refine ⟨by decide, by decide, ?_⟩
  have hsearch : searchBHK "9007199254740993 BHK".toList
      = some "9007199254740993".toList := by decide
  have hround : nearestDouble (decimal "9007199254740993".toList) = 9007199254740992 := by
    decide
  have hlt : (9007199254740992 : Nat) < 2 ^ 1024 := lt_two_pow_1024 _ (by decide)
  simp only [extractBHK, hsearch, Option.map_some', parseIntDigits, hround, if_pos hlt]
  norm_num

/-- Claim C27, amended. For every property title, `extractBHK` returns `null` exactly when
the title has no place where a digit run is followed by optional white space and the
letters BHK in any letter case.  When it returns a number, the number belongs to the
digit run of such a place, the run is whole (no digit stands right before it, and what
follows it is white space or the letter B) and no such place starts further left; the
number is the integer the run denotes when that is at most `2 ^ 53`, and otherwise that
integer rounded to a double: an integer within a relative error of `2 ^ -53` of it, or
`Infinity`, the latter only from `2 ^ 1023` on. -/
theorem extractBHK_spec (title : String) :
    (extractBHK title = none ↔
      ¬ ∃ pre suffix digits, title.toList = pre ++ suffix ∧ BHKPlace suffix digits) ∧
    (∀ v, extractBHK title = some v →
      ∃ pre suffix digits, title.toList = pre ++ suffix ∧ BHKPlace suffix digits ∧
        (decimal digits ≤ 2 ^ 53 → v = .fin (decimal digits : ℕ)) ∧
        ((∃ m : ℕ, v = .fin (m : ℚ) ∧
            2 ^ 53 * (m - decimal digits) ≤ decimal digits ∧
            2 ^ 53 * (decimal digits - m) ≤ decimal digits) ∨
          (v = .posInf ∧ 2 ^ 1023 ≤ decimal digits)) ∧
        (∀ c, pre.getLast? = some c → isAsciiDigit c = false) ∧
        (∀ pre' suffix' digits', title.toList = pre' ++ suffix' → BHKPlace suffix' digits' →
          pre.length ≤ pre'.length)) := by
  constructor
  · unfold extractBHK
    rw [Option.map_eq_none', searchBHK_eq_none]
    constructor
    · intro h ⟨pre, suffix, digits, hsplit, hplace⟩
      have := h pre suffix hsplit
      rw [matchBHKAt_of_place suffix digits hplace] at this
      simp at this
    · intro h pre suffix hsplit
      cases hm : matchBHKAt suffix with
      | none => rfl
      | some d => exact absurd ⟨pre, suffix, d, hsplit, place_of_matchBHKAt suffix d hm⟩ h
  · intro v hv
    unfold extractBHK at hv
    rw [Option.map_eq_some'] at hv
    obtain ⟨digits, hsearch, hval⟩ := hv
    obtain ⟨pre, suffix, hsplit, hmatch, hleft⟩ := searchBHK_eq_some _ _ hsearch
    have hplace := place_of_matchBHKAt suffix digits hmatch
    have hleftmost : ∀ pre' suffix' digits', title.toList = pre' ++ suffix' →
        BHKPlace suffix' digits' → pre.length ≤ pre'.length := by
      intro pre' suffix' digits' hsplit' hplace'
      by_contra hlt
      have := hleft pre' suffix' hsplit' (Nat.lt_of_not_le hlt)
      rw [matchBHKAt_of_place suffix' digits' hplace'] at this
      simp at this
    have hspec := parseIntDigits_spec digits
    rw [hval] at hspec
    refine ⟨pre, suffix, digits, hsplit, hplace, hspec.1, hspec.2, ?_, hleftmost⟩
    intro c hc
    cases hdc : isAsciiDigit c with
    | false => rfl
    | true =>
      exfalso
      obtain ⟨pre0, hpre0⟩ : ∃ pre0, pre = pre0 ++ [c] := by
        rcases List.eq_nil_or_concat pre with hnil | ⟨l, a, hla⟩
        · rw [hnil] at hc; simp at hc
        · rw [hla] at hc
          simp at hc
          exact ⟨l, by rw [hla, hc]; simp⟩
      have h1 := hleftmost pre0 (c :: suffix) (c :: digits)
        (by rw [hsplit, hpre0]; simp) (place_extend_left c suffix digits hdc hplace)
      rw [hpre0] at h1
      simp at h1

/-- Claim C27, at the titles the description names: `'2 BHK Flat in Andheri'` gives 2,
`'3bhk villa'` gives 3, `'Flat in Andheri'` gives `null`; and the general statement
applied to the first title. -/
theorem extractBHK_spec_witness :
    extractBHK "2 BHK Flat in Andheri" = some (.fin 2) ∧
    extractBHK "3bhk villa" = some (.fin 3) ∧
    extractBHK "Flat in Andheri" = none ∧
    ∃ pre suffix digits, "2 BHK Flat in Andheri".toList = pre ++ suffix ∧
      BHKPlace suffix digits ∧
      (decimal digits ≤ 2 ^ 53 → JSNum.fin 2 = .fin (decimal digits : ℕ)) ∧
      ((∃ m : ℕ, JSNum.fin 2 = .fin (m : ℚ) ∧
          2 ^ 53 * (m - decimal digits) ≤ decimal digits ∧
          2 ^ 53 * (decimal digits - m) ≤ decimal digits) ∨
        (JSNum.fin 2 = .posInf ∧ 2 ^ 1023 ≤ decimal digits)) ∧
      (∀ c, pre.getLast? = some c → isAsciiDigit c = false) ∧
      (∀ pre' suffix' digits', "2 BHK Flat in Andheri".toList = pre' ++ suffix' →
        BHKPlace suffix' digits' → pre.length ≤ pre'.length) :=
  have h2 : extractBHK "2 BHK Flat in Andheri" = some (.fin 2) := by
    have := extractBHK_of_search "2 BHK Flat in Andheri" ['2'] 2 (by decide) (by decide)
      (by decide)
    simpa using this
  have h3 : extractBHK "3bhk villa" = some (.fin 3) := by
    have := extractBHK_of_search "3bhk villa" ['3'] 3 (by decide) (by decide) (by decide)
    simpa using this
  ⟨h2, h3, by decide, (extractBHK_spec "2 BHK Flat in Andheri").2 (.fin 2) h2⟩

theorem splitComma_shape (chars : List Char) :
    ∃ before after, chars = before ++ after ∧ ¬ ',' ∈ after ∧
      ((before = [] ∧ splitComma chars = [after]) ∨
        (before.getLast? = some ',' ∧
          ∃ first others, splitComma chars = first :: others ∧
            others.getLast? = some after)) := by
  induction chars with
  | nil => exact ⟨[], [], rfl, by simp, Or.inl ⟨rfl, rfl⟩⟩
  | cons c rest ih =>
    obtain ⟨before, after, hsplit, hno, hshape⟩ := ih
    by_cases hc : c = ','
    · refine ⟨c :: before, after, by rw [hsplit]; rfl, hno, Or.inr ⟨?_, ?_⟩⟩
      · rcases hshape with ⟨hnil, _⟩ | ⟨hlast, _⟩
        · rw [hnil, hc]; rfl
        · cases before with
          | nil => simp at hlast
          | cons b bs => rw [List.getLast?_cons_cons]; exact hlast
      · rcases hshape with ⟨_, hparts⟩ | ⟨_, first, others, hparts, hlast⟩
        · exact ⟨[], [after], by simp [splitComma, hc, hparts], rfl⟩
        · refine ⟨[], first :: others, by simp [splitComma, hc, hparts], ?_⟩
          cases others with
          | nil => simp at hlast
          | cons o os => rw [List.getLast?_cons_cons]; exact hlast
    · rcases hshape with ⟨hnil, hparts⟩ | ⟨hlast, first, others, hparts, hlast'⟩
      · refine ⟨[], c :: after, by rw [hsplit, hnil]; rfl, ?_, Or.inl ⟨rfl, ?_⟩⟩
        · intro hmem
          cases List.mem_cons.mp hmem with
          | inl h => exact hc h.symm
          | inr h => exact hno h
        · simp [splitComma, hc, hparts]
      · refine ⟨c :: before, after, by rw [hsplit]; rfl, hno, Or.inr ⟨?_, ?_⟩⟩
        · cases before with
          | nil => simp at hlast
          | cons b bs => rw [List.getLast?_cons_cons]; exact hlast
        · exact ⟨c :: first, others, by simp [splitComma, hc, hparts], hlast'⟩

theorem splitComma_getLast (chars : List Char) :
    ∃ before after, chars = before ++ after ∧ ¬ ',' ∈ after ∧
      (before = [] ∨ before.getLast? = some ',') ∧
      (splitComma chars).getLast? = some after := by
  obtain ⟨before, after, hsplit, hno, hshape⟩ := splitComma_shape chars
  refine ⟨before, after, hsplit, hno, ?_, ?_⟩
  · rcases hshape with ⟨h, _⟩ | ⟨h, _⟩
    · exact Or.inl h
    · exact Or.inr h
  · rcases hshape with ⟨_, h⟩ | ⟨_, first, others, h, hlast⟩
    · rw [h]; rfl
    · rw [h]
      cases others with
      | nil => simp at hlast
      | cons o os => rw [List.getLast?_cons_cons]; exact hlast

theorem string_mk_eq_empty (chars : List Char) : String.mk chars = "" ↔ chars = [] := by
  constructor
  · intro h
    have := congrArg String.data h
    simpa using this
  · intro h
    rw [h]

theorem extractBHK_not_nan (title : String) : extractBHK title ≠ some .nan := by
  intro h
  unfold extractBHK at h
  rw [Option.map_eq_some'] at h
  obtain ⟨digits, -, hval⟩ := h
  unfold parseIntDigits at hval
  split at hval <;> exact absurd hval (by simp)

/-- Claim C25, against the claim as written: the title `'0 BHK Flat'` has a BHK place, so
`extractBHK` finds the number 0, and yet the body sent carries `BHK: 2`. -/
theorem requestData_zero_bhk :
    extractBHK zeroBhkForm.propertyTitle = some (.fin 0) ∧
    (submitPrediction samplePriceServer zeroBhkForm).requests.map PriceRequest.BHK
      = [.fin 2] := by
  have h0 : extractBHK zeroBhkForm.propertyTitle = some (.fin 0) := by
    have := extractBHK_of_search "0 BHK Flat" ['0'] 0 (by decide) (by decide) (by decide)
    simpa using this
  refine ⟨h0, ?_⟩
  simp only [submitPrediction, requestData, List.map_cons, List.map_nil, h0, orNumber,
    if_true]

/-- Claim C25, amended. The live `handleSubmit` sends exactly one body, with the seven
fields `Location`, `City`, `BHK`, `Total_Area`, `Price_per_SQFT`, `Bathroom`, `Balcony`:
`Location` is the location unchanged; `City` is the trimmed text after the last comma of
the location (the whole trimmed location without a comma; what `extractCity` returns), or
`'Unknown'` when that text is empty; `BHK` is the number `extractBHK` finds, or 2 when it
finds none or finds 0; `Total_Area` is the area; `Price_per_SQFT` is 5000; `Bathroom` is
the bathroom count, provided the count is below `10 ^ 21` in magnitude; `Balcony` is true
exactly when the balcony choice is `'Yes'`. -/
theorem requestData_spec (fetch : PriceRequest → FetchResult PredictionResult)
    (s : PredictionState) (hbaths : s.baths.natAbs < 10 ^ 21) :
    ∃ (before after : List Char) (bhk : JSNum),
      s.location.toList = before ++ after ∧ ¬ ',' ∈ after ∧
      (before = [] ∨ before.getLast? = some ',') ∧
      extractCity s.location = String.mk (trim after) ∧
      (extractBHK s.propertyTitle = none → bhk = .fin 2) ∧
      (extractBHK s.propertyTitle = some (.fin 0) → bhk = .fin 2) ∧
      (∀ v, v ≠ .fin 0 → extractBHK s.propertyTitle = some v → bhk = v) ∧
      (submitPrediction fetch s).requests =
        [{ Location := s.location
           City := if trim after = [] then "Unknown" else String.mk (trim after)
           BHK := bhk
           Total_Area := s.totalArea
           Price_per_SQFT := 5000
           Bathroom := s.baths
           Balcony := decide (s.balcony = "Yes") }] := by
  obtain ⟨before, after, hsplit, hno, hbefore, hlast⟩ := splitComma_getLast s.location.toList
  refine ⟨before, after, orNumber (extractBHK s.propertyTitle) (.fin 2), hsplit, hno,
    hbefore, ?_, ?_, ?_, ?_, ?_⟩
  · simp only [extractCity, hlast]
  · intro h
    rw [h]
    rfl
  · intro h
    rw [h]
    simp only [orNumber, if_true]
  · intro v hv h
    have hnan := extractBHK_not_nan s.propertyTitle
    rw [h] at hnan ⊢
    cases v with
    | fin q =>
      have hq : q ≠ 0 := fun hq => hv (by rw [hq])
      simp only [orNumber, if_neg hq]
    | posInf => rfl
    | negInf => rfl
    | nan => exact absurd rfl hnan
  · simp only [submitPrediction, requestData, hlast, Option.map_some', orDefault,
      string_mk_eq_empty, parseIntOfInteger, if_pos hbaths]
    rfl

/-- Claim C25, amended, at the sample form: one body with `City: 'Mumbai'` and `BHK: 2`. -/
theorem requestData_spec_witness :
    sampleForm.baths.natAbs < 10 ^ 21 ∧
    extractBHK sampleForm.propertyTitle = some (.fin 2) ∧
    extractCity sampleForm.location = "Mumbai" ∧
    ∃ (before after : List Char) (bhk : JSNum),
      sampleForm.location.toList = before ++ after ∧ ¬ ',' ∈ after ∧
      (before = [] ∨ before.getLast? = some ',') ∧
      extractCity sampleForm.location = String.mk (trim after) ∧
      (extractBHK sampleForm.propertyTitle = none → bhk = .fin 2) ∧
      (extractBHK sampleForm.propertyTitle = some (.fin 0) → bhk = .fin 2) ∧
      (∀ v, v ≠ .fin 0 → extractBHK sampleForm.propertyTitle = some v → bhk = v) ∧
      (submitPrediction samplePriceServer sampleForm).requests =
        [{ Location := sampleForm.location
           City := if trim after = [] then "Unknown" else String.mk (trim after)
           BHK := bhk
           Total_Area := sampleForm.totalArea
           Price_per_SQFT := 5000
           Bathroom := sampleForm.baths
           Balcony := decide (sampleForm.balcony = "Yes") }] :=
  have h2 : extractBHK sampleForm.propertyTitle = some (.fin 2) := by
    have := extractBHK_of_search "2 BHK Flat in Andheri" ['2'] 2 (by decide) (by decide)
      (by decide)
    simpa using this
  ⟨by decide, h2, by decide, requestData_spec samplePriceServer sampleForm (by decide)⟩

set_option maxRecDepth 100000 in
theorem parseIntOfInteger_exponent_form :
    parseIntOfInteger (10 ^ 21) = 1 ∧ parseIntOfInteger 99999999999999991611392 = 1 := by
  decide

/-- Claim C24. With an empty title or an empty location the mock `handleSubmit` sets the
validation message, computes no price, stores no result and leaves `isLoading` as it was;
the live `handleSubmit` has no such check: on the form as it first renders it sends one
`POST /predict_price` body and, the server answering 200, stores the prediction with an
empty error. -/
theorem handleSubmit_missing_field :
    (∀ m : MockPredictionState, m.propertyTitle = "" ∨ m.location = "" →
      (mockHandleSubmit m).state.error
        = "Please fill in all required fields (Property Title and Location)" ∧
      (mockHandleSubmit m).state.error ≠ "" ∧
      (mockHandleSubmit m).computed = [] ∧
      (mockHandleSubmit m).state.predictionResult = none ∧
      (mockHandleSubmit m).state.isLoading = m.isLoading) ∧
    (emptyForm.propertyTitle = "" ∧ emptyForm.location = "" ∧
      (submitPrediction samplePriceServer emptyForm).requests =
        [{ Location := ""
           City := "Unknown"
           BHK := .fin 2
           Total_Area := 1200
           Price_per_SQFT := 5000
           Bathroom := 2
           Balcony := true }] ∧
      (submitPrediction samplePriceServer emptyForm).state.error = "" ∧
      (submitPrediction samplePriceServer emptyForm).state.predictionResult
        = some (.payload ⟨7500000, 3 / 4⟩) ∧
      (submitPrediction samplePriceServer emptyForm).state.isLoading = false) := by
  constructor
  · intro m hm
    simp only [mockHandleSubmit, if_pos hm]
    exact ⟨trivial, by decide, trivial, trivial, trivial⟩
  · refine ⟨rfl, rfl, by decide, ?_, ?_, ?_⟩ <;>
      simp [submitPrediction, handleSubmit, samplePriceServer, HttpResponse.ok]

/-- Claim C24, the mock half at the mock form as it first renders. -/
theorem handleSubmit_missing_field_witness :
    (mockEmptyForm.propertyTitle = "" ∨ mockEmptyForm.location = "") ∧
    (mockHandleSubmit mockEmptyForm).state.error
      = "Please fill in all required fields (Property Title and Location)" ∧
    (mockHandleSubmit mockEmptyForm).state.error ≠ "" ∧
    (mockHandleSubmit mockEmptyForm).computed = [] ∧
    (mockHandleSubmit mockEmptyForm).state.predictionResult = none ∧
    (mockHandleSubmit mockEmptyForm).state.isLoading = mockEmptyForm.isLoading :=
  ⟨Or.inl rfl, handleSubmit_missing_field.1 mockEmptyForm (Or.inl rfl)⟩

end RealtyAI
